import Mathlib

/-!
# ReSTIR DI reservoir scheduling and final shading

A shallow embedding of

* `src/Renderer/RenderPasses/ReSTIRDIRenderPass.cpp`: the host-side scheduler that
  configures and launches the ReSTIR DI kernels and rotates the reservoir buffers,
* `src/Device/includes/ReSTIR/DI/FinalShading.h` and the shading half of
  `src/Device/includes/RIS/RIS.h`: the evaluation of a finalized reservoir.

Conventions of the embedding.

* A device pointer is a natural number (an address), `0` being `nullptr`.  Only the
  identity of a reservoir buffer matters to the scheduler, never its content.
* `int` values are `Int`; no arithmetic of the scheduler can overflow.
* `float` values are rationals: exact arithmetic, no NaN, no infinity.
* Stateful code is written in state-passing style.  Kernel launches are appended to
  a log held by the render pass object, each entry carrying the settings the kernel
  was launched with.
-/

namespace HIPRT

/-! ## Scheduler: data model -/

/-- Device pointer of a buffer: an address, with `0` standing for `nullptr`. -/
abbrev DevicePointer := Nat

/-- The null device pointer. -/
def nullptr : DevicePointer := 0

/-- The part of `ReSTIRDISettings::initial_candidates` the scheduler writes (the
struct is declared in a header that is not among the sources). -/
structure InitialCandidatesSettings where
  output_reservoirs : DevicePointer
deriving DecidableEq

/-- The part of `ReSTIRDISettings::temporal_pass` the scheduler reads and writes (the
struct is declared in a header that is not among the sources). -/
structure TemporalPassSettings where
  do_temporal_reuse_pass : Bool
  permutation_sampling_random_bits : Nat
  input_reservoirs : DevicePointer
  output_reservoirs : DevicePointer
deriving DecidableEq

/-- The part of `ReSTIRDISettings::spatial_pass` the scheduler reads and writes (the
struct is declared in a header that is not among the sources). -/
structure SpatialPassSettings where
  do_spatial_reuse_pass : Bool
  number_of_passes : Int
  spatial_pass_index : Int
  input_reservoirs : DevicePointer
  output_reservoirs : DevicePointer
deriving DecidableEq

/-- The part of `ReSTIRDISettings::light_presampling` the scheduler reads and writes
(the struct is declared in a header that is not among the sources). -/
structure LightPresamplingSettings where
  number_of_subsets : Int
  subset_size : Int
  light_samples : DevicePointer
deriving DecidableEq

/-- The fields of `render_data->render_settings.restir_di_settings` used by the
scheduler. -/
structure ReSTIRDISettings where
  do_fused_spatiotemporal : Bool
  initial_candidates : InitialCandidatesSettings
  temporal_pass : TemporalPassSettings
  spatial_pass : SpatialPassSettings
  light_presampling : LightPresamplingSettings
  restir_output_reservoirs : DevicePointer
deriving DecidableEq

/-- The fields of `render_data->aux_buffers` written by `update_render_data`. -/
structure AuxBuffers where
  restir_reservoir_buffer_1 : DevicePointer
  restir_reservoir_buffer_2 : DevicePointer
  restir_reservoir_buffer_3 : DevicePointer
deriving DecidableEq

/-- The five kernels of the render pass (the `*_KERNEL_ID` keys of `m_kernels`). -/
inductive KernelId where
  | RESTIR_DI_LIGHTS_PRESAMPLING
  | RESTIR_DI_INITIAL_CANDIDATES
  | RESTIR_DI_TEMPORAL_REUSE
  | RESTIR_DI_SPATIAL_REUSE
  | RESTIR_DI_SPATIOTEMPORAL_REUSE
deriving DecidableEq

/-- One `launch_asynchronous` call: which kernel, and the ReSTIR DI settings of the
render data (or, for light presampling, of the parameters) it was launched with. -/
structure KernelLaunch where
  kernel : KernelId
  settings : ReSTIRDISettings
deriving DecidableEq

/-- The render pass object, with the members the scheduler uses (the class is
declared in a header that is not among the sources), together with what it reaches
through `m_renderer` and `render_data`.

* `restir_di_enabled` is
  `get_macro_value(DIRECT_LIGHT_SAMPLING_STRATEGY) == LSS_RESTIR_DI`;
* `do_lights_presampling` is
  `get_macro_value(RESTIR_DI_DO_LIGHTS_PRESAMPLING) == KERNEL_OPTION_TRUE`;
* `initial_candidates_reservoirs`, `spatial_output_reservoirs_1`,
  `spatial_output_reservoirs_2` and `presampled_lights_buffer` hold what
  `get_device_pointer()` returns for the buffer of that name;
* `rng` is the state of `m_renderer->rng()` and `xorshift32` its step (declared
  outside these sources): a call returns the new state;
* `launched` is the log of kernel launches, oldest first. -/
structure ReSTIRDIRenderPass where
  restir_di_enabled : Bool
  do_lights_presampling : Bool
  initial_candidates_reservoirs : DevicePointer
  spatial_output_reservoirs_1 : DevicePointer
  spatial_output_reservoirs_2 : DevicePointer
  presampled_lights_buffer : DevicePointer
  odd_frame : Bool
  rng : Nat
  xorshift32 : Nat → Nat
  random_seed : Nat
  aux_buffers : AuxBuffers
  restir_di_settings : ReSTIRDISettings
  launched : List KernelLaunch

/-! ## Scheduler: operations -/

/-- The call `m_renderer->rng().xorshift32()`: the drawn value and the pass with the
generator advanced. -/
def rng_xorshift32 (p : ReSTIRDIRenderPass) : Nat × ReSTIRDIRenderPass :=
  let v := p.xorshift32 p.rng
  (v, { p with rng := v })

/-- The call `m_kernels[id].launch_asynchronous(...)`: recorded in the log with the
settings current at the launch. -/
def launch_asynchronous (id : KernelId) (p : ReSTIRDIRenderPass) : ReSTIRDIRenderPass :=
  { p with launched := p.launched ++ [⟨id, p.restir_di_settings⟩] }

/-- Embedding of `ReSTIRDIRenderPass::update_render_data` (the content upload of the emptied
buffer is not a pointer assignment and has no counterpart here). -/
def update_render_data (p : ReSTIRDIRenderPass) : ReSTIRDIRenderPass :=
  if p.restir_di_enabled then
    { p with
      aux_buffers :=
        { restir_reservoir_buffer_1 := p.initial_candidates_reservoirs
          restir_reservoir_buffer_2 := p.spatial_output_reservoirs_1
          restir_reservoir_buffer_3 := p.spatial_output_reservoirs_2 }
      restir_di_settings :=
        { p.restir_di_settings with
          restir_output_reservoirs := p.spatial_output_reservoirs_1 } }
  else
    { p with
      aux_buffers :=
        { restir_reservoir_buffer_1 := nullptr
          restir_reservoir_buffer_2 := nullptr
          restir_reservoir_buffer_3 := nullptr } }

/-- Embedding of `ReSTIRDIRenderPass::reset`. -/
def reset (p : ReSTIRDIRenderPass) : ReSTIRDIRenderPass :=
  { p with odd_frame := false }

/-- The kernel-specific fields of `LightPresamplingParameters` and the seed; the
scene buffers copied alongside are not part of the model. -/
structure LightPresamplingParameters where
  number_of_subsets : Int
  subset_size : Int
  out_light_samples : DevicePointer
  random_seed : Nat
deriving DecidableEq

/-- Embedding of `ReSTIRDIRenderPass::configure_light_presampling_pass`: the parameters, and the
pass with the renderer generator advanced by the seed drawn. -/
def configure_light_presampling_pass (p : ReSTIRDIRenderPass) :
    LightPresamplingParameters × ReSTIRDIRenderPass :=
  let (seed, p) := rng_xorshift32 p
  ({ number_of_subsets := p.restir_di_settings.light_presampling.number_of_subsets
     subset_size := p.restir_di_settings.light_presampling.subset_size
     out_light_samples := p.presampled_lights_buffer
     random_seed := seed }, p)

/-- Embedding of `ReSTIRDIRenderPass::launch_presampling_lights_pass`; the parameters are the
launch arguments of the kernel, the log keeps the settings they were copied from. -/
def launch_presampling_lights_pass (p : ReSTIRDIRenderPass) : ReSTIRDIRenderPass :=
  launch_asynchronous KernelId.RESTIR_DI_LIGHTS_PRESAMPLING (configure_light_presampling_pass p).2

/-- Embedding of `ReSTIRDIRenderPass::configure_initial_pass`. -/
def configure_initial_pass (p : ReSTIRDIRenderPass) : ReSTIRDIRenderPass :=
  let (seed, p) := rng_xorshift32 p
  { p with
    random_seed := seed
    restir_di_settings :=
      { p.restir_di_settings with
        light_presampling :=
          { p.restir_di_settings.light_presampling with
            light_samples := p.presampled_lights_buffer }
        initial_candidates :=
          { output_reservoirs := p.initial_candidates_reservoirs } } }

/-- Embedding of `ReSTIRDIRenderPass::launch_initial_candidates_pass`. -/
def launch_initial_candidates_pass (p : ReSTIRDIRenderPass) : ReSTIRDIRenderPass :=
  launch_asynchronous KernelId.RESTIR_DI_INITIAL_CANDIDATES (configure_initial_pass p)

/-- Embedding of `ReSTIRDIRenderPass::configure_temporal_pass`. -/
def configure_temporal_pass (p : ReSTIRDIRenderPass) : ReSTIRDIRenderPass :=
  let (seed, p) := rng_xorshift32 p
  let (bits, p) := rng_xorshift32 p
  let s := p.restir_di_settings
  let out : DevicePointer :=
    if s.spatial_pass.do_spatial_reuse_pass then
      p.initial_candidates_reservoirs
    else if p.odd_frame then
      p.spatial_output_reservoirs_1
    else
      p.spatial_output_reservoirs_2
  { p with
    random_seed := seed
    restir_di_settings :=
      { s with
        temporal_pass :=
          { s.temporal_pass with
            permutation_sampling_random_bits := bits
            input_reservoirs := s.restir_output_reservoirs
            output_reservoirs := out } } }

/-- Embedding of `ReSTIRDIRenderPass::launch_temporal_reuse_pass`. -/
def launch_temporal_reuse_pass (p : ReSTIRDIRenderPass) : ReSTIRDIRenderPass :=
  launch_asynchronous KernelId.RESTIR_DI_TEMPORAL_REUSE (configure_temporal_pass p)

/-- Embedding of `ReSTIRDIRenderPass::configure_temporal_pass_for_fused_spatiotemporal`. -/
def configure_temporal_pass_for_fused_spatiotemporal (p : ReSTIRDIRenderPass) :
    ReSTIRDIRenderPass :=
  let (seed, p) := rng_xorshift32 p
  let (bits, p) := rng_xorshift32 p
  let s := p.restir_di_settings
  { p with
    random_seed := seed
    restir_di_settings :=
      { s with
        temporal_pass :=
          { s.temporal_pass with
            permutation_sampling_random_bits := bits
            input_reservoirs := s.restir_output_reservoirs
            output_reservoirs := nullptr } } }

/-- Embedding of `ReSTIRDIRenderPass::configure_spatial_pass`; `Int.land i 1` is `i & 1`. -/
def configure_spatial_pass (spatial_pass_index : Int) (p : ReSTIRDIRenderPass) :
    ReSTIRDIRenderPass :=
  let (seed, p) := rng_xorshift32 p
  let s := p.restir_di_settings
  let io : DevicePointer × DevicePointer :=
    if spatial_pass_index = 0 then
      (if s.temporal_pass.do_temporal_reuse_pass then
        s.temporal_pass.output_reservoirs
      else
        s.initial_candidates.output_reservoirs,
       p.spatial_output_reservoirs_1)
    else if Int.land spatial_pass_index 1 = 0 then
      (p.spatial_output_reservoirs_2, p.spatial_output_reservoirs_1)
    else
      (p.spatial_output_reservoirs_1, p.spatial_output_reservoirs_2)
  { p with
    random_seed := seed
    restir_di_settings :=
      { s with
        spatial_pass :=
          { s.spatial_pass with
            spatial_pass_index := spatial_pass_index
            input_reservoirs := io.1
            output_reservoirs := io.2 } } }

/-- Embedding of `ReSTIRDIRenderPass::configure_spatial_pass_for_fused_spatiotemporal`. -/
def configure_spatial_pass_for_fused_spatiotemporal (spatial_pass_index : Int)
    (p : ReSTIRDIRenderPass) : ReSTIRDIRenderPass :=
  let (seed, p) := rng_xorshift32 p
  let s := p.restir_di_settings
  let input : DevicePointer :=
    if spatial_pass_index = 0 then
      s.temporal_pass.input_reservoirs
    else
      s.spatial_pass.output_reservoirs
  let output : DevicePointer :=
    if input = p.spatial_output_reservoirs_1 then
      p.spatial_output_reservoirs_2
    else
      p.spatial_output_reservoirs_1
  { p with
    random_seed := seed
    restir_di_settings :=
      { s with
        spatial_pass :=
          { s.spatial_pass with
            spatial_pass_index := spatial_pass_index
            input_reservoirs := input
            output_reservoirs := output } } }

/-- The body of the loop of `launch_spatial_reuse_passes`. -/
def spatial_reuse_iteration (p : ReSTIRDIRenderPass) (spatial_reuse_pass : Nat) :
    ReSTIRDIRenderPass :=
  launch_asynchronous KernelId.RESTIR_DI_SPATIAL_REUSE
    (configure_spatial_pass spatial_reuse_pass p)

/-- Embedding of `ReSTIRDIRenderPass::launch_spatial_reuse_passes`: the loop
`for (i = 0; i < number_of_passes; i++)` (the timing events are not modelled). -/
def launch_spatial_reuse_passes (p : ReSTIRDIRenderPass) : ReSTIRDIRenderPass :=
  (List.range p.restir_di_settings.spatial_pass.number_of_passes.toNat).foldl
    spatial_reuse_iteration p

/-- Embedding of `ReSTIRDIRenderPass::configure_spatiotemporal_pass`. -/
def configure_spatiotemporal_pass (p : ReSTIRDIRenderPass) : ReSTIRDIRenderPass :=
  configure_spatial_pass_for_fused_spatiotemporal 0
    (configure_temporal_pass_for_fused_spatiotemporal p)

/-- The body of the loop of `launch_spatiotemporal_pass`. -/
def fused_spatial_iteration (p : ReSTIRDIRenderPass) (spatial_pass_index : Nat) :
    ReSTIRDIRenderPass :=
  launch_asynchronous KernelId.RESTIR_DI_SPATIAL_REUSE
    (configure_spatial_pass_for_fused_spatiotemporal spatial_pass_index p)

/-- Embedding of `ReSTIRDIRenderPass::launch_spatiotemporal_pass`: the fused kernel, then the loop
`for (i = 1; i < number_of_passes; i++)` under the guard `number_of_passes > 1`. -/
def launch_spatiotemporal_pass (p : ReSTIRDIRenderPass) : ReSTIRDIRenderPass :=
  let p := launch_asynchronous KernelId.RESTIR_DI_SPATIOTEMPORAL_REUSE
    (configure_spatiotemporal_pass p)
  if p.restir_di_settings.spatial_pass.number_of_passes > 1 then
    (List.range' 1 (p.restir_di_settings.spatial_pass.number_of_passes.toNat - 1)).foldl
      fused_spatial_iteration p
  else
    p

/-- Embedding of `ReSTIRDIRenderPass::configure_output_buffer`. -/
def configure_output_buffer (p : ReSTIRDIRenderPass) : ReSTIRDIRenderPass :=
  let s := p.restir_di_settings
  let out : DevicePointer :=
    if s.spatial_pass.do_spatial_reuse_pass || s.do_fused_spatiotemporal then
      s.spatial_pass.output_reservoirs
    else if s.temporal_pass.do_temporal_reuse_pass then
      s.temporal_pass.output_reservoirs
    else
      s.initial_candidates.output_reservoirs
  { p with restir_di_settings := { s with restir_output_reservoirs := out } }

/-- Embedding of `ReSTIRDIRenderPass::launch`. -/
def launch (p : ReSTIRDIRenderPass) : ReSTIRDIRenderPass :=
  if p.restir_di_enabled then
    let p := if p.do_lights_presampling then launch_presampling_lights_pass p else p
    let p := launch_initial_candidates_pass p
    let p :=
      if p.restir_di_settings.do_fused_spatiotemporal then
        launch_spatiotemporal_pass p
      else
        let p :=
          if p.restir_di_settings.temporal_pass.do_temporal_reuse_pass then
            launch_temporal_reuse_pass p
          else p
        if p.restir_di_settings.spatial_pass.do_spatial_reuse_pass then
          launch_spatial_reuse_passes p
        else p
    let p := configure_output_buffer p
    { p with odd_frame := !p.odd_frame }
  else
    p

/-! ## Scheduler: frames and observations -/

/-- The choices a user makes for one frame: the flags and the pass count that
`launch` reads, written into the pass before the frame is launched. -/
structure FrameSettings where
  do_lights_presampling : Bool
  do_fused_spatiotemporal : Bool
  do_temporal_reuse_pass : Bool
  do_spatial_reuse_pass : Bool
  number_of_passes : Int
deriving DecidableEq

/-- Writes the choices of a frame into the pass; nothing else changes. -/
def set_frame_settings (f : FrameSettings) (p : ReSTIRDIRenderPass) : ReSTIRDIRenderPass :=
  { p with
    do_lights_presampling := f.do_lights_presampling
    restir_di_settings :=
      { p.restir_di_settings with
        do_fused_spatiotemporal := f.do_fused_spatiotemporal
        temporal_pass :=
          { p.restir_di_settings.temporal_pass with
            do_temporal_reuse_pass := f.do_temporal_reuse_pass }
        spatial_pass :=
          { p.restir_di_settings.spatial_pass with
            do_spatial_reuse_pass := f.do_spatial_reuse_pass
            number_of_passes := f.number_of_passes } } }

/-- One frame: the settings of the frame are written, then `launch` is called. -/
def render_frame (p : ReSTIRDIRenderPass) (f : FrameSettings) : ReSTIRDIRenderPass :=
  launch (set_frame_settings f p)

/-- A sequence of frames, each with its own settings. -/
def render_frames (p : ReSTIRDIRenderPass) (fs : List FrameSettings) : ReSTIRDIRenderPass :=
  fs.foldl render_frame p

/-- The kernel launches made between state `p` and a later state `q`. -/
def launched_since (p q : ReSTIRDIRenderPass) : List KernelLaunch :=
  q.launched.drop p.launched.length

/-- The buffer a launched reuse pass reads its neighbours from: the temporal input
for the temporal kernel, the spatial input for the spatial and the fused kernel
(for the fused kernel the two are the same pointer).  No such buffer for the
presampling and initial-candidates kernels. -/
def KernelLaunch.input_reservoirs (l : KernelLaunch) : Option DevicePointer :=
  match l.kernel with
  | KernelId.RESTIR_DI_TEMPORAL_REUSE => some l.settings.temporal_pass.input_reservoirs
  | KernelId.RESTIR_DI_SPATIAL_REUSE => some l.settings.spatial_pass.input_reservoirs
  | KernelId.RESTIR_DI_SPATIOTEMPORAL_REUSE => some l.settings.spatial_pass.input_reservoirs
  | _ => none

/-- The buffer a launched pass writes its reservoirs to. -/
def KernelLaunch.output_reservoirs (l : KernelLaunch) : Option DevicePointer :=
  match l.kernel with
  | KernelId.RESTIR_DI_INITIAL_CANDIDATES => some l.settings.initial_candidates.output_reservoirs
  | KernelId.RESTIR_DI_TEMPORAL_REUSE => some l.settings.temporal_pass.output_reservoirs
  | KernelId.RESTIR_DI_SPATIAL_REUSE => some l.settings.spatial_pass.output_reservoirs
  | KernelId.RESTIR_DI_SPATIOTEMPORAL_REUSE => some l.settings.spatial_pass.output_reservoirs
  | KernelId.RESTIR_DI_LIGHTS_PRESAMPLING => none

/-- Kernel, input buffer and output buffer of a launch. -/
def KernelLaunch.summary (l : KernelLaunch) :
    KernelId × Option DevicePointer × Option DevicePointer :=
  (l.kernel, l.input_reservoirs, l.output_reservoirs)

/-- The three reservoir buffers of the pass are pairwise distinct. -/
def buffers_distinct (p : ReSTIRDIRenderPass) : Prop :=
  p.initial_candidates_reservoirs ≠ p.spatial_output_reservoirs_1 ∧
  p.initial_candidates_reservoirs ≠ p.spatial_output_reservoirs_2 ∧
  p.spatial_output_reservoirs_1 ≠ p.spatial_output_reservoirs_2

instance (p : ReSTIRDIRenderPass) : Decidable (buffers_distinct p) := by
  unfold buffers_distinct; infer_instance

/-- A concrete render pass right after construction: ReSTIR DI selected, three
buffers at distinct addresses, every pass pointer still null. -/
def example_pass : ReSTIRDIRenderPass where
  restir_di_enabled := true
  do_lights_presampling := false
  initial_candidates_reservoirs := 1000
  spatial_output_reservoirs_1 := 2000
  spatial_output_reservoirs_2 := 3000
  presampled_lights_buffer := 4000
  odd_frame := false
  rng := 42
  xorshift32 := fun x => x + 1
  random_seed := 0
  aux_buffers := ⟨nullptr, nullptr, nullptr⟩
  restir_di_settings :=
    { do_fused_spatiotemporal := false
      initial_candidates := ⟨nullptr⟩
      temporal_pass := ⟨true, 0, nullptr, nullptr⟩
      spatial_pass := ⟨true, 1, 0, nullptr, nullptr⟩
      light_presampling := ⟨1, 1, nullptr⟩
      restir_output_reservoirs := nullptr }
  launched := []

/-- The state the claims start from: `update_render_data()` then `reset()`. -/
def example_initial : ReSTIRDIRenderPass := reset (update_render_data example_pass)

/-! ## Scheduler: frame configuration and closed forms -/

/-- The fields that no configure or launch step of a frame writes before the frame
ends with `configure_output_buffer` and the parity toggle: the selected strategy,
the buffers, the parity flag, the per-frame choices and the recorded output of the
previous frame. -/
structure FrameConfig where
  restir_di_enabled : Bool
  do_lights_presampling : Bool
  initial_candidates_reservoirs : DevicePointer
  spatial_output_reservoirs_1 : DevicePointer
  spatial_output_reservoirs_2 : DevicePointer
  presampled_lights_buffer : DevicePointer
  odd_frame : Bool
  do_fused_spatiotemporal : Bool
  do_temporal_reuse_pass : Bool
  do_spatial_reuse_pass : Bool
  number_of_passes : Int
  restir_output_reservoirs : DevicePointer

/-- The frame configuration of a pass. -/
def config_of (p : ReSTIRDIRenderPass) : FrameConfig where
  restir_di_enabled := p.restir_di_enabled
  do_lights_presampling := p.do_lights_presampling
  initial_candidates_reservoirs := p.initial_candidates_reservoirs
  spatial_output_reservoirs_1 := p.spatial_output_reservoirs_1
  spatial_output_reservoirs_2 := p.spatial_output_reservoirs_2
  presampled_lights_buffer := p.presampled_lights_buffer
  odd_frame := p.odd_frame
  do_fused_spatiotemporal := p.restir_di_settings.do_fused_spatiotemporal
  do_temporal_reuse_pass := p.restir_di_settings.temporal_pass.do_temporal_reuse_pass
  do_spatial_reuse_pass := p.restir_di_settings.spatial_pass.do_spatial_reuse_pass
  number_of_passes := p.restir_di_settings.spatial_pass.number_of_passes
  restir_output_reservoirs := p.restir_di_settings.restir_output_reservoirs

/-- What the spatial loop never touches besides the frame configuration. -/
def loop_frame (p : ReSTIRDIRenderPass) :
    FrameConfig × TemporalPassSettings × InitialCandidatesSettings :=
  (config_of p, p.restir_di_settings.temporal_pass, p.restir_di_settings.initial_candidates)

/-- The ping-pong partner chosen by the fused variant: the second spatial buffer
when the input is the first one, the first one otherwise. -/
def other_buffer (p : ReSTIRDIRenderPass) (input : DevicePointer) : DevicePointer :=
  if input = p.spatial_output_reservoirs_1 then p.spatial_output_reservoirs_2
  else p.spatial_output_reservoirs_1

/-- Kernel, input buffer and output buffer of a launch, as listed by
`KernelLaunch.summary`. -/
abbrev LaunchSummary := KernelId × Option DevicePointer × Option DevicePointer

/-- The ping-pong partner of a buffer, on a frame configuration. -/
def FrameConfig.other (c : FrameConfig) (input : DevicePointer) : DevicePointer :=
  if input = c.spatial_output_reservoirs_1 then c.spatial_output_reservoirs_2
  else c.spatial_output_reservoirs_1

/-- Closed form of the output buffer `configure_temporal_pass` selects. -/
def FrameConfig.temporal_output (c : FrameConfig) : DevicePointer :=
  if c.do_spatial_reuse_pass then c.initial_candidates_reservoirs
  else if c.odd_frame then c.spatial_output_reservoirs_1
  else c.spatial_output_reservoirs_2

/-- Closed form of the launch of the non-fused spatial pass `k` of a frame. -/
def FrameConfig.spatial_summary (c : FrameConfig) (k : Nat) : LaunchSummary :=
  (KernelId.RESTIR_DI_SPATIAL_REUSE,
   some (if k = 0 then
          (if c.do_temporal_reuse_pass then c.temporal_output
           else c.initial_candidates_reservoirs)
        else if k % 2 = 0 then c.spatial_output_reservoirs_2
        else c.spatial_output_reservoirs_1),
   some (if k % 2 = 0 then c.spatial_output_reservoirs_1
        else c.spatial_output_reservoirs_2))

/-- Closed form of the launch of pass `j` of a fused frame: the fused kernel for
`j = 0`, the spatial kernel afterwards. -/
def FrameConfig.fused_summary (c : FrameConfig) (j : Nat) : LaunchSummary :=
  (if j = 0 then KernelId.RESTIR_DI_SPATIOTEMPORAL_REUSE else KernelId.RESTIR_DI_SPATIAL_REUSE,
   some (c.other^[j] c.restir_output_reservoirs),
   some (c.other^[j + 1] c.restir_output_reservoirs))

/-- Closed form of the reuse launches of a frame. -/
def FrameConfig.reuse_summary (c : FrameConfig) : List LaunchSummary :=
  if c.do_fused_spatiotemporal then
    (List.range (1 + (c.number_of_passes.toNat - 1))).map c.fused_summary
  else
    (if c.do_temporal_reuse_pass then
      [(KernelId.RESTIR_DI_TEMPORAL_REUSE, some c.restir_output_reservoirs,
        some c.temporal_output)]
    else []) ++
    (if c.do_spatial_reuse_pass then
      (List.range c.number_of_passes.toNat).map c.spatial_summary
    else [])

/-- Closed form of all the launches of a frame with ReSTIR DI selected. -/
def FrameConfig.frame_summary (c : FrameConfig) : List LaunchSummary :=
  (if c.do_lights_presampling then
    [(KernelId.RESTIR_DI_LIGHTS_PRESAMPLING, none, none)]
  else []) ++
  (KernelId.RESTIR_DI_INITIAL_CANDIDATES, none, some c.initial_candidates_reservoirs) ::
  c.reuse_summary

/-- State `q` was reached from `p` by launching kernels whose summaries are `T`. -/
def Extends (p q : ReSTIRDIRenderPass) (T : List LaunchSummary) : Prop :=
  ∃ L : List KernelLaunch, q.launched = p.launched ++ L ∧ L.map KernelLaunch.summary = T

/-- The state of `launch` after the presampling and initial-candidates passes. -/
def frame_after_initial (p : ReSTIRDIRenderPass) : ReSTIRDIRenderPass :=
  launch_initial_candidates_pass
    (if p.do_lights_presampling then launch_presampling_lights_pass p else p)

/-- The state of `launch` after the temporal pass, in a non-fused frame. -/
def frame_after_temporal (p : ReSTIRDIRenderPass) : ReSTIRDIRenderPass :=
  if (frame_after_initial p).restir_di_settings.temporal_pass.do_temporal_reuse_pass then
    launch_temporal_reuse_pass (frame_after_initial p)
  else frame_after_initial p

/-- The state of `launch` after the reuse passes, before `configure_output_buffer`. -/
def frame_after_reuse (p : ReSTIRDIRenderPass) : ReSTIRDIRenderPass :=
  if (frame_after_initial p).restir_di_settings.do_fused_spatiotemporal then
    launch_spatiotemporal_pass (frame_after_initial p)
  else if (frame_after_temporal p).restir_di_settings.spatial_pass.do_spatial_reuse_pass then
    launch_spatial_reuse_passes (frame_after_temporal p)
  else frame_after_temporal p

/-- Closed form of the buffer `configure_output_buffer` records at the end of a
frame; `stale` is the value `spatial_pass.output_reservoirs` had before the frame,
which is what is recorded when spatial reuse is selected with no pass to run. -/
def FrameConfig.final_output (c : FrameConfig) (stale : DevicePointer) : DevicePointer :=
  if c.do_fused_spatiotemporal then
    c.other^[1 + (c.number_of_passes.toNat - 1)] c.restir_output_reservoirs
  else if c.do_spatial_reuse_pass then
    (if c.number_of_passes.toNat = 0 then stale
     else if (c.number_of_passes.toNat - 1) % 2 = 0 then c.spatial_output_reservoirs_1
     else c.spatial_output_reservoirs_2)
  else if c.do_temporal_reuse_pass then c.temporal_output
  else c.initial_candidates_reservoirs

/-- Pass `b` continues pass `a` in ping-pong fashion: it reads the buffer `a` wrote,
and writes the one of the two spatial buffers that it does not read. -/
def ping_pong (p : ReSTIRDIRenderPass) (a b : KernelLaunch) : Prop :=
  ∃ i o : DevicePointer,
    a.output_reservoirs = some i ∧ b.input_reservoirs = some i ∧ b.output_reservoirs = some o ∧
    o ≠ i ∧
    ((i = p.spatial_output_reservoirs_1 ∧ o = p.spatial_output_reservoirs_2) ∨
     (i = p.spatial_output_reservoirs_2 ∧ o = p.spatial_output_reservoirs_1))

/-- The frame settings of the concrete examples: presampling off, non-fused. -/
def example_frame (temporal spatial : Bool) (number_of_passes : Int) : FrameSettings :=
  ⟨false, false, temporal, spatial, number_of_passes⟩

/-- The frame settings of the concrete fused examples: presampling off, fused. -/
def example_fused_frame (number_of_passes : Int) : FrameSettings :=
  ⟨false, true, true, true, number_of_passes⟩

/-- The initial example state with three spatial passes selected. -/
def example_three_passes : ReSTIRDIRenderPass :=
  set_frame_settings (example_frame true true 3) example_initial

/-- Invariant of the temporal-only rotation, relative to the pass `p` the frames
started from: ReSTIR DI stays selected, the buffers stay where they are, the
recorded output follows the parity flag, and every temporal pass launched since `p`
wrote a buffer that is neither the one it read nor the initial-candidates buffer. -/
def parity_invariant (p q : ReSTIRDIRenderPass) : Prop :=
  q.restir_di_enabled = true ∧
  q.initial_candidates_reservoirs = p.initial_candidates_reservoirs ∧
  q.spatial_output_reservoirs_1 = p.spatial_output_reservoirs_1 ∧
  q.spatial_output_reservoirs_2 = p.spatial_output_reservoirs_2 ∧
  q.restir_di_settings.restir_output_reservoirs
    = (if q.odd_frame then p.spatial_output_reservoirs_2 else p.spatial_output_reservoirs_1) ∧
  ∃ T : List LaunchSummary, Extends p q T ∧
    ∀ t ∈ T, t.1 = KernelId.RESTIR_DI_TEMPORAL_REUSE →
      ∃ i o : DevicePointer, t.2.1 = some i ∧ t.2.2 = some o ∧ o ≠ i ∧
        o ≠ p.initial_candidates_reservoirs

/-- A frame with temporal reuse on, spatial reuse off and fused mode off. -/
def temporal_only (f : FrameSettings) : Prop :=
  f.do_fused_spatiotemporal = false ∧ f.do_temporal_reuse_pass = true ∧
  f.do_spatial_reuse_pass = false

instance (f : FrameSettings) : Decidable (temporal_only f) := by
  unfold temporal_only; infer_instance

/-! ## Machine integers

`int` and `unsigned int` are 32 bits wide and `size_t` is 64 bits wide. -/

/-- The value of a 32-bit `int` holding the integer `v`: `v` itself in the range of
the type, and the two's complement wrap-around outside of it (signed overflow is
undefined in C++; the wrap-around is what the targets of this code do). -/
def int_wrap (v : Int) : Int := (v + 2 ^ 31) % 2 ^ 32 - 2 ^ 31

/-- The conversion of an `int` to `unsigned int`: the value modulo `2^32`. -/
def to_unsigned (v : Int) : Nat := (v % 2 ^ 32).toNat

/-- The value of a 32-bit `unsigned int` holding the natural number `n`. -/
def unsigned_wrap (n : Nat) : Nat := n % 2 ^ 32

/-- The value of a 64-bit `size_t` holding the natural number `n`. -/
def size_t_wrap (n : Nat) : Nat := n % 2 ^ 64

/-! ## Shading: data model

`float` is modelled by `ℚ`: arithmetic is exact, and a division by zero yields `0`
where the device would produce an infinity or a NaN.  Types and helpers declared in
headers outside these sources (`ColorRGB32F`, `float3`, `HitInfo`, `RayPayload`, the
reservoirs, the sample flags) are modelled with the fields the code uses. -/

/-- Three floats (`float3`). -/
structure float3 where
  x : ℚ
  y : ℚ
  z : ℚ
deriving DecidableEq

/-- Two ints (`int2`). -/
structure int2 where
  x : Int
  y : Int
deriving DecidableEq

/-- Linear RGB colour (`ColorRGB32F`). -/
structure ColorRGB32F where
  r : ℚ
  g : ℚ
  b : ℚ
deriving DecidableEq

/-- Modelled from the spec: `ColorRGB32F(0.0f)`, the zero radiance; the default
constructor of `ColorRGB32F`, not among the sources, is taken to give the same. -/
def ColorRGB32F.black : ColorRGB32F := ⟨0, 0, 0⟩

/-- Modelled from the spec: the operator `ColorRGB32F * ColorRGB32F`, whose header is
not among the sources; component-wise product. -/
def ColorRGB32F.mul (a b : ColorRGB32F) : ColorRGB32F := ⟨a.r * b.r, a.g * b.g, a.b * b.b⟩

/-- Modelled from the spec: the operator `ColorRGB32F * float`, whose header is not
among the sources; every channel is scaled. -/
def ColorRGB32F.scale (a : ColorRGB32F) (k : ℚ) : ColorRGB32F := ⟨a.r * k, a.g * k, a.b * k⟩

/-- Modelled from the spec: the operator `ColorRGB32F / float`, whose header is not
among the sources; every channel is divided. -/
def ColorRGB32F.div (a : ColorRGB32F) (k : ℚ) : ColorRGB32F := ⟨a.r / k, a.g / k, a.b / k⟩

/-- Modelled from the spec: the operator `float3 - float3`, whose header is not among
the sources. -/
def float3.sub (a b : float3) : float3 := ⟨a.x - b.x, a.y - b.y, a.z - b.z⟩

/-- Modelled from the spec: the operator `float3 + float3`, whose header is not among
the sources. -/
def float3.add (a b : float3) : float3 := ⟨a.x + b.x, a.y + b.y, a.z + b.z⟩

/-- Modelled from the spec: the operator `float3 * float`, whose header is not among
the sources. -/
def float3.scale (a : float3) (k : ℚ) : float3 := ⟨a.x * k, a.y * k, a.z * k⟩

/-- Modelled from the spec: the operator `float3 / float`, whose header is not among
the sources. -/
def float3.div (a : float3) (k : ℚ) : float3 := ⟨a.x / k, a.y / k, a.z / k⟩

/-- Modelled from the spec: `hippt::dot`, the dot product (cosine of §4.3 for unit
vectors). -/
def hippt_dot (a b : float3) : ℚ := a.x * b.x + a.y * b.y + a.z * b.z

/-- Modelled from the spec: `hippt::abs`, whose header is not among the sources; the
absolute value. -/
def hippt_abs (a : ℚ) : ℚ := if a < 0 then -a else a

/-- Modelled from the spec: `hippt::max`, whose header is not among the sources; the
larger of two floats. -/
def hippt_max (a b : ℚ) : ℚ := if a > b then a else b

/-- Origin and direction of a ray (`hiprtRay`). -/
structure hiprtRay where
  origin : float3
  direction : float3
deriving DecidableEq

/-- The fields of `HitInfo` read by the shading code. -/
structure HitInfo where
  inter_point : float3
  shading_normal : float3
  geometric_normal : float3
  primitive_index : Int
deriving DecidableEq

/-- The fields of `RayPayload` read by the shading code; the material and the volume
state are opaque handles, only ever passed on to the BSDF dispatcher. -/
structure RayPayload where
  material : Nat
  volume_state : Nat
  bounce : Int
deriving DecidableEq

/-- The fields of `ReSTIRDISample` used by the shading code; `flags` is the bit mask
of `ReSTIRDISampleFlags`. -/
structure ReSTIRDISample where
  point_on_light_source : float3
  emissive_triangle_index : Int
  flags : Nat
  target_function : ℚ
deriving DecidableEq

/-- Modelled from the spec: `ReSTIRDIReservoir`, whose header is not among the
sources, as the Reservoir of the data model: retained sample, unbiased contribution
weight, candidate count and running weight sum. -/
structure ReSTIRDIReservoir where
  sample : ReSTIRDISample
  UCW : ℚ
  M : Int
  weight_sum : ℚ
deriving DecidableEq

/-- The fields of `RISSample` the code reads and writes. -/
structure RISSample where
  is_bsdf_sample : Bool
  point_on_light_source : float3
  emissive_triangle_index : Int
  target_function : ℚ
  bsdf_sample_contribution : ColorRGB32F
  bsdf_sample_cosine_term : ℚ
deriving DecidableEq

/-- Modelled from the spec: `RISReservoir`, whose header is not among the sources, as
the Reservoir of the data model: retained sample, unbiased contribution weight,
candidate count and running weight sum. -/
structure RISReservoir where
  sample : RISSample
  UCW : ℚ
  M : Int
  weight_sum : ℚ
deriving DecidableEq

/-- The fields of `NEEPlusPlusContext` used by `evaluate_reservoir_sample`. -/
structure NEEPlusPlusContext where
  point_on_light : float3
  shaded_point : float3
  unoccluded_probability : ℚ
deriving DecidableEq

/-- The divisors that are a pdf, a probability or a throughput component: the
divisions by one of them are recorded in the device state with the divisor's value. -/
inductive DivisionSite where
  | light_sample_pdf
  | bsdf_pdf
  | light_pdf
  | bsdf_sample_pdf
  | unoccluded_probability
  | survive_probability
  | throughput_max_component
deriving DecidableEq

/-- A call to an external collaborator, or a division by a pdf or a probability, as
recorded in the device state. -/
inductive Query where
  | shadow_ray (ray : hiprtRay) (t_max : ℚ)
  | shadow_ray_nee_plus_plus (ray : hiprtRay) (t_max : ℚ)
  | bsdf_eval (to_light_direction : float3)
  | envmap_eval (direction : float3)
  | division (site : DivisionSite) (divisor : ℚ)
  | sample_emissive_triangle
  | bsdf_sample
  | shadow_light_ray (ray : hiprtRay) (t_max : ℚ)
  | check_minimum_light_contribution (contribution : ColorRGB32F)
  | balance_heuristic (pdf_a : ℚ) (nb_pdf_a : Int) (pdf_b : ℚ) (nb_pdf_b : Int)
  | add_one_candidate (sample : RISSample) (weight : ℚ)
  | reservoir_end
  | mis_ray_reuse_fill (bsdf_sample_pdf : ℚ) (hit_found : Bool)
  | random_number
deriving DecidableEq

/-- What a device function threads through its calls: the state of the
`Xorshift32Generator` it was given, the state of the persistent NEE++ visibility
cache held by the render data, and the log of the collaborator calls made. -/
structure DeviceState where
  rng : Nat
  nee_plus_plus : Nat
  queries : List Query
deriving DecidableEq

/-- The render data read by the shading code, and the collaborators it calls.  The
constants of `ReSTIRDISampleFlags` and `AmbientLightType`, and every function below,
are declared outside these sources and are parameters of the model.

* `envmap_to_world` is `matrix_X_vec(world_settings.envmap_to_world_matrix, ·)`;
* `length` is `hippt::length`;
* `evaluate_shadow_ray ray t_max last_primitive bounce rng` returns whether the ray
  is occluded and the advanced generator;
* `evaluate_shadow_ray_nee_plus_plus ray t_max last_primitive context rng bounce cache`
  returns the same together with the updated context and cache;
* `bsdf_dispatcher_eval material volume_state view shading_normal geometric_normal
  to_light rng bounce incident_light_info` returns the BSDF value, its pdf and the
  advanced generator;
* `envmap_eval direction` returns the radiance and the pdf;
* `default_context` is a default-constructed `NEEPlusPlusContext`, and
  `default_incident_light_info` the default last argument of `bsdf_dispatcher_eval`. -/
structure HIPRTRenderData where
  RESTIR_DI_FLAGS_ENVMAP_SAMPLE : Nat
  RESTIR_DI_FLAGS_UNOCCLUDED : Nat
  RESTIR_DI_FLAGS_SAMPLED_FROM_GLASS_REFRACT_LOBE : Nat
  AmbientLightType_ENVMAP : Nat
  ambient_light_type : Nat
  envmap_to_world : float3 → float3
  render_resolution : int2
  do_final_shading_visibility : Bool
  material_indices : Int → Int
  get_emission : Int → ColorRGB32F
  length : float3 → ℚ
  evaluate_shadow_ray : hiprtRay → ℚ → Int → Int → Nat → Bool × Nat
  evaluate_shadow_ray_nee_plus_plus :
    hiprtRay → ℚ → Int → NEEPlusPlusContext → Nat → Int → Nat → Bool × NEEPlusPlusContext × Nat × Nat
  bsdf_dispatcher_eval :
    Nat → Nat → float3 → float3 → float3 → float3 → Nat → Int → Nat → ColorRGB32F × ℚ × Nat
  envmap_eval : float3 → ColorRGB32F × ℚ
  flags_to_BSDF_incident_light_info : Nat → Nat
  default_context : NEEPlusPlusContext
  default_incident_light_info : Nat

/-! ## Shading: operations -/

/-- Records a division by a pdf or a probability; the state is otherwise unchanged. -/
def log_division (site : DivisionSite) (divisor : ℚ) (st : DeviceState) : DeviceState :=
  { st with queries := st.queries ++ [Query.division site divisor] }

/-- The test `sample.flags & flag` of the C++ code: some bit of `flag` is set. -/
def has_flag (flags flag : Nat) : Bool := (flags &&& flag) != 0

/-- The call `evaluate_shadow_ray(...)`, logged. -/
def call_evaluate_shadow_ray (rd : HIPRTRenderData) (ray : hiprtRay) (t_max : ℚ)
    (last_primitive_index bounce : Int) (st : DeviceState) : Bool × DeviceState :=
  let r := rd.evaluate_shadow_ray ray t_max last_primitive_index bounce st.rng
  (r.1, { st with rng := r.2, queries := st.queries ++ [Query.shadow_ray ray t_max] })

/-- The call `evaluate_shadow_ray_nee_plus_plus(...)`, logged. -/
def call_evaluate_shadow_ray_nee_plus_plus (rd : HIPRTRenderData) (ray : hiprtRay) (t_max : ℚ)
    (last_primitive_index : Int) (context : NEEPlusPlusContext) (bounce : Int)
    (st : DeviceState) : Bool × NEEPlusPlusContext × DeviceState :=
  let r := rd.evaluate_shadow_ray_nee_plus_plus ray t_max last_primitive_index context
    st.rng bounce st.nee_plus_plus
  (r.1, r.2.1,
   { rng := r.2.2.1, nee_plus_plus := r.2.2.2,
     queries := st.queries ++ [Query.shadow_ray_nee_plus_plus ray t_max] })

/-- The call `bsdf_dispatcher_eval(...)`, logged. -/
def call_bsdf_dispatcher_eval (rd : HIPRTRenderData) (ray_payload : RayPayload)
    (view_direction : float3) (closest_hit_info : HitInfo) (to_light_direction : float3)
    (bounce : Int) (incident_light_info : Nat) (st : DeviceState) :
    ColorRGB32F × ℚ × DeviceState :=
  let r := rd.bsdf_dispatcher_eval ray_payload.material ray_payload.volume_state view_direction
    closest_hit_info.shading_normal closest_hit_info.geometric_normal to_light_direction
    st.rng bounce incident_light_info
  (r.1, r.2.1,
   { st with rng := r.2.2, queries := st.queries ++ [Query.bsdf_eval to_light_direction] })

/-- The call `envmap_eval(...)`, logged. -/
def call_envmap_eval (rd : HIPRTRenderData) (direction : float3) (st : DeviceState) :
    ColorRGB32F × ℚ × DeviceState :=
  let r := rd.envmap_eval direction
  (r.1, r.2, { st with queries := st.queries ++ [Query.envmap_eval direction] })

/-- Embedding of `evaluate_ReSTIR_DI_reservoir` of `FinalShading.h`. -/
def evaluate_ReSTIR_DI_reservoir (rd : HIPRTRenderData) (ray_payload : RayPayload)
    (closest_hit_info : HitInfo) (view_direction : float3) (reservoir : ReSTIRDIReservoir)
    (st : DeviceState) : ColorRGB32F × DeviceState :=
  let final_color : ColorRGB32F := ColorRGB32F.black
  if reservoir.UCW ≤ 0 then
    (ColorRGB32F.black, st)
  else
    let sample := reservoir.sample
    let ray : float3 × ℚ :=
      if has_flag sample.flags rd.RESTIR_DI_FLAGS_ENVMAP_SAMPLE then
        (rd.envmap_to_world sample.point_on_light_source, (10 : ℚ) ^ 35)
      else
        let d := sample.point_on_light_source.sub closest_hit_info.inter_point
        (d.div (rd.length d), rd.length d)
    let shadow_ray_direction := ray.1
    let distance_to_light := ray.2
    let shadow : Bool × DeviceState :=
      if has_flag sample.flags rd.RESTIR_DI_FLAGS_UNOCCLUDED then
        (false, st)
      else if rd.do_final_shading_visibility then
        call_evaluate_shadow_ray rd ⟨closest_hit_info.inter_point, shadow_ray_direction⟩
          distance_to_light closest_hit_info.primitive_index 0 st
      else
        (false, st)
    let in_shadow := shadow.1
    let st := shadow.2
    if !in_shadow then
      let bsdf := call_bsdf_dispatcher_eval rd ray_payload view_direction closest_hit_info
        shadow_ray_direction 0 (rd.flags_to_BSDF_incident_light_info sample.flags) st
      let bsdf_color := bsdf.1
      let st := bsdf.2.2
      let cosine := hippt_dot closest_hit_info.shading_normal shadow_ray_direction
      let cosine_at_evaluated_point :=
        if has_flag sample.flags rd.RESTIR_DI_FLAGS_SAMPLED_FROM_GLASS_REFRACT_LOBE then
          hippt_abs cosine
        else cosine
      if cosine_at_evaluated_point > 0 then
        let emission : ColorRGB32F × DeviceState :=
          if has_flag sample.flags rd.RESTIR_DI_FLAGS_ENVMAP_SAMPLE then
            let e := call_envmap_eval rd shadow_ray_direction st
            (e.1, e.2.2)
          else
            (rd.get_emission (rd.material_indices sample.emissive_triangle_index), st)
        ((((bsdf_color.scale reservoir.UCW).mul emission.1).scale cosine_at_evaluated_point),
          emission.2)
      else
        (final_color, st)
    else
      (final_color, st)

/-- Embedding of `validate_reservoir` of `FinalShading.h`, on the reservoir it is given by
reference: the result is the reservoir after the call. -/
def validate_reservoir (rd : HIPRTRenderData) (reservoir : ReSTIRDIReservoir) :
    ReSTIRDIReservoir :=
  if has_flag reservoir.sample.flags rd.RESTIR_DI_FLAGS_ENVMAP_SAMPLE
      && (rd.ambient_light_type != rd.AmbientLightType_ENVMAP) then
    { reservoir with UCW := 0 }
  else
    reservoir

/-- Embedding of `sample_light_ReSTIR_DI` of `FinalShading.h`.  The buffer
`restir_output_reservoirs` is device memory indexed by the pixel index, an `int`
computed on `int`; the slot is bound by reference, so what `validate_reservoir` does
to it lands in the buffer. -/
def sample_light_ReSTIR_DI (rd : HIPRTRenderData)
    (restir_output_reservoirs : Int → ReSTIRDIReservoir) (ray_payload : RayPayload)
    (closest_hit_info : HitInfo) (view_direction : float3) (st : DeviceState)
    (pixel_coords : int2) : ColorRGB32F × (Int → ReSTIRDIReservoir) × DeviceState :=
  let pixel_index :=
    int_wrap (pixel_coords.x + int_wrap (pixel_coords.y * rd.render_resolution.x))
  let reservoir := validate_reservoir rd (restir_output_reservoirs pixel_index)
  let buffer := Function.update restir_output_reservoirs pixel_index reservoir
  let shaded := evaluate_ReSTIR_DI_reservoir rd ray_payload closest_hit_info view_direction
    reservoir st
  (shaded.1, buffer, shaded.2)

/-- Embedding of `evaluate_reservoir_sample` of `RIS.h`. -/
def evaluate_reservoir_sample (rd : HIPRTRenderData) (ray_payload : RayPayload)
    (closest_hit_info : HitInfo) (view_direction : float3) (reservoir : RISReservoir)
    (st : DeviceState) : ColorRGB32F × DeviceState :=
  let final_color : ColorRGB32F := ColorRGB32F.black
  if reservoir.UCW ≤ 0 then
    (ColorRGB32F.black, st)
  else
    let sample := reservoir.sample
    let evaluated_point :=
      closest_hit_info.inter_point.add (closest_hit_info.shading_normal.scale (1 / 10000))
    let shadow_ray_direction := sample.point_on_light_source.sub evaluated_point
    let distance_to_light := rd.length shadow_ray_direction
    let shadow_ray_direction_normalized := shadow_ray_direction.div distance_to_light
    let nee_plus_plus_context := rd.default_context
    let shadow : Bool × NEEPlusPlusContext × DeviceState :=
      if sample.is_bsdf_sample then
        (false, nee_plus_plus_context, st)
      else
        call_evaluate_shadow_ray_nee_plus_plus rd
          ⟨evaluated_point, shadow_ray_direction_normalized⟩ distance_to_light
          closest_hit_info.primitive_index
          { nee_plus_plus_context with
            point_on_light := sample.point_on_light_source
            shaded_point := evaluated_point }
          ray_payload.bounce st
    let in_shadow := shadow.1
    let nee_plus_plus_context := shadow.2.1
    let st := shadow.2.2
    if !in_shadow then
      let shading : ColorRGB32F × ℚ × DeviceState :=
        if sample.is_bsdf_sample then
          (sample.bsdf_sample_contribution, sample.bsdf_sample_cosine_term, st)
        else
          let bsdf := call_bsdf_dispatcher_eval rd ray_payload view_direction closest_hit_info
            shadow_ray_direction_normalized ray_payload.bounce rd.default_incident_light_info st
          (bsdf.1,
           hippt_max 0 (hippt_dot closest_hit_info.shading_normal shadow_ray_direction_normalized),
           bsdf.2.2)
      let bsdf_color := shading.1
      let cosine_at_evaluated_point := shading.2.1
      let st := shading.2.2
      if cosine_at_evaluated_point > 0 then
        let sample_emission :=
          rd.get_emission (rd.material_indices sample.emissive_triangle_index)
        let final_color :=
          ((bsdf_color.scale reservoir.UCW).mul sample_emission).scale cosine_at_evaluated_point
        if !sample.is_bsdf_sample then
          (final_color.div nee_plus_plus_context.unoccluded_probability,
           log_division DivisionSite.unoccluded_probability
             nee_plus_plus_context.unoccluded_probability st)
        else
          (final_color, st)
      else
        (final_color, st)
    else
      (final_color, st)

/-! ## Shading: the quantities the shading claims speak about -/

/-- The point `evaluate_reservoir_sample` shades from: the hit point pushed along the
shading normal by `1.0e-4`. -/
def ris_evaluated_point (closest_hit_info : HitInfo) : float3 :=
  closest_hit_info.inter_point.add (closest_hit_info.shading_normal.scale (1 / 10000))

/-- The distance to the light point in `evaluate_reservoir_sample`. -/
def ris_distance_to_light (rd : HIPRTRenderData) (closest_hit_info : HitInfo)
    (sample : RISSample) : ℚ :=
  rd.length (sample.point_on_light_source.sub (ris_evaluated_point closest_hit_info))

/-- The normalized direction to the light point in `evaluate_reservoir_sample`. -/
def ris_direction_to_light (rd : HIPRTRenderData) (closest_hit_info : HitInfo)
    (sample : RISSample) : float3 :=
  (sample.point_on_light_source.sub (ris_evaluated_point closest_hit_info)).div
    (ris_distance_to_light rd closest_hit_info sample)

/-- The shadow-ray query `evaluate_reservoir_sample` makes for a light-origin sample:
occlusion, the context with the cache's unoccluded probability, and the state
after the query. -/
def ris_shadow_query (rd : HIPRTRenderData) (ray_payload : RayPayload)
    (closest_hit_info : HitInfo) (sample : RISSample) (st : DeviceState) :
    Bool × NEEPlusPlusContext × DeviceState :=
  call_evaluate_shadow_ray_nee_plus_plus rd
    ⟨ris_evaluated_point closest_hit_info, ris_direction_to_light rd closest_hit_info sample⟩
    (ris_distance_to_light rd closest_hit_info sample) closest_hit_info.primitive_index
    { rd.default_context with
      point_on_light := sample.point_on_light_source
      shaded_point := ris_evaluated_point closest_hit_info }
    ray_payload.bounce st

/-- The BSDF evaluation `evaluate_reservoir_sample` makes for a light-origin sample
that is not occluded, from the state the shadow-ray query left. -/
def ris_bsdf_eval (rd : HIPRTRenderData) (ray_payload : RayPayload)
    (closest_hit_info : HitInfo) (view_direction : float3) (sample : RISSample)
    (st : DeviceState) : ColorRGB32F × ℚ × DeviceState :=
  call_bsdf_dispatcher_eval rd ray_payload view_direction closest_hit_info
    (ris_direction_to_light rd closest_hit_info sample) ray_payload.bounce
    rd.default_incident_light_info
    (ris_shadow_query rd ray_payload closest_hit_info sample st).2.2

/-- The cosine `max(0, dot(shading_normal, direction to the light point))`. -/
def ris_cosine (rd : HIPRTRenderData) (closest_hit_info : HitInfo) (sample : RISSample) : ℚ :=
  hippt_max 0
    (hippt_dot closest_hit_info.shading_normal (ris_direction_to_light rd closest_hit_info sample))

/-- The direction and the distance of the shadow ray of `evaluate_ReSTIR_DI_reservoir`:
the environment-map direction brought to world space and `1.0e35` for an
environment-map sample, the normalized vector to the light point and its length
otherwise. -/
def restir_shadow_ray (rd : HIPRTRenderData) (closest_hit_info : HitInfo)
    (sample : ReSTIRDISample) : float3 × ℚ :=
  if has_flag sample.flags rd.RESTIR_DI_FLAGS_ENVMAP_SAMPLE then
    (rd.envmap_to_world sample.point_on_light_source, (10 : ℚ) ^ 35)
  else
    ((sample.point_on_light_source.sub closest_hit_info.inter_point).div
        (rd.length (sample.point_on_light_source.sub closest_hit_info.inter_point)),
     rd.length (sample.point_on_light_source.sub closest_hit_info.inter_point))

/-- The occlusion step of `evaluate_ReSTIR_DI_reservoir`: no test for a sample
flagged unoccluded or when the final-shading visibility is off, one shadow ray
otherwise. -/
def restir_occlusion (rd : HIPRTRenderData) (closest_hit_info : HitInfo)
    (sample : ReSTIRDISample) (st : DeviceState) : Bool × DeviceState :=
  if has_flag sample.flags rd.RESTIR_DI_FLAGS_UNOCCLUDED then
    (false, st)
  else if rd.do_final_shading_visibility then
    call_evaluate_shadow_ray rd
      ⟨closest_hit_info.inter_point, (restir_shadow_ray rd closest_hit_info sample).1⟩
      (restir_shadow_ray rd closest_hit_info sample).2 closest_hit_info.primitive_index 0 st
  else
    (false, st)

/-- The BSDF evaluation of `evaluate_ReSTIR_DI_reservoir`, from the state the
occlusion step left. -/
def restir_bsdf_eval (rd : HIPRTRenderData) (ray_payload : RayPayload)
    (closest_hit_info : HitInfo) (view_direction : float3) (sample : ReSTIRDISample)
    (st : DeviceState) : ColorRGB32F × ℚ × DeviceState :=
  call_bsdf_dispatcher_eval rd ray_payload view_direction closest_hit_info
    (restir_shadow_ray rd closest_hit_info sample).1 0
    (rd.flags_to_BSDF_incident_light_info sample.flags)
    (restir_occlusion rd closest_hit_info sample st).2

/-- The emission `evaluate_ReSTIR_DI_reservoir` multiplies by: the environment map
in the direction of the sample for an environment-map sample, the emission of the
material of the emissive triangle otherwise. -/
def restir_emission (rd : HIPRTRenderData) (closest_hit_info : HitInfo)
    (sample : ReSTIRDISample) : ColorRGB32F :=
  if has_flag sample.flags rd.RESTIR_DI_FLAGS_ENVMAP_SAMPLE then
    (rd.envmap_eval (restir_shadow_ray rd closest_hit_info sample).1).1
  else
    rd.get_emission (rd.material_indices sample.emissive_triangle_index)

/-- The dot product of the shading normal and the shadow-ray direction in
`evaluate_ReSTIR_DI_reservoir`. -/
def restir_dot (rd : HIPRTRenderData) (closest_hit_info : HitInfo)
    (sample : ReSTIRDISample) : ℚ :=
  hippt_dot closest_hit_info.shading_normal (restir_shadow_ray rd closest_hit_info sample).1

/-! ## Candidate generation: data model

The embedding of `sample_bsdf_and_lights_RIS_reservoir` of `RIS.h`.  The reservoir
primitive (`RIS_Reservoir.h`), the light sampler, the BSDF sampler, the ray tracer,
the balance heuristic and the minimum-contribution test are declared in headers
that are not among the sources: they are fields of the render data, and every call
is recorded in the device state. -/

/-- The fields of `LightSourceInformation` read by the candidate generator. -/
structure LightSourceInformation where
  emissive_triangle_index : Int
  light_source_normal : float3
  emission : ColorRGB32F
deriving DecidableEq

/-- The fields of `ShadowLightRayHitInfo` read by the candidate generator. -/
structure ShadowLightRayHitInfo where
  hit_emission : ColorRGB32F
  hit_prim_index : Int
  hit_distance : ℚ
deriving DecidableEq

/-- The two values of `RayState` the candidate generator records. -/
inductive RayState where
  | BOUNCE
  | MISSED
deriving DecidableEq

/-- Modelled from the spec: `MISBSDFRayReuse`, whose header is not among the sources,
as the cache of the BSDF sample's ray outcome of §4.2 step 5: hit information, hit
point, direction, BSDF value, pdf, and whether a bounce is available. -/
structure MISBSDFRayReuse where
  hit_info : ShadowLightRayHitInfo
  inter_point : float3
  bsdf_sampled_direction : float3
  bsdf_color : ColorRGB32F
  bsdf_pdf : ℚ
  next_ray_state : RayState
deriving DecidableEq

/-- Modelled from the spec: `MISBSDFRayReuse::fill`, whose header is not among the
sources; the record takes the six values it is given. -/
def MISBSDFRayReuse.fill (_old : MISBSDFRayReuse) (hit_info : ShadowLightRayHitInfo)
    (inter_point direction : float3) (bsdf_color : ColorRGB32F) (bsdf_pdf : ℚ)
    (next_ray_state : RayState) : MISBSDFRayReuse :=
  ⟨hit_info, inter_point, direction, bsdf_color, bsdf_pdf, next_ray_state⟩

/-- Modelled from the spec: `ColorRGB32F::is_black`, whose header is not among the
sources; the three channels are zero. -/
def ColorRGB32F.is_black (c : ColorRGB32F) : Bool :=
  decide (c.r = 0) && decide (c.g = 0) && decide (c.b = 0)

/-- Modelled from the spec: the unary minus of `float3`, whose header is not among
the sources. -/
def float3.neg (a : float3) : float3 := ⟨-a.x, -a.y, -a.z⟩

/-- The render data with what the candidate generator reads on top of the shading
code, and its collaborators.  All of it is declared outside the sources and is a
parameter of the model.

* `do_render_low_resolution` is `render_settings.do_render_low_resolution()`;
* `number_of_light_candidates`, `number_of_bsdf_candidates` are the `ris_settings`;
* `RISUseVisiblityTargetFunction` is the macro of that name being `KERNEL_OPTION_TRUE`;
* `can_do_light_sampling material` is `MaterialUtils::can_do_light_sampling`;
* `uniform_sample_one_emissive_triangle rng` returns the point, its area pdf, the
  light source information and the advanced generator;
* `check_minimum_light_contribution threshold contribution` is the function of that
  name, `luminance` is `ColorRGB32F::luminance`;
* `balance_heuristic pdf_a nb_a pdf_b nb_b` is the function of that name;
* `bsdf_dispatcher_sample material volume_state view shading_normal geometric_normal
  rng bounce` returns the BSDF value, the sampled direction, its pdf, the updated
  volume state and the advanced generator;
* `evaluate_shadow_light_ray ray t_max last_primitive bounce rng` returns whether a
  hit was found, the hit information and the advanced generator;
* `pdf_of_emissive_triangle_hit hit direction` is the function of that name;
* `default_reservoir`, `default_sample`, `default_shadow_light_ray_hit_info` are
  default-constructed values;
* `add_one_candidate reservoir sample weight rng` is `RISReservoir::add_one_candidate`
  (the reservoir after the call and the advanced generator) and `reservoir_end` is
  `RISReservoir::end`. -/
structure RISRenderData extends HIPRTRenderData where
  do_render_low_resolution : Bool
  number_of_light_candidates : Int
  number_of_bsdf_candidates : Int
  minimum_light_contribution : ℚ
  RISUseVisiblityTargetFunction : Bool
  can_do_light_sampling : Nat → Bool
  uniform_sample_one_emissive_triangle : Nat → float3 × ℚ × LightSourceInformation × Nat
  check_minimum_light_contribution : ℚ → ColorRGB32F → Bool
  luminance : ColorRGB32F → ℚ
  balance_heuristic : ℚ → Int → ℚ → Int → ℚ
  bsdf_dispatcher_sample :
    Nat → Nat → float3 → float3 → float3 → Nat → Int → ColorRGB32F × float3 × ℚ × Nat × Nat
  evaluate_shadow_light_ray :
    hiprtRay → ℚ → Int → Int → Nat → Bool × ShadowLightRayHitInfo × Nat
  pdf_of_emissive_triangle_hit : ShadowLightRayHitInfo → float3 → ℚ
  default_reservoir : RISReservoir
  default_sample : RISSample
  default_shadow_light_ray_hit_info : ShadowLightRayHitInfo
  add_one_candidate : RISReservoir → RISSample → ℚ → Nat → RISReservoir × Nat
  reservoir_end : RISReservoir → RISReservoir

/-! ## Candidate generation: collaborator calls -/

/-- The call `uniform_sample_one_emissive_triangle(...)`, recorded. -/
def call_uniform_sample_one_emissive_triangle (rd : RISRenderData) (st : DeviceState) :
    float3 × ℚ × LightSourceInformation × DeviceState :=
  let r := rd.uniform_sample_one_emissive_triangle st.rng
  (r.1, r.2.1, r.2.2.1,
   { st with rng := r.2.2.2, queries := st.queries ++ [Query.sample_emissive_triangle] })

/-- The call `check_minimum_light_contribution(minimum_light_contribution, ...)`,
recorded. -/
def call_check_minimum_light_contribution (rd : RISRenderData) (contribution : ColorRGB32F)
    (st : DeviceState) : Bool × DeviceState :=
  (rd.check_minimum_light_contribution rd.minimum_light_contribution contribution,
   { st with
     queries := st.queries ++ [Query.check_minimum_light_contribution contribution] })

/-- The call `balance_heuristic(...)`, recorded with its four arguments. -/
def call_balance_heuristic (rd : RISRenderData) (pdf_a : ℚ) (nb_pdf_a : Int) (pdf_b : ℚ)
    (nb_pdf_b : Int) (st : DeviceState) : ℚ × DeviceState :=
  (rd.balance_heuristic pdf_a nb_pdf_a pdf_b nb_pdf_b,
   { st with
     queries := st.queries ++ [Query.balance_heuristic pdf_a nb_pdf_a pdf_b nb_pdf_b] })

/-- The call `bsdf_dispatcher_sample(...)`, recorded: BSDF value, sampled direction,
pdf, the ray payload with the volume state the sampler left, and the state. -/
def call_bsdf_dispatcher_sample (rd : RISRenderData) (ray_payload : RayPayload)
    (view_direction : float3) (closest_hit_info : HitInfo) (st : DeviceState) :
    ColorRGB32F × float3 × ℚ × RayPayload × DeviceState :=
  let r := rd.bsdf_dispatcher_sample ray_payload.material ray_payload.volume_state
    view_direction closest_hit_info.shading_normal closest_hit_info.geometric_normal
    st.rng ray_payload.bounce
  (r.1, r.2.1, r.2.2.1, { ray_payload with volume_state := r.2.2.2.1 },
   { st with rng := r.2.2.2.2, queries := st.queries ++ [Query.bsdf_sample] })

/-- The call `evaluate_shadow_light_ray(...)`, recorded. -/
def call_evaluate_shadow_light_ray (rd : RISRenderData) (ray : hiprtRay) (t_max : ℚ)
    (last_primitive_index bounce : Int) (st : DeviceState) :
    Bool × ShadowLightRayHitInfo × DeviceState :=
  let r := rd.evaluate_shadow_light_ray ray t_max last_primitive_index bounce st.rng
  (r.1, r.2.1,
   { st with rng := r.2.2, queries := st.queries ++ [Query.shadow_light_ray ray t_max] })

/-- The call `reservoir.add_one_candidate(sample, weight, rng)`, recorded with the
sample and the weight streamed. -/
def call_add_one_candidate (rd : RISRenderData) (reservoir : RISReservoir) (sample : RISSample)
    (weight : ℚ) (st : DeviceState) : RISReservoir × DeviceState :=
  let r := rd.add_one_candidate reservoir sample weight st.rng
  (r.1,
   { st with rng := r.2, queries := st.queries ++ [Query.add_one_candidate sample weight] })

/-- The call `reservoir.end()`, recorded. -/
def call_reservoir_end (rd : RISRenderData) (reservoir : RISReservoir) (st : DeviceState) :
    RISReservoir × DeviceState :=
  (rd.reservoir_end reservoir, { st with queries := st.queries ++ [Query.reservoir_end] })

/-- The call `mis_ray_reuse.fill(...)`, recorded with the pdf and the hit flag. -/
def call_mis_ray_reuse_fill (mis_ray_reuse : MISBSDFRayReuse) (hit_info : ShadowLightRayHitInfo)
    (inter_point direction : float3) (bsdf_color : ColorRGB32F) (bsdf_pdf : ℚ)
    (hit_found : Bool) (st : DeviceState) : MISBSDFRayReuse × DeviceState :=
  (mis_ray_reuse.fill hit_info inter_point direction bsdf_color bsdf_pdf
      (if hit_found then RayState.BOUNCE else RayState.MISSED),
   { st with queries := st.queries ++ [Query.mis_ray_reuse_fill bsdf_pdf hit_found] })

/-! ## Candidate generation: operations -/

/-- The local `inside_surface_multiplier` of `sample_bsdf_and_lights_RIS_reservoir`:
`-1` when the view direction is below the geometric normal, `1` otherwise. -/
def inside_surface_multiplier (view_direction : float3) (closest_hit_info : HitInfo) : ℚ :=
  if hippt_dot view_direction closest_hit_info.geometric_normal < 0 then -1 else 1

/-- The local `nb_light_candidates` of `sample_bsdf_and_lights_RIS_reservoir`, after
the test on `MaterialUtils::can_do_light_sampling`. -/
def nb_light_candidates (rd : RISRenderData) (ray_payload : RayPayload) : Int :=
  let nb_light_candidates : Int :=
    if rd.do_render_low_resolution then 1 else rd.number_of_light_candidates
  if !rd.can_do_light_sampling ray_payload.material then 0 else nb_light_candidates

/-- The local `nb_bsdf_candidates` of `sample_bsdf_and_lights_RIS_reservoir`. -/
def nb_bsdf_candidates (rd : RISRenderData) : Int :=
  if rd.do_render_low_resolution then 1 else rd.number_of_bsdf_candidates

/-- The body of the light loop of `sample_bsdf_and_lights_RIS_reservoir` up to the
construction of `light_RIS_sample`: the sample, the candidate weight and the state.
The divisions by `light_sample_pdf` and `bsdf_pdf` are recorded where they are
executed. -/
def light_candidate (rd : RISRenderData) (ray_payload : RayPayload)
    (closest_hit_info : HitInfo) (view_direction : float3) (inside_surface_multiplier : ℚ)
    (nb_light_candidates nb_bsdf_candidates : Int) (st : DeviceState) :
    RISSample × ℚ × DeviceState :=
  let sampled := call_uniform_sample_one_emissive_triangle rd st
  let random_light_point := sampled.1
  let light_sample_pdf := sampled.2.1
  let light_source_info := sampled.2.2.1
  let st := sampled.2.2.2
  let result : ℚ × ℚ × DeviceState :=
    if light_sample_pdf > 0 then
      let to_light := random_light_point.sub closest_hit_info.inter_point
      let distance_to_light := rd.length to_light
      let to_light_direction := to_light.div distance_to_light
      let cosine_at_light_source :=
        hippt_abs (hippt_dot light_source_info.light_source_normal to_light_direction.neg)
      let cosine_at_evaluated_point :=
        hippt_max 0
          (hippt_dot (closest_hit_info.shading_normal.scale inside_surface_multiplier)
            to_light_direction)
      if cosine_at_evaluated_point > 0 ∧ cosine_at_light_source > 1 / 1000000 then
        let light_sample_pdf :=
          light_sample_pdf * (distance_to_light * distance_to_light) / cosine_at_light_source
        let early := call_check_minimum_light_contribution rd
          (light_source_info.emission.div light_sample_pdf)
          (log_division DivisionSite.light_sample_pdf light_sample_pdf st)
        let target : ℚ × ℚ × DeviceState :=
          if !early.1 then
            (0, 0, early.2)
          else
            let bsdf := call_bsdf_dispatcher_eval rd.toHIPRTRenderData ray_payload view_direction
              closest_hit_info to_light_direction ray_payload.bounce
              rd.default_incident_light_info early.2
            let light_contribution :=
              (bsdf.1.mul light_source_info.emission).scale cosine_at_evaluated_point
            let full := call_check_minimum_light_contribution rd
              ((light_contribution.div bsdf.2.1).div light_sample_pdf)
              (log_division DivisionSite.light_sample_pdf light_sample_pdf
                (log_division DivisionSite.bsdf_pdf bsdf.2.1 bsdf.2.2))
            (if !full.1 then 0 else rd.luminance light_contribution, bsdf.2.1, full.2)
        let target_function := target.1
        let bsdf_pdf := target.2.1
        let visibility : ℚ × DeviceState :=
          if rd.RISUseVisiblityTargetFunction && !rd.do_render_low_resolution
              && decide (target_function > 0) then
            let shadow := call_evaluate_shadow_ray rd.toHIPRTRenderData
              ⟨closest_hit_info.inter_point, to_light_direction⟩ distance_to_light
              closest_hit_info.primitive_index ray_payload.bounce target.2.2
            (target_function * (if !shadow.1 then 1 else 0), shadow.2)
          else
            (target_function, target.2.2)
        let target_function := visibility.1
        let mis := call_balance_heuristic rd light_sample_pdf nb_light_candidates bsdf_pdf
          nb_bsdf_candidates visibility.2
        (target_function, mis.1 * target_function / light_sample_pdf,
         log_division DivisionSite.light_sample_pdf light_sample_pdf mis.2)
      else
        (0, 0, st)
    else
      (0, 0, st)
  ({ rd.default_sample with
     is_bsdf_sample := false
     point_on_light_source := random_light_point
     target_function := result.1
     emissive_triangle_index := light_source_info.emissive_triangle_index },
   result.2.1, result.2.2)

/-- One iteration of the light loop: the candidate is built, then streamed into the
reservoir (`sanity_check()` is a debug assertion and leaves the state alone). -/
def light_candidate_iteration (rd : RISRenderData) (ray_payload : RayPayload)
    (closest_hit_info : HitInfo) (view_direction : float3) (inside_surface_multiplier : ℚ)
    (nb_light_candidates nb_bsdf_candidates : Int) (acc : RISReservoir × DeviceState) :
    RISReservoir × DeviceState :=
  let candidate := light_candidate rd ray_payload closest_hit_info view_direction
    inside_surface_multiplier nb_light_candidates nb_bsdf_candidates acc.2
  call_add_one_candidate rd acc.1 candidate.1 candidate.2.1 candidate.2.2

/-- The body of the BSDF loop of `sample_bsdf_and_lights_RIS_reservoir` up to the
call of `mis_ray_reuse.fill`: the sample, the candidate weight, whether a hit was
found, the hit information, the BSDF value, direction and pdf sampled, the ray
payload and the state. -/
def bsdf_candidate (rd : RISRenderData) (ray_payload : RayPayload)
    (closest_hit_info : HitInfo) (view_direction : float3) (inside_surface_multiplier : ℚ)
    (nb_light_candidates nb_bsdf_candidates : Int) (st : DeviceState) :
    (RISSample × ℚ) × (Bool × ShadowLightRayHitInfo) × (ColorRGB32F × float3 × ℚ) ×
      RayPayload × DeviceState :=
  let sampled := call_bsdf_dispatcher_sample rd ray_payload view_direction closest_hit_info st
  let bsdf_color := sampled.1
  let sampled_bsdf_direction := sampled.2.1
  let bsdf_sample_pdf := sampled.2.2.1
  let ray_payload := sampled.2.2.2.1
  let st := sampled.2.2.2.2
  let result : (RISSample × ℚ) × (Bool × ShadowLightRayHitInfo) × DeviceState :=
    if bsdf_sample_pdf > 0 then
      let bsdf_ray : hiprtRay := ⟨closest_hit_info.inter_point, sampled_bsdf_direction⟩
      let traced := call_evaluate_shadow_light_ray rd bsdf_ray ((10 : ℚ) ^ 35)
        closest_hit_info.primitive_index ray_payload.bounce st
      let hit_found := traced.1
      let shadow_light_ray_hit_info := traced.2.1
      if hit_found && !shadow_light_ray_hit_info.hit_emission.is_black then
        let cosine_at_evaluated_point :=
          hippt_abs (hippt_dot closest_hit_info.shading_normal sampled_bsdf_direction)
        let light_contribution :=
          (bsdf_color.mul shadow_light_ray_hit_info.hit_emission).scale cosine_at_evaluated_point
        let target_function := rd.luminance light_contribution
        let light_pdf :=
          rd.pdf_of_emissive_triangle_hit shadow_light_ray_hit_info sampled_bsdf_direction
        let refraction_sampled : Bool :=
          decide (hippt_dot sampled_bsdf_direction
            (closest_hit_info.shading_normal.scale inside_surface_multiplier) < 0)
        let light_pdf := light_pdf * (if !refraction_sampled then 1 else 0)
        let check := call_check_minimum_light_contribution rd
          ((light_contribution.div light_pdf).div bsdf_sample_pdf)
          (log_division DivisionSite.bsdf_sample_pdf bsdf_sample_pdf
            (log_division DivisionSite.light_pdf light_pdf traced.2.2))
        let target_function := if !check.1 then 0 else target_function
        let mis := call_balance_heuristic rd bsdf_sample_pdf nb_bsdf_candidates light_pdf
          nb_light_candidates check.2
        (({ rd.default_sample with
            emissive_triangle_index := shadow_light_ray_hit_info.hit_prim_index
            point_on_light_source :=
              bsdf_ray.origin.add
                (bsdf_ray.direction.scale shadow_light_ray_hit_info.hit_distance)
            is_bsdf_sample := true
            bsdf_sample_contribution := bsdf_color
            bsdf_sample_cosine_term := cosine_at_evaluated_point
            target_function := target_function },
          mis.1 * target_function / bsdf_sample_pdf),
         (hit_found, shadow_light_ray_hit_info),
         log_division DivisionSite.bsdf_sample_pdf bsdf_sample_pdf mis.2)
      else
        ((rd.default_sample, 0), (hit_found, shadow_light_ray_hit_info), traced.2.2)
    else
      ((rd.default_sample, 0), (false, rd.default_shadow_light_ray_hit_info), st)
  (result.1, result.2.1, (bsdf_color, sampled_bsdf_direction, bsdf_sample_pdf), ray_payload,
   result.2.2)

/-- One iteration of the BSDF loop: the candidate is built, the ray-reuse record is
filled, then the candidate is streamed into the reservoir. -/
def bsdf_candidate_iteration (rd : RISRenderData) (closest_hit_info : HitInfo)
    (view_direction : float3) (inside_surface_multiplier : ℚ)
    (nb_light_candidates nb_bsdf_candidates : Int)
    (acc : RISReservoir × MISBSDFRayReuse × RayPayload × DeviceState) :
    RISReservoir × MISBSDFRayReuse × RayPayload × DeviceState :=
  let candidate := bsdf_candidate rd acc.2.2.1 closest_hit_info view_direction
    inside_surface_multiplier nb_light_candidates nb_bsdf_candidates acc.2.2.2
  let hit_found := candidate.2.1.1
  let shadow_light_ray_hit_info := candidate.2.1.2
  let bsdf_color := candidate.2.2.1.1
  let sampled_bsdf_direction := candidate.2.2.1.2.1
  let bsdf_sample_pdf := candidate.2.2.1.2.2
  let bsdf_ray_inter_point :=
    closest_hit_info.inter_point.add
      (sampled_bsdf_direction.scale shadow_light_ray_hit_info.hit_distance)
  let filled := call_mis_ray_reuse_fill acc.2.1 shadow_light_ray_hit_info bsdf_ray_inter_point
    sampled_bsdf_direction bsdf_color bsdf_sample_pdf hit_found candidate.2.2.2.2
  let added := call_add_one_candidate rd acc.1 candidate.1.1 candidate.1.2 filled.2
  (added.1, filled.1, candidate.2.2.2.1, added.2)

/-- The light loop `for (i = 0; i < nb_light_candidates; i++)`. -/
def light_loop (rd : RISRenderData) (ray_payload : RayPayload) (closest_hit_info : HitInfo)
    (view_direction : float3) (n : Nat) (acc : RISReservoir × DeviceState) :
    RISReservoir × DeviceState :=
  (List.range n).foldl
    (fun acc _ => light_candidate_iteration rd ray_payload closest_hit_info view_direction
      (inside_surface_multiplier view_direction closest_hit_info)
      (nb_light_candidates rd ray_payload) (nb_bsdf_candidates rd) acc) acc

/-- The BSDF loop `for (i = 0; i < nb_bsdf_candidates; i++)`; the counts passed on
are those computed from the ray payload the function was called with. -/
def bsdf_loop (rd : RISRenderData) (ray_payload : RayPayload) (closest_hit_info : HitInfo)
    (view_direction : float3) (n : Nat)
    (acc : RISReservoir × MISBSDFRayReuse × RayPayload × DeviceState) :
    RISReservoir × MISBSDFRayReuse × RayPayload × DeviceState :=
  (List.range n).foldl
    (fun acc _ => bsdf_candidate_iteration rd closest_hit_info view_direction
      (inside_surface_multiplier view_direction closest_hit_info)
      (nb_light_candidates rd ray_payload) (nb_bsdf_candidates rd) acc) acc

/-- Embedding of `sample_bsdf_and_lights_RIS_reservoir` of `RIS.h`: the finalized reservoir,
the ray-reuse record, the ray payload and the device state after the call. -/
def sample_bsdf_and_lights_RIS_reservoir (rd : RISRenderData) (ray_payload : RayPayload)
    (closest_hit_info : HitInfo) (view_direction : float3) (st : DeviceState)
    (mis_ray_reuse : MISBSDFRayReuse) :
    RISReservoir × MISBSDFRayReuse × RayPayload × DeviceState :=
  let lights := light_loop rd ray_payload closest_hit_info view_direction
    (nb_light_candidates rd ray_payload).toNat (rd.default_reservoir, st)
  let bsdfs := bsdf_loop rd ray_payload closest_hit_info view_direction
    (nb_bsdf_candidates rd).toNat (lights.1, mis_ray_reuse, ray_payload, lights.2)
  let ended := call_reservoir_end rd bsdfs.1 bsdfs.2.2.2
  (ended.1, bsdfs.2.1, bsdfs.2.2.1, ended.2)

/-- A concrete render data: flag bits 1, 2 and 4, ambient light of a type (1) other
than the environment map (2), a 4 x 3 image, collaborators that answer constants and
advance the generator by one. -/
def example_render_data : HIPRTRenderData where
  RESTIR_DI_FLAGS_ENVMAP_SAMPLE := 1
  RESTIR_DI_FLAGS_UNOCCLUDED := 2
  RESTIR_DI_FLAGS_SAMPLED_FROM_GLASS_REFRACT_LOBE := 4
  AmbientLightType_ENVMAP := 2
  ambient_light_type := 1
  envmap_to_world := fun v => v
  render_resolution := ⟨4, 3⟩
  do_final_shading_visibility := true
  material_indices := fun i => i
  get_emission := fun _ => ⟨1, 1, 1⟩
  length := fun v => hippt_abs v.x + hippt_abs v.y + hippt_abs v.z
  evaluate_shadow_ray := fun _ _ _ _ rng => (false, rng + 1)
  evaluate_shadow_ray_nee_plus_plus := fun _ _ _ context rng _ cache =>
    (false, context, rng + 1, cache + 1)
  bsdf_dispatcher_eval := fun _ _ _ _ _ _ rng _ _ => (⟨1 / 2, 1 / 2, 1 / 2⟩, 1, rng + 1)
  envmap_eval := fun _ => (⟨1, 1, 1⟩, 1)
  flags_to_BSDF_incident_light_info := fun flags => flags
  default_context := ⟨⟨0, 0, 0⟩, ⟨0, 0, 0⟩, 1⟩
  default_incident_light_info := 0

/-- A surface point at the origin facing up. -/
def example_hit : HitInfo := ⟨⟨0, 0, 0⟩, ⟨0, 0, 1⟩, ⟨0, 0, 1⟩, 7⟩

/-- A ray payload at the first bounce. -/
def example_payload : RayPayload := ⟨3, 0, 0⟩

/-- A device state with an empty call log. -/
def example_device_state : DeviceState := ⟨42, 0, []⟩

/-- A ReSTIR DI reservoir holding an environment-map sample with a positive UCW. -/
def example_envmap_reservoir : ReSTIRDIReservoir := ⟨⟨⟨0, 0, 1⟩, 5, 1, 2⟩, 3, 8, 6⟩

/-- A ReSTIR DI reservoir holding no sample. -/
def example_empty_reservoir : ReSTIRDIReservoir := ⟨⟨⟨0, 0, 1⟩, 5, 0, 0⟩, 0, 8, 0⟩

/-- A RIS reservoir holding no sample. -/
def example_empty_ris_reservoir : RISReservoir :=
  ⟨⟨false, ⟨0, 0, 1⟩, 5, 0, ⟨0, 0, 0⟩, 0⟩, 0, 8, 0⟩

/-- A RIS reservoir holding a BSDF-origin sample with cached contribution and cosine. -/
def example_bsdf_ris_reservoir : RISReservoir :=
  ⟨⟨true, ⟨0, 0, 1⟩, 5, 1, ⟨1 / 2, 1 / 4, 1⟩, 1 / 2⟩, 2, 4, 2⟩

/-- A RIS reservoir holding a light-origin sample straight above the surface point. -/
def example_light_ris_reservoir : RISReservoir :=
  ⟨⟨false, ⟨0, 0, 1⟩, 5, 1, ⟨0, 0, 0⟩, 0⟩, 2, 4, 2⟩

/-- A ReSTIR DI reservoir holding an emissive-triangle sample straight above the
surface point, positive UCW. -/
def example_light_reservoir : ReSTIRDIReservoir := ⟨⟨⟨0, 0, 1⟩, 5, 0, 2⟩, 3, 8, 6⟩

/-- A ReSTIR DI reservoir holding a sample sampled from the glass refraction lobe
(flag bit 4), straight below the surface point. -/
def example_refracted_reservoir : ReSTIRDIReservoir := ⟨⟨⟨0, 0, -1⟩, 5, 4, 2⟩, 3, 8, 6⟩

/-! ## Russian roulette: data model and operation -/

/-- The values of `PathRussianRoulette`: the two methods `do_russian_roulette` tests
for, and any other value of the enumeration. -/
inductive PathRussianRoulette where
  | MAX_THROUGHPUT
  | ARNOLD_2014
  | OTHER
deriving DecidableEq

/-- The fields of `HIPRTRenderSettings` read by `do_russian_roulette`, with `sqrtf`
and the call operator of `Xorshift32Generator` (a uniform number and the advanced
generator), both declared outside the sources, as parameters. -/
structure HIPRTRenderSettings where
  use_russian_roulette : Bool
  russian_roulette_min_depth : Int
  path_russian_roulette_method : PathRussianRoulette
  russian_roulette_throughput_clamp : ℚ
  sqrtf : ℚ → ℚ
  random_number_generator : Nat → ℚ × Nat

/-- Modelled from the spec: `ColorRGB32F::max_component`, whose header is not among
the sources; the max channel of §4.5. -/
def ColorRGB32F.max_component (c : ColorRGB32F) : ℚ := max c.r (max c.g c.b)

/-- Modelled from the spec: `hippt::min`, whose header is not among the sources; the
smaller of two floats. -/
def hippt_min (a b : ℚ) : ℚ := if a < b then a else b

/-- The call `random_number_generator()`, recorded. -/
def call_random_number_generator (render_settings : HIPRTRenderSettings) (st : DeviceState) :
    ℚ × DeviceState :=
  let r := render_settings.random_number_generator st.rng
  (r.1, { st with rng := r.2, queries := st.queries ++ [Query.random_number] })

/-- The survival probability `do_russian_roulette` computes before clamping it to 1,
with the state in which the division of the Arnold estimator is recorded. -/
def survive_probability_estimate (render_settings : HIPRTRenderSettings)
    (ray_throughput current_weight : ColorRGB32F) (st : DeviceState) : ℚ × DeviceState :=
  match render_settings.path_russian_roulette_method with
  | PathRussianRoulette.MAX_THROUGHPUT => (ray_throughput.max_component, st)
  | PathRussianRoulette.ARNOLD_2014 =>
    (render_settings.sqrtf
      ((ray_throughput.mul current_weight).max_component / ray_throughput.max_component),
     log_division DivisionSite.throughput_max_component ray_throughput.max_component st)
  | PathRussianRoulette.OTHER => (0, st)

/-- Embedding of `do_russian_roulette` of `RussianRoulette.h`: whether the ray survives, the
throughput after the call and the device state after the call. -/
def do_russian_roulette (render_settings : HIPRTRenderSettings) (bounce : Int)
    (ray_throughput current_weight : ColorRGB32F) (st : DeviceState) :
    Bool × ColorRGB32F × DeviceState :=
  if decide (bounce ≥ render_settings.russian_roulette_min_depth)
      && render_settings.use_russian_roulette then
    let estimate := survive_probability_estimate render_settings ray_throughput current_weight st
    let survive_probability := hippt_min estimate.1 1
    let drawn := call_random_number_generator render_settings estimate.2
    if drawn.1 > survive_probability then
      (false, ray_throughput, drawn.2)
    else
      let throughput_increase := 1 / survive_probability
      let throughput_increase :=
        if render_settings.russian_roulette_throughput_clamp > 0 then
          hippt_min throughput_increase render_settings.russian_roulette_throughput_clamp
        else throughput_increase
      (true, ray_throughput.scale throughput_increase,
       log_division DivisionSite.survive_probability survive_probability drawn.2)
  else
    (true, ray_throughput, st)

/-! ## Candidate generation: observations on the call log -/

/-- The calls and divisions recorded between state `st` and a later state. -/
def queries_since (st later : DeviceState) : List Query :=
  later.queries.drop st.queries.length

/-- The record of a call to `add_one_candidate`. -/
def is_add_one_candidate : Query → Bool
  | Query.add_one_candidate _ _ => true
  | _ => false

/-- What may be recorded while one candidate is built, before it is streamed: no call
to `add_one_candidate` or `end`; a balance heuristic only with the counts `nb_a` (own
technique) and `nb_b` (other technique); a division by `light_sample_pdf` or by
`bsdf_sample_pdf` only with a positive divisor. -/
def candidate_event_ok (nb_a nb_b : Int) : Query → Prop
  | Query.add_one_candidate _ _ => False
  | Query.reservoir_end => False
  | Query.balance_heuristic _ a _ b => a = nb_a ∧ b = nb_b
  | Query.division DivisionSite.light_sample_pdf d => 0 < d
  | Query.division DivisionSite.bsdf_sample_pdf d => 0 < d
  | _ => True

/-! ## Candidate generation: a reservoir primitive and concrete inputs -/

/-- Modelled from the spec: `RISReservoir::add_one_candidate`, whose header is not
among the sources, as `add_candidate` of §4.1: the weight is accumulated into the
running sum; the retained sample is replaced when the number drawn is below
`weight / running_sum` (never when the running sum is 0); `M` is always incremented.
`random` is the call operator of the generator. -/
def RISReservoir.add_one_candidate_spec (random : Nat → ℚ × Nat) (reservoir : RISReservoir)
    (sample : RISSample) (weight : ℚ) (rng : Nat) : RISReservoir × Nat :=
  let weight_sum := reservoir.weight_sum + weight
  let drawn := random rng
  ({ sample :=
       if weight_sum ≠ 0 ∧ drawn.1 < weight / weight_sum then sample else reservoir.sample
     UCW := reservoir.UCW
     M := reservoir.M + 1
     weight_sum := weight_sum },
   drawn.2)

/-- Modelled from the spec: `RISReservoir::end`, whose header is not among the
sources, as `finalize` of §4.1: `UCW = running_sum / target_function(retained)` if
that target function is positive, else 0. -/
def RISReservoir.end_spec (reservoir : RISReservoir) : RISReservoir :=
  { reservoir with
    UCW :=
      if reservoir.sample.target_function > 0 then
        reservoir.weight_sum / reservoir.sample.target_function
      else 0 }

/-- Modelled from the spec: `balance_heuristic`, whose header is not among the
sources, as the balance heuristic of §4.2 and §8: `na * pa / (na * pa + nb * pb)`. -/
def balance_heuristic_spec (pdf_a : ℚ) (nb_pdf_a : Int) (pdf_b : ℚ) (nb_pdf_b : Int) : ℚ :=
  (nb_pdf_a * pdf_a) / (nb_pdf_a * pdf_a + nb_pdf_b * pdf_b)

/-- A default-constructed `RISSample`: no sample, target function 0. -/
def example_default_sample : RISSample := ⟨false, ⟨0, 0, 0⟩, 0, 0, ⟨0, 0, 0⟩, 0⟩

/-- A concrete render data for the candidate generator: two light candidates and one
BSDF candidate; the light sampler answers the point (0, 0, 1) on a white emitter
facing down with area pdf 1; the BSDF sampler answers the direction (0, 0, -1), a
refraction, with pdf 1; the ray traced along it hits a white emitter at distance 2;
the minimum-contribution test always passes. -/
def example_ris_render_data : RISRenderData where
  toHIPRTRenderData := example_render_data
  do_render_low_resolution := false
  number_of_light_candidates := 2
  number_of_bsdf_candidates := 1
  minimum_light_contribution := 0
  RISUseVisiblityTargetFunction := false
  can_do_light_sampling := fun _ => true
  uniform_sample_one_emissive_triangle := fun rng =>
    (⟨0, 0, 1⟩, 1, ⟨5, ⟨0, 0, -1⟩, ⟨1, 1, 1⟩⟩, rng + 1)
  check_minimum_light_contribution := fun _ _ => true
  luminance := fun c => c.g
  balance_heuristic := balance_heuristic_spec
  bsdf_dispatcher_sample := fun _ volume_state _ _ _ rng _ =>
    (⟨1 / 2, 1 / 2, 1 / 2⟩, ⟨0, 0, -1⟩, 1, volume_state, rng + 1)
  evaluate_shadow_light_ray := fun _ _ _ _ rng => (true, ⟨⟨1, 1, 1⟩, 5, 2⟩, rng + 1)
  pdf_of_emissive_triangle_hit := fun _ _ => 1 / 2
  default_reservoir := ⟨example_default_sample, 0, 0, 0⟩
  default_sample := example_default_sample
  default_shadow_light_ray_hit_info := ⟨⟨0, 0, 0⟩, 0, 0⟩
  add_one_candidate := RISReservoir.add_one_candidate_spec (fun rng => (1 / 2, rng + 1))
  reservoir_end := RISReservoir.end_spec

/-- An empty ray-reuse record. -/
def example_mis_ray_reuse : MISBSDFRayReuse :=
  ⟨⟨⟨0, 0, 0⟩, 0, 0⟩, ⟨0, 0, 0⟩, ⟨0, 0, 0⟩, ⟨0, 0, 0⟩, 0, RayState.MISSED⟩

/-- The concrete render data with a minimum-contribution test that always fails. -/
def example_culling_render_data : RISRenderData :=
  { example_ris_render_data with check_minimum_light_contribution := fun _ _ => false }

/-- Render settings for the Russian roulette: always on, the Arnold estimator, no
clamp, the identity for `sqrtf` and a generator that answers 1/2. -/
def example_render_settings : HIPRTRenderSettings where
  use_russian_roulette := true
  russian_roulette_min_depth := 0
  path_russian_roulette_method := PathRussianRoulette.ARNOLD_2014
  russian_roulette_throughput_clamp := 0
  sqrtf := fun x => x
  random_number_generator := fun rng => (1 / 2, rng + 1)

/-! ## Candidate generation: the quantities of one candidate

The local variables of the two loop bodies of `sample_bsdf_and_lights_RIS_reservoir`,
as functions of the state the iteration starts in. -/

/-- The normalised `to_light_direction` of a light candidate. -/
def light_to_light_direction (rd : RISRenderData) (closest_hit_info : HitInfo)
    (st : DeviceState) : float3 :=
  let to_light :=
    (call_uniform_sample_one_emissive_triangle rd st).1.sub closest_hit_info.inter_point
  to_light.div (rd.length to_light)

/-- The local `distance_to_light` of a light candidate. -/
def light_distance_to_light (rd : RISRenderData) (closest_hit_info : HitInfo)
    (st : DeviceState) : ℚ :=
  rd.length
    ((call_uniform_sample_one_emissive_triangle rd st).1.sub closest_hit_info.inter_point)

/-- The local `cosine_at_light_source` of a light candidate. -/
def light_cosine_at_light_source (rd : RISRenderData) (closest_hit_info : HitInfo)
    (st : DeviceState) : ℚ :=
  hippt_abs
    (hippt_dot (call_uniform_sample_one_emissive_triangle rd st).2.2.1.light_source_normal
      (light_to_light_direction rd closest_hit_info st).neg)

/-- The local `cosine_at_evaluated_point` of a light candidate. -/
def light_cosine_at_evaluated_point (rd : RISRenderData) (closest_hit_info : HitInfo)
    (inside_surface_multiplier : ℚ) (st : DeviceState) : ℚ :=
  hippt_max 0
    (hippt_dot (closest_hit_info.shading_normal.scale inside_surface_multiplier)
      (light_to_light_direction rd closest_hit_info st))

/-- The test `light_sample_pdf > 0`, then `cosine_at_evaluated_point > 0 &&
cosine_at_light_source > 1.0e-6f`, under which a light candidate is weighted. -/
def light_candidate_is_weighted (rd : RISRenderData) (closest_hit_info : HitInfo)
    (inside_surface_multiplier : ℚ) (st : DeviceState) : Prop :=
  (call_uniform_sample_one_emissive_triangle rd st).2.1 > 0 ∧
  light_cosine_at_evaluated_point rd closest_hit_info inside_surface_multiplier st > 0 ∧
  light_cosine_at_light_source rd closest_hit_info st > 1 / 1000000

/-- The local `light_sample_pdf` of a light candidate after `light_sample_pdf *=
distance_to_light * distance_to_light; light_sample_pdf /= cosine_at_light_source`. -/
def light_sample_pdf_converted (rd : RISRenderData) (closest_hit_info : HitInfo)
    (st : DeviceState) : ℚ :=
  (call_uniform_sample_one_emissive_triangle rd st).2.1
    * (light_distance_to_light rd closest_hit_info st
        * light_distance_to_light rd closest_hit_info st)
    / light_cosine_at_light_source rd closest_hit_info st

/-- The early call of `check_minimum_light_contribution` of a light candidate, on
`emission / light_sample_pdf`. -/
def light_early_check (rd : RISRenderData) (closest_hit_info : HitInfo) (st : DeviceState) :
    Bool × DeviceState :=
  call_check_minimum_light_contribution rd
    ((call_uniform_sample_one_emissive_triangle rd st).2.2.1.emission.div
      (light_sample_pdf_converted rd closest_hit_info st))
    (log_division DivisionSite.light_sample_pdf (light_sample_pdf_converted rd closest_hit_info st)
      (call_uniform_sample_one_emissive_triangle rd st).2.2.2)

/-- The call of `bsdf_dispatcher_eval` of a light candidate that passed the early
check: BSDF value, `bsdf_pdf` and the state. -/
def light_bsdf_eval (rd : RISRenderData) (ray_payload : RayPayload)
    (closest_hit_info : HitInfo) (view_direction : float3) (st : DeviceState) :
    ColorRGB32F × ℚ × DeviceState :=
  call_bsdf_dispatcher_eval rd.toHIPRTRenderData ray_payload view_direction closest_hit_info
    (light_to_light_direction rd closest_hit_info st) ray_payload.bounce
    rd.default_incident_light_info (light_early_check rd closest_hit_info st).2

/-- The local `light_contribution` of a light candidate: `bsdf_color * emission *
cosine_at_evaluated_point`. -/
def light_light_contribution (rd : RISRenderData) (ray_payload : RayPayload)
    (closest_hit_info : HitInfo) (view_direction : float3) (inside_surface_multiplier : ℚ)
    (st : DeviceState) : ColorRGB32F :=
  ((light_bsdf_eval rd ray_payload closest_hit_info view_direction st).1.mul
      (call_uniform_sample_one_emissive_triangle rd st).2.2.1.emission).scale
    (light_cosine_at_evaluated_point rd closest_hit_info inside_surface_multiplier st)

/-- The second call of `check_minimum_light_contribution` of a light candidate, on
`light_contribution / bsdf_pdf / light_sample_pdf`. -/
def light_full_check (rd : RISRenderData) (ray_payload : RayPayload)
    (closest_hit_info : HitInfo) (view_direction : float3) (inside_surface_multiplier : ℚ)
    (st : DeviceState) : Bool × DeviceState :=
  call_check_minimum_light_contribution rd
    (((light_light_contribution rd ray_payload closest_hit_info view_direction
        inside_surface_multiplier st).div
        (light_bsdf_eval rd ray_payload closest_hit_info view_direction st).2.1).div
      (light_sample_pdf_converted rd closest_hit_info st))
    (log_division DivisionSite.light_sample_pdf (light_sample_pdf_converted rd closest_hit_info st)
      (log_division DivisionSite.bsdf_pdf
        (light_bsdf_eval rd ray_payload closest_hit_info view_direction st).2.1
        (light_bsdf_eval rd ray_payload closest_hit_info view_direction st).2.2))

/-- The shadow ray of the visibility term of a light candidate that passed both
checks, when `RISUseVisiblityTargetFunction` is on. -/
def light_visibility_shadow_ray (rd : RISRenderData) (ray_payload : RayPayload)
    (closest_hit_info : HitInfo) (view_direction : float3) (inside_surface_multiplier : ℚ)
    (st : DeviceState) : Bool × DeviceState :=
  call_evaluate_shadow_ray rd.toHIPRTRenderData
    ⟨closest_hit_info.inter_point, light_to_light_direction rd closest_hit_info st⟩
    (light_distance_to_light rd closest_hit_info st) closest_hit_info.primitive_index
    ray_payload.bounce
    (light_full_check rd ray_payload closest_hit_info view_direction inside_surface_multiplier
      st).2

/-- Whether the visibility term of the target function is evaluated for a light
candidate that passed both checks: the kernel option is on, the render is not at
low resolution and the target function is positive. -/
def light_visibility_is_tested (rd : RISRenderData) (ray_payload : RayPayload)
    (closest_hit_info : HitInfo) (view_direction : float3) (inside_surface_multiplier : ℚ)
    (st : DeviceState) : Bool :=
  rd.RISUseVisiblityTargetFunction && !rd.do_render_low_resolution
    && decide (rd.luminance (light_light_contribution rd ray_payload closest_hit_info
        view_direction inside_surface_multiplier st) > 0)

/-- The target function, the `bsdf_pdf` and the state of a weighted light candidate
after the two minimum-contribution checks, before the visibility term. -/
def light_target (rd : RISRenderData) (ray_payload : RayPayload)
    (closest_hit_info : HitInfo) (view_direction : float3) (inside_surface_multiplier : ℚ)
    (st : DeviceState) : ℚ × ℚ × DeviceState :=
  if !(light_early_check rd closest_hit_info st).1 then
    (0, 0, (light_early_check rd closest_hit_info st).2)
  else
    (if !(light_full_check rd ray_payload closest_hit_info view_direction
          inside_surface_multiplier st).1 then 0
      else rd.luminance (light_light_contribution rd ray_payload closest_hit_info
        view_direction inside_surface_multiplier st),
     (light_bsdf_eval rd ray_payload closest_hit_info view_direction st).2.1,
     (light_full_check rd ray_payload closest_hit_info view_direction
        inside_surface_multiplier st).2)

/-- The target function and the state of a weighted light candidate after the
visibility term. -/
def light_visibility (rd : RISRenderData) (ray_payload : RayPayload)
    (closest_hit_info : HitInfo) (view_direction : float3) (inside_surface_multiplier : ℚ)
    (st : DeviceState) : ℚ × DeviceState :=
  let target := light_target rd ray_payload closest_hit_info view_direction
    inside_surface_multiplier st
  if rd.RISUseVisiblityTargetFunction && !rd.do_render_low_resolution
      && decide (target.1 > 0) then
    let shadow := call_evaluate_shadow_ray rd.toHIPRTRenderData
      ⟨closest_hit_info.inter_point, light_to_light_direction rd closest_hit_info st⟩
      (light_distance_to_light rd closest_hit_info st) closest_hit_info.primitive_index
      ray_payload.bounce target.2.2
    (target.1 * (if !shadow.1 then 1 else 0), shadow.2)
  else
    (target.1, target.2.2)

/-- The call of `evaluate_shadow_light_ray` of a BSDF candidate whose pdf is
positive: the ray leaves the surface point along the sampled direction. -/
def bsdf_traced (rd : RISRenderData) (ray_payload : RayPayload) (closest_hit_info : HitInfo)
    (view_direction : float3) (st : DeviceState) : Bool × ShadowLightRayHitInfo × DeviceState :=
  let sampled := call_bsdf_dispatcher_sample rd ray_payload view_direction closest_hit_info st
  call_evaluate_shadow_light_ray rd ⟨closest_hit_info.inter_point, sampled.2.1⟩ ((10 : ℚ) ^ 35)
    closest_hit_info.primitive_index sampled.2.2.2.1.bounce sampled.2.2.2.2

/-- The tests `bsdf_sample_pdf > 0`, then `hit_found &&
!shadow_light_ray_hit_info.hit_emission.is_black()`, under which a BSDF candidate
is weighted: the sampled direction hit an emitter. -/
def bsdf_candidate_hit_emitter (rd : RISRenderData) (ray_payload : RayPayload)
    (closest_hit_info : HitInfo) (view_direction : float3) (st : DeviceState) : Prop :=
  (call_bsdf_dispatcher_sample rd ray_payload view_direction closest_hit_info st).2.2.1 > 0 ∧
  ((bsdf_traced rd ray_payload closest_hit_info view_direction st).1
    && !(bsdf_traced rd ray_payload closest_hit_info view_direction st).2.1.hit_emission.is_black)
    = true

/-- The local `cosine_at_evaluated_point` of a BSDF candidate that hit an emitter. -/
def bsdf_cosine_at_evaluated_point (rd : RISRenderData) (ray_payload : RayPayload)
    (closest_hit_info : HitInfo) (view_direction : float3) (st : DeviceState) : ℚ :=
  hippt_abs (hippt_dot closest_hit_info.shading_normal
    (call_bsdf_dispatcher_sample rd ray_payload view_direction closest_hit_info st).2.1)

/-- The local `light_contribution` of a BSDF candidate that hit an emitter:
`bsdf_color * hit_emission * cosine_at_evaluated_point`. -/
def bsdf_light_contribution (rd : RISRenderData) (ray_payload : RayPayload)
    (closest_hit_info : HitInfo) (view_direction : float3) (st : DeviceState) : ColorRGB32F :=
  ((call_bsdf_dispatcher_sample rd ray_payload view_direction closest_hit_info st).1.mul
      (bsdf_traced rd ray_payload closest_hit_info view_direction st).2.1.hit_emission).scale
    (bsdf_cosine_at_evaluated_point rd ray_payload closest_hit_info view_direction st)

/-- The local `refraction_sampled` of a BSDF candidate that hit an emitter. -/
def bsdf_refraction_sampled (rd : RISRenderData) (ray_payload : RayPayload)
    (closest_hit_info : HitInfo) (view_direction : float3) (inside_surface_multiplier : ℚ)
    (st : DeviceState) : Bool :=
  decide (hippt_dot
    (call_bsdf_dispatcher_sample rd ray_payload view_direction closest_hit_info st).2.1
    (closest_hit_info.shading_normal.scale inside_surface_multiplier) < 0)

/-- The local `light_pdf` of a BSDF candidate that hit an emitter, after `light_pdf *=
!refraction_sampled`. -/
def bsdf_light_pdf (rd : RISRenderData) (ray_payload : RayPayload)
    (closest_hit_info : HitInfo) (view_direction : float3) (inside_surface_multiplier : ℚ)
    (st : DeviceState) : ℚ :=
  rd.pdf_of_emissive_triangle_hit
      (bsdf_traced rd ray_payload closest_hit_info view_direction st).2.1
      (call_bsdf_dispatcher_sample rd ray_payload view_direction closest_hit_info st).2.1
    * (if !bsdf_refraction_sampled rd ray_payload closest_hit_info view_direction
          inside_surface_multiplier st then 1 else 0)

/-- The call of `check_minimum_light_contribution` of a BSDF candidate that hit an
emitter, on `light_contribution / light_pdf / bsdf_sample_pdf`. -/
def bsdf_check (rd : RISRenderData) (ray_payload : RayPayload)
    (closest_hit_info : HitInfo) (view_direction : float3) (inside_surface_multiplier : ℚ)
    (st : DeviceState) : Bool × DeviceState :=
  call_check_minimum_light_contribution rd
    (((bsdf_light_contribution rd ray_payload closest_hit_info view_direction st).div
        (bsdf_light_pdf rd ray_payload closest_hit_info view_direction
          inside_surface_multiplier st)).div
      (call_bsdf_dispatcher_sample rd ray_payload view_direction closest_hit_info st).2.2.1)
    (log_division DivisionSite.bsdf_sample_pdf
      (call_bsdf_dispatcher_sample rd ray_payload view_direction closest_hit_info st).2.2.1
      (log_division DivisionSite.light_pdf
        (bsdf_light_pdf rd ray_payload closest_hit_info view_direction
          inside_surface_multiplier st)
        (bsdf_traced rd ray_payload closest_hit_info view_direction st).2.2))

/-! ## Candidate generation and Russian roulette: further observations -/

/-- The record of a call to `mis_ray_reuse.fill`. -/
def is_mis_ray_reuse_fill : Query → Bool
  | Query.mis_ray_reuse_fill _ _ => true
  | _ => false

/-- The record of a draw from the random number generator. -/
def is_random_number : Query → Bool
  | Query.random_number => true
  | _ => false

/-- The local `survive_probability` of `do_russian_roulette` after `survive_probability =
hippt::min(survive_probability, 1.0f)`. -/
def survive_probability (render_settings : HIPRTRenderSettings)
    (ray_throughput current_weight : ColorRGB32F) (st : DeviceState) : ℚ :=
  hippt_min (survive_probability_estimate render_settings ray_throughput current_weight st).1 1

/-- The test `bounce >= render_settings.russian_roulette_min_depth &&
render_settings.use_russian_roulette` of `do_russian_roulette`. -/
def russian_roulette_is_active (render_settings : HIPRTRenderSettings) (bounce : Int) : Prop :=
  bounce ≥ render_settings.russian_roulette_min_depth ∧
  render_settings.use_russian_roulette = true

/-- The number `do_russian_roulette` draws when it is active, and the state after
the draw. -/
def russian_roulette_draw (render_settings : HIPRTRenderSettings)
    (ray_throughput current_weight : ColorRGB32F) (st : DeviceState) : ℚ × DeviceState :=
  call_random_number_generator render_settings
    (survive_probability_estimate render_settings ray_throughput current_weight st).2

/-- The local `pixel_index` of `sample_light_ReSTIR_DI`: `pixel_coords.x +
pixel_coords.y * render_resolution.x`, computed on `int`. -/
def pixel_index (rd : HIPRTRenderData) (pixel_coords : int2) : Int :=
  int_wrap (pixel_coords.x + int_wrap (pixel_coords.y * rd.render_resolution.x))

/-- A render resolution of 65536 x 65536 pixels. -/
def example_large_render_data : HIPRTRenderData :=
  { example_render_data with render_resolution := ⟨65536, 65536⟩ }

/-- A render resolution of 131072 x 65536 pixels. -/
def example_wide_render_data : HIPRTRenderData :=
  { example_render_data with render_resolution := ⟨131072, 65536⟩ }

/-- Render settings for the Russian roulette with the max-throughput estimator. -/
def example_max_throughput_settings : HIPRTRenderSettings :=
  { example_render_settings with
    path_russian_roulette_method := PathRussianRoulette.MAX_THROUGHPUT }

/-- The concrete render data with a light sampler that answers a degenerate
emitter: area pdf 0. -/
def example_degenerate_render_data : RISRenderData :=
  { example_ris_render_data with
    uniform_sample_one_emissive_triangle := fun rng =>
      (⟨0, 0, 1⟩, 0, ⟨5, ⟨0, 0, -1⟩, ⟨1, 1, 1⟩⟩, rng + 1) }

/-- The concrete render data with a BSDF sampler that answers an invalid direction:
pdf 0. -/
def example_invalid_bsdf_render_data : RISRenderData :=
  { example_ris_render_data with
    bsdf_dispatcher_sample := fun _ volume_state _ _ _ rng _ =>
      (⟨0, 0, 0⟩, ⟨0, 0, -1⟩, 0, volume_state, rng + 1) }

/-- The local `hit_found` of a BSDF candidate when `mis_ray_reuse.fill` is called:
`false` when `bsdf_sample_pdf <= 0` (no ray is traced), and what
`evaluate_shadow_light_ray` returned otherwise. -/
def bsdf_hit_found (rd : RISRenderData) (ray_payload : RayPayload) (closest_hit_info : HitInfo)
    (view_direction : float3) (st : DeviceState) : Bool :=
  decide ((call_bsdf_dispatcher_sample rd ray_payload view_direction closest_hit_info st).2.2.1
    > 0)
  && (bsdf_traced rd ray_payload closest_hit_info view_direction st).1

/-- The record of a call to `evaluate_shadow_light_ray`. -/
def is_shadow_light_ray : Query → Bool
  | Query.shadow_light_ray _ _ => true
  | _ => false

/-- Render settings with the Russian roulette switched off. -/
def example_inactive_settings : HIPRTRenderSettings :=
  { example_render_settings with use_russian_roulette := false }

/-! ## NEE++ grid: data model and operations

The embedding of `NEEPlusPlusCPUGPUCommonData`.  `int` and `unsigned int` are 32 bits
wide and `size_t` 64 bits wide; `float` is exact. -/

/-- Three ints (`int3`). -/
structure int3 where
  x : Int
  y : Int
  z : Int
deriving DecidableEq

/-- The operator `int3 + int3`: component-wise `int` addition. -/
def int3.add (a b : int3) : int3 :=
  ⟨int_wrap (a.x + b.x), int_wrap (a.y + b.y), int_wrap (a.z + b.z)⟩

/-- The call `make_float3(x, y, z)` on three ints: each is converted to `float`. -/
def make_float3 (x y z : Int) : float3 := ⟨(x : ℚ), (y : ℚ), (z : ℚ)⟩

/-- Modelled from the spec: the operator `float3 / float3`, whose header is not among
the sources; component-wise division. -/
def float3.div_components (a b : float3) : float3 := ⟨a.x / b.x, a.y / b.y, a.z / b.z⟩

/-- The members of `NEEPlusPlusCPUGPUCommonData`. -/
structure NEEPlusPlusCPUGPUCommonData where
  grid_dimensions_no_envmap : int3
  base_grid_min_point : float3
  base_grid_max_point : float3
  stop_update_samples : Int

/-- Embedding of `NEEPlusPlusCPUGPUCommonData::get_visibility_matrix_element_count`: the
product of the dimensions is computed on `int` and converted to `unsigned int`; the
half matrix size is computed on `unsigned int`. -/
def get_visibility_matrix_element_count (dimensions : int3) : Nat :=
  let grid_elements_count : Nat :=
    to_unsigned (int_wrap (int_wrap (dimensions.x * dimensions.y) * dimensions.z))
  let half_matrix_size : Nat :=
    unsigned_wrap (grid_elements_count * unsigned_wrap (grid_elements_count + 1)) / 2
  half_matrix_size

/-- Embedding of `NEEPlusPlusCPUGPUCommonData::get_vram_usage_bytes`: the element count
is multiplied by `sizeof(unsigned int) = 4` on `size_t` and returned as
`unsigned int`. -/
def get_vram_usage_bytes (data : NEEPlusPlusCPUGPUCommonData) : Nat :=
  unsigned_wrap
    (size_t_wrap
      (get_visibility_matrix_element_count (data.grid_dimensions_no_envmap.add ⟨2, 2, 2⟩) * 4))

/-- Embedding of `NEEPlusPlusCPUGPUCommonData::get_grid_dimensions_with_envmap`. -/
def get_grid_dimensions_with_envmap (data : NEEPlusPlusCPUGPUCommonData) : int3 :=
  data.grid_dimensions_no_envmap.add ⟨2, 2, 2⟩

/-- The local `one_voxel_size` of `get_grid_extents`. -/
def one_voxel_size (data : NEEPlusPlusCPUGPUCommonData) (base_grid_dimensions : int3) :
    float3 :=
  (data.base_grid_max_point.sub data.base_grid_min_point).div_components
    (make_float3 base_grid_dimensions.x base_grid_dimensions.y base_grid_dimensions.z)

/-- Embedding of `NEEPlusPlusCPUGPUCommonData::get_grid_extents`: the two output
parameters `out_min_grid_point` and `out_max_grid_point`. -/
def get_grid_extents (data : NEEPlusPlusCPUGPUCommonData) (base_grid_dimensions : int3) :
    float3 × float3 :=
  let out_min_grid_point := data.base_grid_min_point
  let out_max_grid_point := data.base_grid_max_point
  let one_voxel_size :=
    (data.base_grid_max_point.sub data.base_grid_min_point).div_components
      (make_float3 base_grid_dimensions.x base_grid_dimensions.y base_grid_dimensions.z)
  (out_min_grid_point.sub one_voxel_size, out_max_grid_point.add one_voxel_size)

/-- A concrete grid: 16 x 16 x 16 cells over the box from (0, 0, 0) to (16, 32, 8). -/
def example_nee_plus_plus : NEEPlusPlusCPUGPUCommonData :=
  ⟨⟨16, 16, 16⟩, ⟨0, 0, 0⟩, ⟨16, 32, 8⟩, 64⟩

theorem foldl_preserves {α β : Type} (f : α → β → α) (I : α → Prop)
    (step : ∀ a b, I a → I (f a b)) (l : List β) (a : α) (ha : I a) :
    I (l.foldl f a) := by
  induction l generalizing a with
  | nil => simpa using ha
  | cons b t ih => exact ih (f a b) (step a b ha)

theorem config_of_launch_asynchronous (id : KernelId) (p : ReSTIRDIRenderPass) :
    config_of (launch_asynchronous id p) = config_of p := rfl

theorem config_of_launch_presampling_lights_pass (p : ReSTIRDIRenderPass) :
    config_of (launch_presampling_lights_pass p) = config_of p := rfl

theorem config_of_launch_initial_candidates_pass (p : ReSTIRDIRenderPass) :
    config_of (launch_initial_candidates_pass p) = config_of p := rfl

theorem config_of_configure_temporal_pass (p : ReSTIRDIRenderPass) :
    config_of (configure_temporal_pass p) = config_of p := rfl

theorem config_of_configure_spatiotemporal_pass (p : ReSTIRDIRenderPass) :
    config_of (configure_spatiotemporal_pass p) = config_of p := rfl

theorem config_of_spatial_reuse_iteration (p : ReSTIRDIRenderPass) (k : Nat) :
    config_of (spatial_reuse_iteration p k) = config_of p := rfl

theorem config_of_fused_spatial_iteration (p : ReSTIRDIRenderPass) (k : Nat) :
    config_of (fused_spatial_iteration p k) = config_of p := rfl

theorem config_of_launch_spatial_reuse_passes (p : ReSTIRDIRenderPass) :
    config_of (launch_spatial_reuse_passes p) = config_of p := by
  unfold launch_spatial_reuse_passes
  exact foldl_preserves spatial_reuse_iteration (fun q => config_of q = config_of p)
    (fun a b h => (config_of_spatial_reuse_iteration a b).trans h) _ p rfl

theorem config_of_launch_spatiotemporal_pass (p : ReSTIRDIRenderPass) :
    config_of (launch_spatiotemporal_pass p) = config_of p := by
  unfold launch_spatiotemporal_pass
  simp only []
  split
  · exact foldl_preserves fused_spatial_iteration (fun q => config_of q = config_of p)
      (fun a b h => (config_of_fused_spatial_iteration a b).trans h) _ _ rfl
  · rfl

/-! ## Scheduler: basic lemmas and the loops -/

theorem launched_launch_asynchronous (id : KernelId) (p : ReSTIRDIRenderPass) :
    (launch_asynchronous id p).launched = p.launched ++ [⟨id, p.restir_di_settings⟩] := rfl

theorem launched_since_append (p q : ReSTIRDIRenderPass) (L : List KernelLaunch)
    (h : q.launched = p.launched ++ L) : launched_since p q = L := by
  simp [launched_since, h]

theorem loop_frame_spatial_reuse_iteration (p : ReSTIRDIRenderPass) (k : Nat) :
    loop_frame (spatial_reuse_iteration p k) = loop_frame p := rfl

theorem loop_frame_fused_spatial_iteration (p : ReSTIRDIRenderPass) (k : Nat) :
    loop_frame (fused_spatial_iteration p k) = loop_frame p := rfl

theorem loop_frame_foldl_spatial (l : List Nat) (p : ReSTIRDIRenderPass) :
    loop_frame (l.foldl spatial_reuse_iteration p) = loop_frame p :=
  foldl_preserves spatial_reuse_iteration (fun q => loop_frame q = loop_frame p)
    (fun a b h => (loop_frame_spatial_reuse_iteration a b).trans h) l p rfl

theorem loop_frame_foldl_fused (l : List Nat) (p : ReSTIRDIRenderPass) :
    loop_frame (l.foldl fused_spatial_iteration p) = loop_frame p :=
  foldl_preserves fused_spatial_iteration (fun q => loop_frame q = loop_frame p)
    (fun a b h => (loop_frame_fused_spatial_iteration a b).trans h) l p rfl

/-- The spatial settings written by `configure_spatial_pass` depend on the state
only through what the loop leaves alone. -/
theorem configure_spatial_pass_congr (k : Int) (p q : ReSTIRDIRenderPass)
    (h : loop_frame q = loop_frame p) :
    (configure_spatial_pass k q).restir_di_settings.spatial_pass.input_reservoirs
        = (configure_spatial_pass k p).restir_di_settings.spatial_pass.input_reservoirs ∧
    (configure_spatial_pass k q).restir_di_settings.spatial_pass.output_reservoirs
        = (configure_spatial_pass k p).restir_di_settings.spatial_pass.output_reservoirs := by
  simp only [loop_frame, config_of, Prod.mk.injEq, FrameConfig.mk.injEq] at h
  obtain ⟨⟨-, -, -, h1, h2, -⟩, ht, hi⟩ := h
  simp [configure_spatial_pass, rng_xorshift32, h1, h2, ht, hi]

/-- Trace of the non-fused spatial loop after `n` iterations: kernel, pass index,
input and output of every launch. -/
theorem foldl_spatial_trace (p : ReSTIRDIRenderPass) (n : Nat) :
    ∃ L : List KernelLaunch,
      ((List.range n).foldl spatial_reuse_iteration p).launched = p.launched ++ L ∧
      L.map (fun l => (l.kernel, l.settings.spatial_pass.spatial_pass_index,
          l.settings.spatial_pass.input_reservoirs, l.settings.spatial_pass.output_reservoirs))
        = (List.range n).map (fun (k : Nat) => (KernelId.RESTIR_DI_SPATIAL_REUSE, (k : Int),
          (configure_spatial_pass (k : Int) p).restir_di_settings.spatial_pass.input_reservoirs,
          (configure_spatial_pass (k : Int) p).restir_di_settings.spatial_pass.output_reservoirs)) ∧
      (0 < n → ((List.range n).foldl spatial_reuse_iteration p).restir_di_settings.spatial_pass.output_reservoirs
          = (configure_spatial_pass ((n - 1 : Nat) : Int) p).restir_di_settings.spatial_pass.output_reservoirs) ∧
      (n = 0 → (List.range n).foldl spatial_reuse_iteration p = p) := by
  induction n with
  | zero => exact ⟨[], by simp, by simp, by simp, by simp⟩
  | succ n ih =>
    obtain ⟨L, hL, hmap, -, -⟩ := ih
    have hq := loop_frame_foldl_spatial (List.range n) p
    have hc := configure_spatial_pass_congr (n : Int) p _ hq
    refine ⟨L ++ [⟨KernelId.RESTIR_DI_SPATIAL_REUSE,
      (configure_spatial_pass n ((List.range n).foldl spatial_reuse_iteration p)).restir_di_settings⟩],
      ?_, ?_, ?_, by simp⟩
    · rw [List.range_succ, List.foldl_append]
      simp only [List.foldl_cons, List.foldl_nil]
      rw [spatial_reuse_iteration, launched_launch_asynchronous]
      have : (configure_spatial_pass n ((List.range n).foldl spatial_reuse_iteration p)).launched
          = ((List.range n).foldl spatial_reuse_iteration p).launched := rfl
      rw [this, hL, List.append_assoc]
    · rw [List.range_succ, List.map_append, List.map_append, hmap]
      simp only [List.map_cons, List.map_nil, hc.1, hc.2]
      congr 1
    · intro _
      rw [List.range_succ, List.foldl_append]
      simp only [List.foldl_cons, List.foldl_nil, Nat.add_sub_cancel]
      exact hc.2

theorem land_one_natCast (k : Nat) : Int.land (k : Int) 1 = ((k % 2 : Nat) : Int) := by
  have h : Int.land (k : Int) 1 = ((k &&& 1 : Nat) : Int) := rfl
  rw [h, Nat.and_one_is_mod]

/-- Buffers of the non-fused spatial pass `k`, in closed form. -/
theorem configure_spatial_pass_buffers (k : Nat) (p : ReSTIRDIRenderPass) :
    (configure_spatial_pass (k : Int) p).restir_di_settings.spatial_pass.input_reservoirs
      = (if k = 0 then
          (if p.restir_di_settings.temporal_pass.do_temporal_reuse_pass then
            p.restir_di_settings.temporal_pass.output_reservoirs
          else p.restir_di_settings.initial_candidates.output_reservoirs)
        else if k % 2 = 0 then p.spatial_output_reservoirs_2
        else p.spatial_output_reservoirs_1) ∧
    (configure_spatial_pass (k : Int) p).restir_di_settings.spatial_pass.output_reservoirs
      = (if k % 2 = 0 then p.spatial_output_reservoirs_1
        else p.spatial_output_reservoirs_2) := by
  simp only [configure_spatial_pass, rng_xorshift32, land_one_natCast]
  by_cases h0 : k = 0
  · subst h0; simp
  · have h0' : ¬ ((k : Int) = 0) := by exact_mod_cast h0
    by_cases h2 : k % 2 = 0
    · have h2' : (2 : Int) ∣ (k : Int) := by omega
      simp [h0, h2, h2']
    · have h2' : ¬ ((2 : Int) ∣ (k : Int)) := by omega
      simp [h0, h2, h2']

/-- Buffers of the fused-variant spatial pass `k > 0`. -/
theorem configure_fused_spatial_buffers (k : Nat) (hk : 0 < k) (p : ReSTIRDIRenderPass) :
    (configure_spatial_pass_for_fused_spatiotemporal (k : Int) p).restir_di_settings.spatial_pass.input_reservoirs
      = p.restir_di_settings.spatial_pass.output_reservoirs ∧
    (configure_spatial_pass_for_fused_spatiotemporal (k : Int) p).restir_di_settings.spatial_pass.output_reservoirs
      = other_buffer p p.restir_di_settings.spatial_pass.output_reservoirs := by
  have h0' : ¬ ((k : Int) = 0) := by exact_mod_cast (Nat.pos_iff_ne_zero.mp hk)
  simp [configure_spatial_pass_for_fused_spatiotemporal, rng_xorshift32, h0', other_buffer]

/-- Trace of the fused-variant spatial loop over the pass indices `1, ..., m`. -/
theorem foldl_fused_trace (p : ReSTIRDIRenderPass) (m : Nat) :
    ∃ L : List KernelLaunch,
      ((List.range' 1 m).foldl fused_spatial_iteration p).launched = p.launched ++ L ∧
      L.map (fun l => (l.kernel, l.settings.spatial_pass.spatial_pass_index,
          l.settings.spatial_pass.input_reservoirs, l.settings.spatial_pass.output_reservoirs))
        = (List.range' 1 m).map (fun (k : Nat) => (KernelId.RESTIR_DI_SPATIAL_REUSE, (k : Int),
          (other_buffer p)^[k - 1] p.restir_di_settings.spatial_pass.output_reservoirs,
          (other_buffer p)^[k] p.restir_di_settings.spatial_pass.output_reservoirs)) ∧
      ((List.range' 1 m).foldl fused_spatial_iteration p).restir_di_settings.spatial_pass.output_reservoirs
          = (other_buffer p)^[m] p.restir_di_settings.spatial_pass.output_reservoirs := by
  induction m with
  | zero => exact ⟨[], by simp, by simp, by simp⟩
  | succ m ih =>
    obtain ⟨L, hL, hmap, hout⟩ := ih
    have hq := loop_frame_foldl_fused (List.range' 1 m) p
    have hc := configure_fused_spatial_buffers (1 + m) (by omega)
      ((List.range' 1 m).foldl fused_spatial_iteration p)
    have hob : other_buffer ((List.range' 1 m).foldl fused_spatial_iteration p) = other_buffer p := by
      simp only [loop_frame, config_of, Prod.mk.injEq, FrameConfig.mk.injEq] at hq
      obtain ⟨⟨-, -, -, h1, h2, -⟩, -, -⟩ := hq
      funext b
      simp [other_buffer, h1, h2]
    rw [hob, hout] at hc
    refine ⟨L ++ [⟨KernelId.RESTIR_DI_SPATIAL_REUSE,
      (configure_spatial_pass_for_fused_spatiotemporal ((1 + m : Nat) : Int)
        ((List.range' 1 m).foldl fused_spatial_iteration p)).restir_di_settings⟩], ?_, ?_, ?_⟩
    · rw [List.range'_concat, Nat.one_mul, List.foldl_append]
      simp only [List.foldl_cons, List.foldl_nil]
      rw [fused_spatial_iteration, launched_launch_asynchronous]
      have : (configure_spatial_pass_for_fused_spatiotemporal ((1 + m : Nat) : Int)
          ((List.range' 1 m).foldl fused_spatial_iteration p)).launched
          = ((List.range' 1 m).foldl fused_spatial_iteration p).launched := rfl
      rw [this, hL, List.append_assoc]
    · have e : (other_buffer p)^[1 + m] p.restir_di_settings.spatial_pass.output_reservoirs
          = other_buffer p ((other_buffer p)^[m] p.restir_di_settings.spatial_pass.output_reservoirs) := by
        rw [Nat.add_comm, Function.iterate_succ_apply']
      rw [List.range'_concat, Nat.one_mul, List.map_append, List.map_append, hmap]
      simp only [List.map_cons, List.map_nil, hc.1, hc.2, Nat.add_sub_cancel_left, e]
      congr 1
    · rw [List.range'_concat, Nat.one_mul, List.foldl_append]
      simp only [List.foldl_cons, List.foldl_nil]
      rw [fused_spatial_iteration]
      have : (launch_asynchronous KernelId.RESTIR_DI_SPATIAL_REUSE
          (configure_spatial_pass_for_fused_spatiotemporal ((1 + m : Nat) : Int)
          ((List.range' 1 m).foldl fused_spatial_iteration p))).restir_di_settings
          = (configure_spatial_pass_for_fused_spatiotemporal ((1 + m : Nat) : Int)
          ((List.range' 1 m).foldl fused_spatial_iteration p)).restir_di_settings := rfl
      rw [this, hc.2, Function.iterate_succ_apply']

/-! ## Scheduler: the stages of a frame -/

theorem launch_stages (p : ReSTIRDIRenderPass) (he : p.restir_di_enabled = true) :
    launch p = { configure_output_buffer (frame_after_reuse p) with
                 odd_frame := !(configure_output_buffer (frame_after_reuse p)).odd_frame } := by
  simp only [launch, he, if_true, frame_after_reuse, frame_after_temporal, frame_after_initial]

theorem launch_disabled (p : ReSTIRDIRenderPass) (he : p.restir_di_enabled = false) :
    launch p = p := by
  simp [launch, he]

theorem Extends.refl (p : ReSTIRDIRenderPass) : Extends p p [] := ⟨[], by simp, rfl⟩

theorem Extends.trans {p q r : ReSTIRDIRenderPass} {T U : List LaunchSummary}
    (h1 : Extends p q T) (h2 : Extends q r U) : Extends p r (T ++ U) := by
  obtain ⟨L, hL, hT⟩ := h1
  obtain ⟨M, hM, hU⟩ := h2
  exact ⟨L ++ M, by rw [hM, hL, List.append_assoc], by rw [List.map_append, hT, hU]⟩

theorem Extends.launched_since {p q : ReSTIRDIRenderPass} {T : List LaunchSummary}
    (h : Extends p q T) : (launched_since p q).map KernelLaunch.summary = T := by
  obtain ⟨L, hL, hT⟩ := h
  rw [launched_since_append p q L hL, hT]

theorem extends_presampling (p : ReSTIRDIRenderPass) :
    Extends p (launch_presampling_lights_pass p)
      [(KernelId.RESTIR_DI_LIGHTS_PRESAMPLING, none, none)] :=
  ⟨[⟨KernelId.RESTIR_DI_LIGHTS_PRESAMPLING, p.restir_di_settings⟩], rfl, rfl⟩

theorem extends_initial (p : ReSTIRDIRenderPass) :
    Extends p (launch_initial_candidates_pass p)
      [(KernelId.RESTIR_DI_INITIAL_CANDIDATES, none, some (config_of p).initial_candidates_reservoirs)] :=
  ⟨[⟨KernelId.RESTIR_DI_INITIAL_CANDIDATES, (configure_initial_pass p).restir_di_settings⟩],
    rfl, rfl⟩

theorem extends_after_initial (p : ReSTIRDIRenderPass) :
    Extends p (frame_after_initial p)
      ((if (config_of p).do_lights_presampling then
          [(KernelId.RESTIR_DI_LIGHTS_PRESAMPLING, none, none)]
        else []) ++
       [(KernelId.RESTIR_DI_INITIAL_CANDIDATES, none,
          some (config_of p).initial_candidates_reservoirs)]) := by
  unfold frame_after_initial
  by_cases h : p.do_lights_presampling = true
  · have hc : (config_of p).do_lights_presampling = true := h
    rw [if_pos h, if_pos hc]
    exact (extends_presampling p).trans (extends_initial _)
  · have hc : ¬ (config_of p).do_lights_presampling = true := h
    rw [if_neg h, if_neg hc]
    exact (Extends.refl p).trans (extends_initial _)

theorem config_of_frame_after_initial (p : ReSTIRDIRenderPass) :
    config_of (frame_after_initial p) = config_of p := by
  unfold frame_after_initial
  split <;> rfl

theorem initial_output_frame_after_initial (p : ReSTIRDIRenderPass) :
    (frame_after_initial p).restir_di_settings.initial_candidates.output_reservoirs
      = p.initial_candidates_reservoirs := by
  unfold frame_after_initial
  split <;> rfl

theorem temporal_output_eq (p : ReSTIRDIRenderPass) :
    (configure_temporal_pass p).restir_di_settings.temporal_pass.output_reservoirs
      = (config_of p).temporal_output := by
  simp only [configure_temporal_pass, rng_xorshift32, FrameConfig.temporal_output, config_of]

theorem extends_temporal (p : ReSTIRDIRenderPass) :
    Extends p (launch_temporal_reuse_pass p)
      [(KernelId.RESTIR_DI_TEMPORAL_REUSE, some (config_of p).restir_output_reservoirs,
        some (config_of p).temporal_output)] := by
  refine ⟨[⟨KernelId.RESTIR_DI_TEMPORAL_REUSE, (configure_temporal_pass p).restir_di_settings⟩],
    rfl, ?_⟩
  simp only [List.map_cons, List.map_nil, KernelLaunch.summary, KernelLaunch.input_reservoirs,
    KernelLaunch.output_reservoirs, temporal_output_eq]
  rfl

theorem config_of_frame_after_temporal (p : ReSTIRDIRenderPass) :
    config_of (frame_after_temporal p) = config_of p := by
  unfold frame_after_temporal
  split
  · exact (config_of_configure_temporal_pass _).trans (config_of_frame_after_initial p)
  · exact config_of_frame_after_initial p

theorem extends_after_temporal (p : ReSTIRDIRenderPass) :
    Extends (frame_after_initial p) (frame_after_temporal p)
      (if (config_of p).do_temporal_reuse_pass then
        [(KernelId.RESTIR_DI_TEMPORAL_REUSE, some (config_of p).restir_output_reservoirs,
          some (config_of p).temporal_output)]
      else []) := by
  have hc := config_of_frame_after_initial p
  have hd : (frame_after_initial p).restir_di_settings.temporal_pass.do_temporal_reuse_pass
      = (config_of p).do_temporal_reuse_pass := by rw [← hc]; rfl
  unfold frame_after_temporal
  rw [hd]
  split
  · rw [← hc]; exact extends_temporal _
  · exact Extends.refl _

/-- The input the first non-fused spatial pass of a frame is given. -/
theorem spatial_input_zero_frame (p : ReSTIRDIRenderPass) :
    (if (frame_after_temporal p).restir_di_settings.temporal_pass.do_temporal_reuse_pass then
        (frame_after_temporal p).restir_di_settings.temporal_pass.output_reservoirs
      else (frame_after_temporal p).restir_di_settings.initial_candidates.output_reservoirs)
    = (if (config_of p).do_temporal_reuse_pass then (config_of p).temporal_output
        else (config_of p).initial_candidates_reservoirs) := by
  have hc := config_of_frame_after_initial p
  have hd : (frame_after_initial p).restir_di_settings.temporal_pass.do_temporal_reuse_pass
      = (config_of p).do_temporal_reuse_pass := by rw [← hc]; rfl
  unfold frame_after_temporal
  rw [hd]
  by_cases ht : (config_of p).do_temporal_reuse_pass = true
  · rw [if_pos ht, if_pos ht]
    have h1 : (launch_temporal_reuse_pass (frame_after_initial p)).restir_di_settings.temporal_pass.do_temporal_reuse_pass
        = (config_of p).do_temporal_reuse_pass := by rw [← hc]; rfl
    have h2 : (launch_temporal_reuse_pass (frame_after_initial p)).restir_di_settings.temporal_pass.output_reservoirs
        = (config_of p).temporal_output := by
      rw [← hc]; exact temporal_output_eq _
    rw [h1, if_pos ht, h2]
  · rw [if_neg ht, if_neg ht, hd, if_neg ht]
    exact initial_output_frame_after_initial p

theorem map_summary_of_view (L : List KernelLaunch) (R : List Nat)
    (f : Nat → KernelId × Int × DevicePointer × DevicePointer)
    (h : L.map (fun l => (l.kernel, l.settings.spatial_pass.spatial_pass_index,
          l.settings.spatial_pass.input_reservoirs, l.settings.spatial_pass.output_reservoirs))
        = R.map f)
    (hk : ∀ c ∈ R, (f c).1 = KernelId.RESTIR_DI_SPATIAL_REUSE) :
    L.map KernelLaunch.summary = R.map (fun c => ((f c).1, some (f c).2.2.1, some (f c).2.2.2)) := by
  induction L generalizing R with
  | nil =>
    cases R with
    | nil => rfl
    | cons c R => simp at h
  | cons l L ih =>
    cases R with
    | nil => simp at h
    | cons c R =>
      simp only [List.map_cons, List.cons.injEq] at h ⊢
      refine ⟨?_, ih R h.2 (fun c hc => hk c (List.mem_cons_of_mem _ hc))⟩
      have hc := hk c (List.mem_cons_self _ _)
      have h1 := h.1
      rw [← h1] at hc ⊢
      simp only at hc
      simp only [KernelLaunch.summary, KernelLaunch.input_reservoirs,
        KernelLaunch.output_reservoirs, hc]

theorem other_buffer_eq (p : ReSTIRDIRenderPass) : other_buffer p = (config_of p).other := rfl

theorem extends_spatial_loop (p : ReSTIRDIRenderPass) :
    Extends p (launch_spatial_reuse_passes p)
      ((List.range (config_of p).number_of_passes.toNat).map (fun (k : Nat) =>
        ((KernelId.RESTIR_DI_SPATIAL_REUSE,
          some (configure_spatial_pass (k : Int) p).restir_di_settings.spatial_pass.input_reservoirs,
          some (configure_spatial_pass (k : Int) p).restir_di_settings.spatial_pass.output_reservoirs)
          : LaunchSummary))) := by
  obtain ⟨L, hL, hmap, -, -⟩ := foldl_spatial_trace p (config_of p).number_of_passes.toNat
  exact ⟨L, hL, map_summary_of_view L _ _ hmap (fun _ _ => rfl)⟩

theorem extends_spatial_frame (p : ReSTIRDIRenderPass) :
    Extends (frame_after_temporal p) (launch_spatial_reuse_passes (frame_after_temporal p))
      ((List.range (config_of p).number_of_passes.toNat).map (config_of p).spatial_summary) := by
  have hc := config_of_frame_after_temporal p
  have h := extends_spatial_loop (frame_after_temporal p)
  rw [hc] at h
  have e : (fun (k : Nat) =>
        ((KernelId.RESTIR_DI_SPATIAL_REUSE,
          some (configure_spatial_pass (k : Int) (frame_after_temporal p)).restir_di_settings.spatial_pass.input_reservoirs,
          some (configure_spatial_pass (k : Int) (frame_after_temporal p)).restir_di_settings.spatial_pass.output_reservoirs)
          : LaunchSummary)) = (config_of p).spatial_summary := by
    funext k
    have hb := configure_spatial_pass_buffers k (frame_after_temporal p)
    rw [hb.1, hb.2, spatial_input_zero_frame p]
    have h1 : (frame_after_temporal p).spatial_output_reservoirs_1
        = (config_of p).spatial_output_reservoirs_1 := by rw [← hc]; rfl
    have h2 : (frame_after_temporal p).spatial_output_reservoirs_2
        = (config_of p).spatial_output_reservoirs_2 := by rw [← hc]; rfl
    rw [h1, h2]
    rfl
  rw [e] at h
  exact h

theorem fused_zero_buffers (p : ReSTIRDIRenderPass) :
    (configure_spatiotemporal_pass p).restir_di_settings.spatial_pass.input_reservoirs
      = p.restir_di_settings.restir_output_reservoirs ∧
    (configure_spatiotemporal_pass p).restir_di_settings.spatial_pass.output_reservoirs
      = other_buffer p p.restir_di_settings.restir_output_reservoirs ∧
    (configure_spatiotemporal_pass p).restir_di_settings.temporal_pass.input_reservoirs
      = p.restir_di_settings.restir_output_reservoirs ∧
    (configure_spatiotemporal_pass p).restir_di_settings.temporal_pass.output_reservoirs
      = nullptr := by
  simp [configure_spatiotemporal_pass, configure_spatial_pass_for_fused_spatiotemporal,
    configure_temporal_pass_for_fused_spatiotemporal, rng_xorshift32, other_buffer]

theorem launch_spatiotemporal_pass_eq (p : ReSTIRDIRenderPass) :
    launch_spatiotemporal_pass p
      = (List.range' 1 ((config_of p).number_of_passes.toNat - 1)).foldl fused_spatial_iteration
          (launch_asynchronous KernelId.RESTIR_DI_SPATIOTEMPORAL_REUSE
            (configure_spatiotemporal_pass p)) := by
  unfold launch_spatiotemporal_pass
  simp only []
  have hn : (launch_asynchronous KernelId.RESTIR_DI_SPATIOTEMPORAL_REUSE
      (configure_spatiotemporal_pass p)).restir_di_settings.spatial_pass.number_of_passes
      = (config_of p).number_of_passes := rfl
  rw [hn]
  split
  · rfl
  · rename_i h
    have : (config_of p).number_of_passes.toNat - 1 = 0 := by omega
    rw [this]
    rfl

theorem extends_fused (p : ReSTIRDIRenderPass) :
    Extends p (launch_spatiotemporal_pass p)
      ((List.range (1 + ((config_of p).number_of_passes.toNat - 1))).map
        (config_of p).fused_summary) := by
  rw [launch_spatiotemporal_pass_eq]
  obtain ⟨L, hL, hmap, -⟩ := foldl_fused_trace
    (launch_asynchronous KernelId.RESTIR_DI_SPATIOTEMPORAL_REUSE (configure_spatiotemporal_pass p))
    ((config_of p).number_of_passes.toNat - 1)
  have hz := fused_zero_buffers p
  refine ⟨⟨KernelId.RESTIR_DI_SPATIOTEMPORAL_REUSE,
    (configure_spatiotemporal_pass p).restir_di_settings⟩ :: L, ?_, ?_⟩
  · rw [hL, launched_launch_asynchronous]
    have : (configure_spatiotemporal_pass p).launched = p.launched := rfl
    rw [this, List.append_assoc]
    rfl
  · have hs := map_summary_of_view L _ _ hmap (fun _ _ => rfl)
    rw [Nat.add_comm 1, List.range_succ_eq_map, List.map_cons, List.map_cons, hs,
      List.range'_eq_map_range, List.map_map, List.map_map]
    congr 1
    · apply List.map_congr_left
      intro i _
      have ho : other_buffer (launch_asynchronous KernelId.RESTIR_DI_SPATIOTEMPORAL_REUSE
          (configure_spatiotemporal_pass p)) = (config_of p).other := rfl
      have hy : (launch_asynchronous KernelId.RESTIR_DI_SPATIOTEMPORAL_REUSE
          (configure_spatiotemporal_pass p)).restir_di_settings.spatial_pass.output_reservoirs
          = (config_of p).other (config_of p).restir_output_reservoirs := hz.2.1
      simp only [Function.comp_apply, ho, hy, FrameConfig.fused_summary, Nat.add_sub_cancel_left,
        Nat.succ_ne_zero, if_false, ← Function.iterate_succ_apply, Nat.succ_eq_add_one,
        Nat.add_comm 1 i, Nat.add_sub_cancel]

/-- The launches of one frame, whatever the settings, in closed form. -/
theorem extends_frame (p : ReSTIRDIRenderPass) :
    Extends p (frame_after_reuse p) (config_of p).frame_summary := by
  have hi := config_of_frame_after_initial p
  have ht := config_of_frame_after_temporal p
  have hf : (frame_after_initial p).restir_di_settings.do_fused_spatiotemporal
      = (config_of p).do_fused_spatiotemporal := by rw [← hi]; rfl
  have hs : (frame_after_temporal p).restir_di_settings.spatial_pass.do_spatial_reuse_pass
      = (config_of p).do_spatial_reuse_pass := by rw [← ht]; rfl
  have h1 := extends_after_initial p
  unfold frame_after_reuse FrameConfig.frame_summary FrameConfig.reuse_summary
  rw [hf, hs]
  have happ : ∀ (A : List LaunchSummary) (x : LaunchSummary) (B : List LaunchSummary),
      A ++ x :: B = (A ++ [x]) ++ B := by intro A x B; simp
  rw [happ]
  refine h1.trans ?_
  by_cases hfu : (config_of p).do_fused_spatiotemporal = true
  · rw [if_pos hfu, if_pos hfu]
    have h2 := extends_fused (frame_after_initial p)
    rw [hi] at h2
    exact h2
  · rw [if_neg hfu, if_neg hfu]
    refine (extends_after_temporal p).trans ?_
    by_cases hsp : (config_of p).do_spatial_reuse_pass = true
    · rw [if_pos hsp, if_pos hsp]
      exact extends_spatial_frame p
    · rw [if_neg hsp, if_neg hsp]
      exact Extends.refl _

theorem launched_launch (p : ReSTIRDIRenderPass) (he : p.restir_di_enabled = true) :
    (launch p).launched = (frame_after_reuse p).launched := by
  rw [launch_stages p he]
  rfl

theorem extends_launch (p : ReSTIRDIRenderPass) (he : p.restir_di_enabled = true) :
    Extends p (launch p) (config_of p).frame_summary := by
  obtain ⟨L, hL, hT⟩ := extends_frame p
  exact ⟨L, by rw [launched_launch p he, hL], hT⟩

theorem config_of_frame_after_reuse (p : ReSTIRDIRenderPass) :
    config_of (frame_after_reuse p) = config_of p := by
  unfold frame_after_reuse
  split
  · exact (config_of_launch_spatiotemporal_pass _).trans (config_of_frame_after_initial p)
  · split
    · exact (config_of_launch_spatial_reuse_passes _).trans (config_of_frame_after_temporal p)
    · exact config_of_frame_after_temporal p

theorem spatial_output_frame_after_temporal (p : ReSTIRDIRenderPass) :
    (frame_after_temporal p).restir_di_settings.spatial_pass.output_reservoirs
      = p.restir_di_settings.spatial_pass.output_reservoirs := by
  unfold frame_after_temporal frame_after_initial
  split <;> split <;> rfl

/-- The buffer recorded by `configure_output_buffer` at the end of a frame. -/
theorem restir_output_launch (p : ReSTIRDIRenderPass) (he : p.restir_di_enabled = true) :
    (launch p).restir_di_settings.restir_output_reservoirs
      = (config_of p).final_output p.restir_di_settings.spatial_pass.output_reservoirs := by
  rw [launch_stages p he]
  have hi := config_of_frame_after_initial p
  have ht := config_of_frame_after_temporal p
  have hr := config_of_frame_after_reuse p
  have hf : (frame_after_reuse p).restir_di_settings.do_fused_spatiotemporal
      = (config_of p).do_fused_spatiotemporal := by rw [← hr]; rfl
  have hs : (frame_after_reuse p).restir_di_settings.spatial_pass.do_spatial_reuse_pass
      = (config_of p).do_spatial_reuse_pass := by rw [← hr]; rfl
  have hte : (frame_after_reuse p).restir_di_settings.temporal_pass.do_temporal_reuse_pass
      = (config_of p).do_temporal_reuse_pass := by rw [← hr]; rfl
  have hfi : (frame_after_initial p).restir_di_settings.do_fused_spatiotemporal
      = (config_of p).do_fused_spatiotemporal := by rw [← hi]; rfl
  have hst : (frame_after_temporal p).restir_di_settings.spatial_pass.do_spatial_reuse_pass
      = (config_of p).do_spatial_reuse_pass := by rw [← ht]; rfl
  have hti : (frame_after_initial p).restir_di_settings.temporal_pass.do_temporal_reuse_pass
      = (config_of p).do_temporal_reuse_pass := by rw [← hi]; rfl
  show (configure_output_buffer (frame_after_reuse p)).restir_di_settings.restir_output_reservoirs = _
  simp only [configure_output_buffer, hf, hs, hte, FrameConfig.final_output]
  by_cases hfu : (config_of p).do_fused_spatiotemporal = true
  · simp only [hfu, Bool.or_true, if_true]
    unfold frame_after_reuse
    rw [hfi, if_pos hfu, launch_spatiotemporal_pass_eq]
    obtain ⟨-, -, -, hout⟩ := foldl_fused_trace
      (launch_asynchronous KernelId.RESTIR_DI_SPATIOTEMPORAL_REUSE
        (configure_spatiotemporal_pass (frame_after_initial p)))
      ((config_of (frame_after_initial p)).number_of_passes.toNat - 1)
    rw [hout, hi]
    have hz := (fused_zero_buffers (frame_after_initial p)).2.1
    have hy : (launch_asynchronous KernelId.RESTIR_DI_SPATIOTEMPORAL_REUSE
        (configure_spatiotemporal_pass (frame_after_initial p))).restir_di_settings.spatial_pass.output_reservoirs
        = (config_of p).other (config_of p).restir_output_reservoirs := by
      rw [← hi]; exact hz
    have ho : other_buffer (launch_asynchronous KernelId.RESTIR_DI_SPATIOTEMPORAL_REUSE
        (configure_spatiotemporal_pass (frame_after_initial p))) = (config_of p).other := by
      rw [← hi]; rfl
    rw [hy, ho, ← Function.iterate_succ_apply, Nat.add_comm 1]
  · have hfu' : (config_of p).do_fused_spatiotemporal = false := by
      cases h : (config_of p).do_fused_spatiotemporal <;> simp_all
    simp only [hfu', Bool.or_false, Bool.false_eq_true, if_false]
    unfold frame_after_reuse
    rw [hfi, hst]
    simp only [hfu', Bool.false_eq_true, if_false]
    by_cases hsp : (config_of p).do_spatial_reuse_pass = true
    · simp only [hsp, if_true]
      obtain ⟨-, -, -, hpos, hzero⟩ := foldl_spatial_trace (frame_after_temporal p)
        (config_of (frame_after_temporal p)).number_of_passes.toNat
      rw [ht] at hpos hzero
      by_cases hn : (config_of p).number_of_passes.toNat = 0
      · rw [if_pos hn]
        unfold launch_spatial_reuse_passes
        have hN : (frame_after_temporal p).restir_di_settings.spatial_pass.number_of_passes
            = (config_of p).number_of_passes := by rw [← ht]; rfl
        rw [hN, hzero hn]
        exact spatial_output_frame_after_temporal p
      · rw [if_neg hn]
        unfold launch_spatial_reuse_passes
        have hN : (frame_after_temporal p).restir_di_settings.spatial_pass.number_of_passes
            = (config_of p).number_of_passes := by rw [← ht]; rfl
        rw [hN, hpos (Nat.pos_of_ne_zero hn),
          (configure_spatial_pass_buffers _ (frame_after_temporal p)).2]
        have h1 : (frame_after_temporal p).spatial_output_reservoirs_1
            = (config_of p).spatial_output_reservoirs_1 := by rw [← ht]; rfl
        have h2 : (frame_after_temporal p).spatial_output_reservoirs_2
            = (config_of p).spatial_output_reservoirs_2 := by rw [← ht]; rfl
        rw [h1, h2]
    · have hsp' : (config_of p).do_spatial_reuse_pass = false := by
        cases h : (config_of p).do_spatial_reuse_pass <;> simp_all
      simp only [hsp', Bool.false_eq_true, if_false]
      unfold frame_after_temporal
      rw [hti]
      by_cases htm : (config_of p).do_temporal_reuse_pass = true
      · simp only [htm, if_true]
        have := temporal_output_eq (frame_after_initial p)
        rw [hi] at this
        exact this
      · have htm' : (config_of p).do_temporal_reuse_pass = false := by
          cases h : (config_of p).do_temporal_reuse_pass <;> simp_all
        simp only [htm', Bool.false_eq_true, if_false]
        exact initial_output_frame_after_initial p

/-- The frame configuration after a frame: the parity flag is negated, the recorded
output is the closed form, everything else is kept. -/
theorem config_of_launch (p : ReSTIRDIRenderPass) (he : p.restir_di_enabled = true) :
    config_of (launch p) =
      { config_of p with
        odd_frame := !(config_of p).odd_frame
        restir_output_reservoirs :=
          (config_of p).final_output p.restir_di_settings.spatial_pass.output_reservoirs } := by
  have ho := restir_output_launch p he
  have hr := config_of_frame_after_reuse p
  rw [launch_stages p he] at ho ⊢
  simp only [config_of, FrameConfig.mk.injEq] at hr ⊢
  obtain ⟨h1, h2, h3, h4, h5, h6, h7, h8, h9, h10, h11, -⟩ := hr
  refine ⟨h1, h2, h3, h4, h5, h6, ?_, h8, h9, h10, h11, ho⟩
  show (!(frame_after_reuse p).odd_frame) = _
  rw [h7]

/-! ## Scheduler: indexing the launch log -/

theorem summary_getElem? {L : List KernelLaunch} {T : List LaunchSummary}
    (h : L.map KernelLaunch.summary = T) {k : Nat} {a : KernelLaunch} (ha : L[k]? = some a) :
    T[k]? = some a.summary := by
  rw [← h, List.getElem?_map, ha]
  rfl

theorem getElem?_map_range {β : Type} (g : Nat → β) (n k : Nat) (t : β)
    (h : ((List.range n).map g)[k]? = some t) : k < n ∧ t = g k := by
  rw [List.getElem?_map] at h
  by_cases hk : k < n
  · rw [List.getElem?_range hk] at h
    simp only [Option.map_some', Option.some.injEq] at h
    exact ⟨hk, h.symm⟩
  · rw [List.getElem?_eq_none (by simpa using hk)] at h
    simp at h

theorem other_mem (c : FrameConfig) (x : DevicePointer) :
    c.other x = c.spatial_output_reservoirs_1 ∨ c.other x = c.spatial_output_reservoirs_2 := by
  unfold FrameConfig.other
  split
  · exact Or.inr rfl
  · exact Or.inl rfl

theorem other_swaps (c : FrameConfig)
    (h12 : c.spatial_output_reservoirs_1 ≠ c.spatial_output_reservoirs_2) (x : DevicePointer) :
    (c.other x = c.spatial_output_reservoirs_1 ∧ c.other (c.other x) = c.spatial_output_reservoirs_2) ∨
    (c.other x = c.spatial_output_reservoirs_2 ∧ c.other (c.other x) = c.spatial_output_reservoirs_1) := by
  unfold FrameConfig.other
  by_cases hx : x = c.spatial_output_reservoirs_1
  · right
    simp [hx, h12.symm]
  · left
    simp [hx]

theorem other_ne (c : FrameConfig)
    (h12 : c.spatial_output_reservoirs_1 ≠ c.spatial_output_reservoirs_2) (x : DevicePointer) :
    c.other x ≠ x := by
  unfold FrameConfig.other
  by_cases hx : x = c.spatial_output_reservoirs_1
  · simp [hx, h12.symm]
  · simp only [hx, if_false]
    exact fun h => hx h.symm

theorem summary_output {a : KernelLaunch} {k : KernelId} {i o : Option DevicePointer}
    (h : a.summary = (k, i, o)) : a.kernel = k ∧ a.input_reservoirs = i ∧ a.output_reservoirs = o := by
  simp only [KernelLaunch.summary, Prod.mk.injEq] at h
  exact h

/-- Ping-pong inside the non-fused spatial loop. -/
theorem ping_pong_spatial_loop (p : ReSTIRDIRenderPass)
    (h12 : p.spatial_output_reservoirs_1 ≠ p.spatial_output_reservoirs_2)
    (k : Nat) (a b : KernelLaunch)
    (ha : (launched_since p (launch_spatial_reuse_passes p))[k]? = some a)
    (hb : (launched_since p (launch_spatial_reuse_passes p))[k + 1]? = some b) :
    ping_pong p a b := by
  have hT := (extends_spatial_loop p).launched_since
  have ea := (getElem?_map_range _ _ _ _ (summary_getElem? hT ha)).2
  have eb := (getElem?_map_range _ _ _ _ (summary_getElem? hT hb)).2
  rw [(configure_spatial_pass_buffers k p).1, (configure_spatial_pass_buffers k p).2] at ea
  rw [(configure_spatial_pass_buffers (k + 1) p).1, (configure_spatial_pass_buffers (k + 1) p).2] at eb
  obtain ⟨-, -, hao⟩ := summary_output ea
  obtain ⟨-, hbi, hbo⟩ := summary_output eb
  by_cases hk : k % 2 = 0
  · have hk1 : ¬ ((k + 1) % 2 = 0) := by omega
    refine ⟨p.spatial_output_reservoirs_1, p.spatial_output_reservoirs_2, ?_, ?_, ?_, h12.symm,
      Or.inl ⟨rfl, rfl⟩⟩
    · rw [hao, if_pos hk]
    · rw [hbi, if_neg (Nat.succ_ne_zero k), if_neg hk1]
    · rw [hbo, if_neg hk1]
  · have hk1 : (k + 1) % 2 = 0 := by omega
    refine ⟨p.spatial_output_reservoirs_2, p.spatial_output_reservoirs_1, ?_, ?_, ?_, h12,
      Or.inr ⟨rfl, rfl⟩⟩
    · rw [hao, if_neg hk]
    · rw [hbi, if_neg (Nat.succ_ne_zero k), if_pos hk1]
    · rw [hbo, if_pos hk1]

/-- Ping-pong inside the fused launch sequence. -/
theorem ping_pong_fused (p : ReSTIRDIRenderPass)
    (h12 : p.spatial_output_reservoirs_1 ≠ p.spatial_output_reservoirs_2)
    (k : Nat) (a b : KernelLaunch)
    (ha : (launched_since p (launch_spatiotemporal_pass p))[k]? = some a)
    (hb : (launched_since p (launch_spatiotemporal_pass p))[k + 1]? = some b) :
    ping_pong p a b := by
  have hT := (extends_fused p).launched_since
  have ea := (getElem?_map_range _ _ _ _ (summary_getElem? hT ha)).2
  have eb := (getElem?_map_range _ _ _ _ (summary_getElem? hT hb)).2
  obtain ⟨-, -, hao⟩ := summary_output ea
  obtain ⟨-, hbi, hbo⟩ := summary_output eb
  have hsw := other_swaps (config_of p) h12
    ((config_of p).other^[k] (config_of p).restir_output_reservoirs)
  rw [← Function.iterate_succ_apply' (config_of p).other k,
    ← Function.iterate_succ_apply' (config_of p).other (k + 1)] at hsw
  refine ⟨_, _, hao, hbi, hbo, ?_, hsw⟩
  rw [Function.iterate_succ_apply' (config_of p).other (k + 1)]
  exact other_ne (config_of p) h12 _

theorem length_launched_spatial_loop (p : ReSTIRDIRenderPass) :
    (launched_since p (launch_spatial_reuse_passes p)).length
      = p.restir_di_settings.spatial_pass.number_of_passes.toNat := by
  have hT := congrArg List.length (extends_spatial_loop p).launched_since
  simpa [config_of] using hT

theorem length_launched_fused (p : ReSTIRDIRenderPass) :
    (launched_since p (launch_spatiotemporal_pass p)).length
      = 1 + (p.restir_di_settings.spatial_pass.number_of_passes.toNat - 1) := by
  have hT := congrArg List.length (extends_fused p).launched_since
  simpa [config_of] using hT

theorem outputs_spatial_loop (p : ReSTIRDIRenderPass) (l : KernelLaunch)
    (hl : l ∈ launched_since p (launch_spatial_reuse_passes p)) :
    l.kernel = KernelId.RESTIR_DI_SPATIAL_REUSE ∧
    (l.output_reservoirs = some p.spatial_output_reservoirs_1 ∨
     l.output_reservoirs = some p.spatial_output_reservoirs_2) := by
  have hT := (extends_spatial_loop p).launched_since
  have hm : l.summary ∈ (launched_since p (launch_spatial_reuse_passes p)).map KernelLaunch.summary :=
    List.mem_map_of_mem _ hl
  rw [hT, List.mem_map] at hm
  obtain ⟨k, -, hk⟩ := hm
  rw [(configure_spatial_pass_buffers k p).2] at hk
  obtain ⟨h1, -, h3⟩ := summary_output hk.symm
  refine ⟨h1, ?_⟩
  rw [h3]
  split
  · exact Or.inl rfl
  · exact Or.inr rfl

theorem outputs_fused (p : ReSTIRDIRenderPass) (l : KernelLaunch)
    (hl : l ∈ launched_since p (launch_spatiotemporal_pass p)) :
    (l.kernel = KernelId.RESTIR_DI_SPATIOTEMPORAL_REUSE ∨ l.kernel = KernelId.RESTIR_DI_SPATIAL_REUSE) ∧
    (l.output_reservoirs = some p.spatial_output_reservoirs_1 ∨
     l.output_reservoirs = some p.spatial_output_reservoirs_2) := by
  have hT := (extends_fused p).launched_since
  have hm : l.summary ∈ (launched_since p (launch_spatiotemporal_pass p)).map KernelLaunch.summary :=
    List.mem_map_of_mem _ hl
  rw [hT, List.mem_map] at hm
  obtain ⟨k, -, hk⟩ := hm
  obtain ⟨h1, -, h3⟩ := summary_output hk.symm
  refine ⟨?_, ?_⟩
  · rw [h1]
    split
    · exact Or.inl rfl
    · exact Or.inr rfl
  · rw [h3, Function.iterate_succ_apply']
    rcases other_mem (config_of p) ((config_of p).other^[k] (config_of p).restir_output_reservoirs)
      with h | h
    · exact Or.inl (congrArg some h)
    · exact Or.inr (congrArg some h)

/-! ## Shading: basic lemmas -/

theorem validate_reservoir_kills (rd : HIPRTRenderData) (reservoir : ReSTIRDIReservoir)
    (hflag : reservoir.sample.flags &&& rd.RESTIR_DI_FLAGS_ENVMAP_SAMPLE ≠ 0)
    (hamb : rd.ambient_light_type ≠ rd.AmbientLightType_ENVMAP) :
    (validate_reservoir rd reservoir).UCW = 0 := by
  unfold validate_reservoir has_flag
  simp [hflag, hamb]

/-- Closed form of `evaluate_reservoir_sample` for a light-origin sample. -/
theorem evaluate_reservoir_sample_light (rd : HIPRTRenderData) (ray_payload : RayPayload)
    (closest_hit_info : HitInfo) (view_direction : float3) (reservoir : RISReservoir)
    (st : DeviceState) (hU : 0 < reservoir.UCW)
    (hb : reservoir.sample.is_bsdf_sample = false) :
    evaluate_reservoir_sample rd ray_payload closest_hit_info view_direction reservoir st
      = (if (ris_shadow_query rd ray_payload closest_hit_info reservoir.sample st).1 then
          (ColorRGB32F.black,
           (ris_shadow_query rd ray_payload closest_hit_info reservoir.sample st).2.2)
        else if ris_cosine rd closest_hit_info reservoir.sample > 0 then
          (((((ris_bsdf_eval rd ray_payload closest_hit_info view_direction reservoir.sample
                st).1.scale reservoir.UCW).mul
              (rd.get_emission (rd.material_indices reservoir.sample.emissive_triangle_index))).scale
              (ris_cosine rd closest_hit_info reservoir.sample)).div
              (ris_shadow_query rd ray_payload closest_hit_info
                reservoir.sample st).2.1.unoccluded_probability,
           log_division DivisionSite.unoccluded_probability
             (ris_shadow_query rd ray_payload closest_hit_info
               reservoir.sample st).2.1.unoccluded_probability
             (ris_bsdf_eval rd ray_payload closest_hit_info view_direction reservoir.sample
               st).2.2)
        else
          (ColorRGB32F.black,
           (ris_bsdf_eval rd ray_payload closest_hit_info view_direction reservoir.sample
             st).2.2)) := by
  have hU' : ¬ reservoir.UCW ≤ 0 := not_le.mpr hU
  unfold evaluate_reservoir_sample
  simp only [hU', if_false, hb, Bool.false_eq_true, Bool.not_false, if_true]
  by_cases hs : (ris_shadow_query rd ray_payload closest_hit_info reservoir.sample st).1 = true
  · have hs' := hs
    simp only [ris_shadow_query, ris_direction_to_light, ris_distance_to_light,
      ris_evaluated_point] at hs'
    simp only [hs, hs', if_true, Bool.not_true, Bool.false_eq_true, if_false]
    rfl
  · have hs' := hs
    simp only [ris_shadow_query, ris_direction_to_light, ris_distance_to_light,
      ris_evaluated_point] at hs'
    simp only [hs, hs', if_false, Bool.not_eq_true] 
    by_cases hc : ris_cosine rd closest_hit_info reservoir.sample > 0
    · have hc' := hc
      simp only [ris_cosine, ris_direction_to_light, ris_distance_to_light,
        ris_evaluated_point] at hc'
      simp only [hc, hc', if_true]
      rfl
    · have hc' := hc
      simp only [ris_cosine, ris_direction_to_light, ris_distance_to_light,
        ris_evaluated_point] at hc'
      simp only [hc, hc', if_false]
      rfl

/-- Closed form of `evaluate_ReSTIR_DI_reservoir` for a reservoir that holds a sample. -/
theorem evaluate_ReSTIR_DI_reservoir_eq (rd : HIPRTRenderData) (ray_payload : RayPayload)
    (closest_hit_info : HitInfo) (view_direction : float3) (reservoir : ReSTIRDIReservoir)
    (st : DeviceState) (hU : 0 < reservoir.UCW) :
    (evaluate_ReSTIR_DI_reservoir rd ray_payload closest_hit_info view_direction reservoir st).1
      = (if (restir_occlusion rd closest_hit_info reservoir.sample st).1 then ColorRGB32F.black
        else if (if has_flag reservoir.sample.flags
                    rd.RESTIR_DI_FLAGS_SAMPLED_FROM_GLASS_REFRACT_LOBE
                 then hippt_abs (restir_dot rd closest_hit_info reservoir.sample)
                 else restir_dot rd closest_hit_info reservoir.sample) > 0 then
          (((restir_bsdf_eval rd ray_payload closest_hit_info view_direction reservoir.sample
              st).1.scale reservoir.UCW).mul
            (restir_emission rd closest_hit_info reservoir.sample)).scale
            (if has_flag reservoir.sample.flags
                rd.RESTIR_DI_FLAGS_SAMPLED_FROM_GLASS_REFRACT_LOBE
             then hippt_abs (restir_dot rd closest_hit_info reservoir.sample)
             else restir_dot rd closest_hit_info reservoir.sample)
        else ColorRGB32F.black) := by
  have hU' : ¬ reservoir.UCW ≤ 0 := not_le.mpr hU
  unfold evaluate_ReSTIR_DI_reservoir
  simp only [hU', if_false, restir_occlusion, restir_bsdf_eval, restir_emission, restir_dot,
    restir_shadow_ray]
  split_ifs <;> first | rfl | simp_all

/-! ## Candidate generation: basic lemmas -/

theorem queries_since_append (st later : DeviceState) (L : List Query)
    (h : later.queries = st.queries ++ L) : queries_since st later = L := by
  simp [queries_since, h]

/-- The converted pdf of a light candidate is positive where it is divided by. -/
theorem converted_pdf_pos (length : float3 → ℚ) (normal to_light : float3) (p : ℚ)
    (hp : p > 0)
    (hc : hippt_abs (hippt_dot normal ((to_light.div (length to_light)).neg)) > 1 / 1000000) :
    0 < p * (length to_light * length to_light)
      / hippt_abs (hippt_dot normal ((to_light.div (length to_light)).neg)) := by
  have hd : length to_light ≠ 0 := by
    intro h0
    rw [h0] at hc
    simp [float3.div, float3.neg, hippt_dot, hippt_abs] at hc
    linarith
  have hc0 : (0 : ℚ) < hippt_abs (hippt_dot normal ((to_light.div (length to_light)).neg)) :=
    lt_trans (by norm_num) hc
  exact div_pos (mul_pos hp (mul_self_pos.mpr hd)) hc0

/-- What building one light candidate records. -/
theorem light_candidate_log (rd : RISRenderData) (ray_payload : RayPayload)
    (closest_hit_info : HitInfo) (view_direction : float3) (m : ℚ) (nl nb : Int)
    (st : DeviceState) :
    ∃ L : List Query,
      (light_candidate rd ray_payload closest_hit_info view_direction m nl nb st).2.2.queries
        = st.queries ++ L ∧
      ∀ q ∈ L, candidate_event_ok nl nb q := by
  unfold light_candidate
  simp only [call_uniform_sample_one_emissive_triangle, call_check_minimum_light_contribution,
    call_bsdf_dispatcher_eval, call_evaluate_shadow_ray, call_balance_heuristic, log_division]
  split_ifs with h1 h2 h3 h4 h5 h6 h7
  all_goals
    first
    | exact ⟨_, rfl, by simp [candidate_event_ok]⟩
    | (refine ⟨_, by simp only [List.append_assoc]; rfl, ?_⟩
       have hpos := converted_pdf_pos rd.length _ _ _ h1 h2.2
       simp [candidate_event_ok, hpos])

/-- What building one BSDF candidate records. -/
theorem bsdf_candidate_log (rd : RISRenderData) (ray_payload : RayPayload)
    (closest_hit_info : HitInfo) (view_direction : float3) (m : ℚ) (nl nb : Int)
    (st : DeviceState) :
    ∃ L : List Query,
      (bsdf_candidate rd ray_payload closest_hit_info view_direction m nl nb st).2.2.2.2.queries
        = st.queries ++ L ∧
      ∀ q ∈ L, candidate_event_ok nb nl q := by
  unfold bsdf_candidate
  simp only [call_bsdf_dispatcher_sample, call_check_minimum_light_contribution,
    call_evaluate_shadow_light_ray, call_balance_heuristic, log_division]
  split_ifs with h1 h2
  all_goals
    first
    | exact ⟨_, rfl, by simp [candidate_event_ok]⟩
    | (refine ⟨_, by simp only [List.append_assoc]; rfl, ?_⟩
       simp [candidate_event_ok, h1])

/-- One iteration of the light loop records what the candidate records, then the call
to `add_one_candidate` with the candidate's sample and weight, made on the reservoir
the iteration was given. -/
theorem light_candidate_iteration_log (rd : RISRenderData) (ray_payload : RayPayload)
    (closest_hit_info : HitInfo) (view_direction : float3) (m : ℚ) (nl nb : Int)
    (acc : RISReservoir × DeviceState) :
    ∃ L : List Query,
      (light_candidate_iteration rd ray_payload closest_hit_info view_direction m nl nb
          acc).2.queries
        = acc.2.queries ++ L ++
          [Query.add_one_candidate
            (light_candidate rd ray_payload closest_hit_info view_direction m nl nb acc.2).1
            (light_candidate rd ray_payload closest_hit_info view_direction m nl nb acc.2).2.1] ∧
      (∀ q ∈ L, candidate_event_ok nl nb q) ∧
      (light_candidate_iteration rd ray_payload closest_hit_info view_direction m nl nb acc).1
        = (rd.add_one_candidate acc.1
            (light_candidate rd ray_payload closest_hit_info view_direction m nl nb acc.2).1
            (light_candidate rd ray_payload closest_hit_info view_direction m nl nb acc.2).2.1
            (light_candidate rd ray_payload closest_hit_info view_direction m nl nb
              acc.2).2.2.rng).1 := by
  obtain ⟨L, hL, hok⟩ := light_candidate_log rd ray_payload closest_hit_info view_direction
    m nl nb acc.2
  refine ⟨L, ?_, hok, rfl⟩
  simp only [light_candidate_iteration, call_add_one_candidate, hL]

/-- One iteration of the BSDF loop records what the candidate records, then the fill
of the ray-reuse record, then the call to `add_one_candidate`. -/
theorem bsdf_candidate_iteration_log (rd : RISRenderData) (closest_hit_info : HitInfo)
    (view_direction : float3) (m : ℚ) (nl nb : Int)
    (acc : RISReservoir × MISBSDFRayReuse × RayPayload × DeviceState) :
    ∃ L : List Query,
      (bsdf_candidate_iteration rd closest_hit_info view_direction m nl nb acc).2.2.2.queries
        = acc.2.2.2.queries ++ L ++
          [Query.add_one_candidate
            (bsdf_candidate rd acc.2.2.1 closest_hit_info view_direction m nl nb acc.2.2.2).1.1
            (bsdf_candidate rd acc.2.2.1 closest_hit_info view_direction m nl nb
              acc.2.2.2).1.2] ∧
      (∀ q ∈ L, candidate_event_ok nb nl q) ∧
      (bsdf_candidate_iteration rd closest_hit_info view_direction m nl nb acc).1
        = (rd.add_one_candidate acc.1
            (bsdf_candidate rd acc.2.2.1 closest_hit_info view_direction m nl nb acc.2.2.2).1.1
            (bsdf_candidate rd acc.2.2.1 closest_hit_info view_direction m nl nb
              acc.2.2.2).1.2
            (bsdf_candidate rd acc.2.2.1 closest_hit_info view_direction m nl nb
              acc.2.2.2).2.2.2.2.rng).1 := by
  obtain ⟨L, hL, hok⟩ := bsdf_candidate_log rd acc.2.2.1 closest_hit_info view_direction
    m nl nb acc.2.2.2
  refine ⟨L ++ [Query.mis_ray_reuse_fill
      (bsdf_candidate rd acc.2.2.1 closest_hit_info view_direction m nl nb
        acc.2.2.2).2.2.1.2.2
      (bsdf_candidate rd acc.2.2.1 closest_hit_info view_direction m nl nb
        acc.2.2.2).2.1.1], ?_, ?_, rfl⟩
  · simp only [bsdf_candidate_iteration, call_add_one_candidate, call_mis_ray_reuse_fill, hL,
      List.append_assoc]
  · intro q hq
    rcases List.mem_append.mp hq with h | h
    · exact hok q h
    · simp only [List.mem_singleton] at h
      rw [h]
      simp [candidate_event_ok]

theorem candidate_event_ok_not_add {na nb : Int} {q : Query} (h : candidate_event_ok na nb q) :
    is_add_one_candidate q = false := by
  cases q <;> first | rfl | exact absurd h (by simp [candidate_event_ok])

/-- A loop whose iteration records events that are fine for a candidate and then one
call to `add_one_candidate`: after `n` iterations exactly `n` such calls were
recorded, and everything else recorded is fine for a candidate. -/
theorem loop_log {α : Type} (dst : α → DeviceState) (it : α → α) (na nb : Int)
    (hit : ∀ a, ∃ (L : List Query) (s : RISSample) (w : ℚ),
      (dst (it a)).queries = (dst a).queries ++ L ++ [Query.add_one_candidate s w] ∧
      ∀ q ∈ L, candidate_event_ok na nb q)
    (n : Nat) (a : α) :
    ∃ L : List Query,
      (dst ((List.range n).foldl (fun acc _ => it acc) a)).queries = (dst a).queries ++ L ∧
      L.countP is_add_one_candidate = n ∧
      ∀ q ∈ L, candidate_event_ok na nb q ∨ is_add_one_candidate q = true := by
  induction n with
  | zero => exact ⟨[], by simp, by simp, by simp⟩
  | succ n ih =>
    obtain ⟨L, hL, hcount, hok⟩ := ih
    obtain ⟨L', s, w, hL', hok'⟩ := hit ((List.range n).foldl (fun acc _ => it acc) a)
    refine ⟨L ++ (L' ++ [Query.add_one_candidate s w]), ?_, ?_, ?_⟩
    · rw [List.range_succ, List.foldl_append]
      simp only [List.foldl_cons, List.foldl_nil]
      rw [hL', hL]
      simp only [List.append_assoc]
    · rw [List.countP_append, List.countP_append, hcount]
      have h0 : List.countP is_add_one_candidate L' = 0 := by
        rw [List.countP_eq_zero]
        intro q hq
        rw [candidate_event_ok_not_add (hok' q hq)]
        simp
      rw [h0]
      simp [is_add_one_candidate]
    · intro q hq
      rcases List.mem_append.mp hq with h | h
      · exact hok q h
      · rcases List.mem_append.mp h with h | h
        · exact Or.inl (hok' q h)
        · simp only [List.mem_singleton] at h
          rw [h]
          exact Or.inr rfl

/-- What a call of `sample_bsdf_and_lights_RIS_reservoir` records: the light loop,
then the BSDF loop, then `end()`; each loop records one `add_one_candidate` per
iteration, and around them only events that are fine for a candidate of that loop. -/
theorem generator_log (rd : RISRenderData) (ray_payload : RayPayload)
    (closest_hit_info : HitInfo) (view_direction : float3) (st : DeviceState)
    (mis_ray_reuse : MISBSDFRayReuse) :
    ∃ L1 L2 : List Query,
      (sample_bsdf_and_lights_RIS_reservoir rd ray_payload closest_hit_info view_direction st
          mis_ray_reuse).2.2.2.queries
        = st.queries ++ L1 ++ L2 ++ [Query.reservoir_end] ∧
      L1.countP is_add_one_candidate = (nb_light_candidates rd ray_payload).toNat ∧
      L2.countP is_add_one_candidate = (nb_bsdf_candidates rd).toNat ∧
      (∀ q ∈ L1, candidate_event_ok (nb_light_candidates rd ray_payload)
          (nb_bsdf_candidates rd) q ∨ is_add_one_candidate q = true) ∧
      (∀ q ∈ L2, candidate_event_ok (nb_bsdf_candidates rd)
          (nb_light_candidates rd ray_payload) q ∨ is_add_one_candidate q = true) := by
  obtain ⟨L1, h1, c1, ok1⟩ := loop_log (fun a : RISReservoir × DeviceState => a.2)
    (light_candidate_iteration rd ray_payload closest_hit_info view_direction
      (inside_surface_multiplier view_direction closest_hit_info)
      (nb_light_candidates rd ray_payload) (nb_bsdf_candidates rd))
    (nb_light_candidates rd ray_payload) (nb_bsdf_candidates rd)
    (fun a => by
      obtain ⟨L, hL, hok, -⟩ := light_candidate_iteration_log rd ray_payload closest_hit_info
        view_direction (inside_surface_multiplier view_direction closest_hit_info)
        (nb_light_candidates rd ray_payload) (nb_bsdf_candidates rd) a
      exact ⟨L, _, _, hL, hok⟩)
    (nb_light_candidates rd ray_payload).toNat (rd.default_reservoir, st)
  obtain ⟨L2, h2, c2, ok2⟩ := loop_log
    (fun a : RISReservoir × MISBSDFRayReuse × RayPayload × DeviceState => a.2.2.2)
    (bsdf_candidate_iteration rd closest_hit_info view_direction
      (inside_surface_multiplier view_direction closest_hit_info)
      (nb_light_candidates rd ray_payload) (nb_bsdf_candidates rd))
    (nb_bsdf_candidates rd) (nb_light_candidates rd ray_payload)
    (fun a => by
      obtain ⟨L, hL, hok, -⟩ := bsdf_candidate_iteration_log rd closest_hit_info
        view_direction (inside_surface_multiplier view_direction closest_hit_info)
        (nb_light_candidates rd ray_payload) (nb_bsdf_candidates rd) a
      exact ⟨L, _, _, hL, hok⟩)
    (nb_bsdf_candidates rd).toNat
    ((light_loop rd ray_payload closest_hit_info view_direction
        (nb_light_candidates rd ray_payload).toNat (rd.default_reservoir, st)).1,
      mis_ray_reuse, ray_payload,
     (light_loop rd ray_payload closest_hit_info view_direction
        (nb_light_candidates rd ray_payload).toNat (rd.default_reservoir, st)).2)
  refine ⟨L1, L2, ?_, c1, c2, ok1, ok2⟩
  simp only [sample_bsdf_and_lights_RIS_reservoir, call_reservoir_end, bsdf_loop]
  rw [h2]
  simp only [light_loop]
  rw [h1]

/-- A weighted light candidate, in terms of its local variables. -/
theorem light_candidate_weighted_eq (rd : RISRenderData) (ray_payload : RayPayload)
    (closest_hit_info : HitInfo) (view_direction : float3) (m : ℚ) (nl nb : Int)
    (st : DeviceState) (hw : light_candidate_is_weighted rd closest_hit_info m st) :
    light_candidate rd ray_payload closest_hit_info view_direction m nl nb st
      = ({ rd.default_sample with
           is_bsdf_sample := false
           point_on_light_source := (call_uniform_sample_one_emissive_triangle rd st).1
           target_function :=
             (light_visibility rd ray_payload closest_hit_info view_direction m st).1
           emissive_triangle_index :=
             (call_uniform_sample_one_emissive_triangle rd st).2.2.1.emissive_triangle_index },
         rd.balance_heuristic (light_sample_pdf_converted rd closest_hit_info st) nl
             (light_target rd ray_payload closest_hit_info view_direction m st).2.1 nb
           * (light_visibility rd ray_payload closest_hit_info view_direction m st).1
           / light_sample_pdf_converted rd closest_hit_info st,
         log_division DivisionSite.light_sample_pdf
           (light_sample_pdf_converted rd closest_hit_info st)
           (call_balance_heuristic rd (light_sample_pdf_converted rd closest_hit_info st) nl
             (light_target rd ray_payload closest_hit_info view_direction m st).2.1 nb
             (light_visibility rd ray_payload closest_hit_info view_direction m st).2).2) := by
  obtain ⟨hp, hce, hcl⟩ := hw
  unfold light_cosine_at_evaluated_point light_to_light_direction at hce
  unfold light_cosine_at_light_source light_to_light_direction at hcl
  unfold light_candidate
  simp only [hp, hce, hcl, and_self, if_true]
  rfl

/-- A light candidate that is not weighted has target function 0 and weight 0, and
records only the call of the light sampler. -/
theorem light_candidate_unweighted_eq (rd : RISRenderData) (ray_payload : RayPayload)
    (closest_hit_info : HitInfo) (view_direction : float3) (m : ℚ) (nl nb : Int)
    (st : DeviceState) (hw : ¬ light_candidate_is_weighted rd closest_hit_info m st) :
    light_candidate rd ray_payload closest_hit_info view_direction m nl nb st
      = ({ rd.default_sample with
           is_bsdf_sample := false
           point_on_light_source := (call_uniform_sample_one_emissive_triangle rd st).1
           target_function := 0
           emissive_triangle_index :=
             (call_uniform_sample_one_emissive_triangle rd st).2.2.1.emissive_triangle_index },
         0, (call_uniform_sample_one_emissive_triangle rd st).2.2.2) := by
  unfold light_candidate_is_weighted light_cosine_at_evaluated_point
    light_cosine_at_light_source light_to_light_direction at hw
  dsimp only at hw
  unfold light_candidate
  by_cases hp : (call_uniform_sample_one_emissive_triangle rd st).2.1 > 0
  · have hn2 : ¬ (_ ∧ _) := fun h => hw ⟨hp, h⟩
    simp only [hp, if_true]
    rw [if_neg hn2]
  · simp only [hp, if_false]

/-- The target function of a weighted light candidate is 0 when a check fails or
the visibility term finds the light occluded. -/
theorem light_visibility_zero (rd : RISRenderData) (ray_payload : RayPayload)
    (closest_hit_info : HitInfo) (view_direction : float3) (m : ℚ) (st : DeviceState)
    (h : (light_early_check rd closest_hit_info st).1 = false ∨
      (light_full_check rd ray_payload closest_hit_info view_direction m st).1 = false ∨
      (light_visibility_is_tested rd ray_payload closest_hit_info view_direction m st = true ∧
        (light_visibility_shadow_ray rd ray_payload closest_hit_info view_direction m
          st).1 = true)) :
    (light_visibility rd ray_payload closest_hit_info view_direction m st).1 = 0 := by
  unfold light_visibility light_target
  rcases h with h | h | ⟨h1, h2⟩
  · simp [h]
  · cases he : (light_early_check rd closest_hit_info st).1 <;> simp [h]
  · unfold light_visibility_is_tested at h1
    unfold light_visibility_shadow_ray at h2
    cases he : (light_early_check rd closest_hit_info st).1
    · simp
    · cases hf : (light_full_check rd ray_payload closest_hit_info view_direction m st).1
      · simp
      · simp only [Bool.not_true, Bool.false_eq_true, if_false, h1, if_true, h2, mul_zero]

/-- A BSDF candidate that hit an emitter, in terms of its local variables: the
target function, the weight and the state. -/
theorem bsdf_candidate_hit_eq (rd : RISRenderData) (ray_payload : RayPayload)
    (closest_hit_info : HitInfo) (view_direction : float3) (m : ℚ) (nl nb : Int)
    (st : DeviceState)
    (hw : bsdf_candidate_hit_emitter rd ray_payload closest_hit_info view_direction st) :
    (bsdf_candidate rd ray_payload closest_hit_info view_direction m nl nb
        st).1.1.target_function
      = (if !(bsdf_check rd ray_payload closest_hit_info view_direction m st).1 then 0
         else rd.luminance
          (bsdf_light_contribution rd ray_payload closest_hit_info view_direction st)) ∧
    (bsdf_candidate rd ray_payload closest_hit_info view_direction m nl nb st).1.2
      = rd.balance_heuristic
            (call_bsdf_dispatcher_sample rd ray_payload view_direction closest_hit_info
              st).2.2.1 nb
            (bsdf_light_pdf rd ray_payload closest_hit_info view_direction m st) nl
          * (bsdf_candidate rd ray_payload closest_hit_info view_direction m nl nb
              st).1.1.target_function
          / (call_bsdf_dispatcher_sample rd ray_payload view_direction closest_hit_info
              st).2.2.1 ∧
    (bsdf_candidate rd ray_payload closest_hit_info view_direction m nl nb st).2.2.2.2
      = log_division DivisionSite.bsdf_sample_pdf
          (call_bsdf_dispatcher_sample rd ray_payload view_direction closest_hit_info st).2.2.1
          (call_balance_heuristic rd
            (call_bsdf_dispatcher_sample rd ray_payload view_direction closest_hit_info
              st).2.2.1 nb
            (bsdf_light_pdf rd ray_payload closest_hit_info view_direction m st) nl
            (bsdf_check rd ray_payload closest_hit_info view_direction m st).2).2 := by
  obtain ⟨hp, hh⟩ := hw
  unfold bsdf_traced at hh
  dsimp only at hh
  unfold bsdf_candidate
  simp only [hp, if_true, hh]
  exact ⟨rfl, rfl, rfl⟩

/-- A BSDF candidate that did not hit an emitter is a default sample with weight 0. -/
theorem bsdf_candidate_miss_eq (rd : RISRenderData) (ray_payload : RayPayload)
    (closest_hit_info : HitInfo) (view_direction : float3) (m : ℚ) (nl nb : Int)
    (st : DeviceState)
    (hw : ¬ bsdf_candidate_hit_emitter rd ray_payload closest_hit_info view_direction st) :
    (bsdf_candidate rd ray_payload closest_hit_info view_direction m nl nb st).1
      = (rd.default_sample, 0) := by
  unfold bsdf_candidate_hit_emitter bsdf_traced at hw
  dsimp only at hw
  unfold bsdf_candidate
  by_cases hp :
      (call_bsdf_dispatcher_sample rd ray_payload view_direction closest_hit_info st).2.2.1 > 0
  · have hn2 : ¬ (_ = true) := fun h => hw ⟨hp, h⟩
    simp only [hp, if_true]
    rw [if_neg hn2]
  · simp only [hp, if_false]

/-- The light-technique pdf of a BSDF candidate that hit an emitter: 0 on a
refraction, the pdf of the emissive triangle hit otherwise. -/
theorem bsdf_light_pdf_eq (rd : RISRenderData) (ray_payload : RayPayload)
    (closest_hit_info : HitInfo) (view_direction : float3) (m : ℚ) (st : DeviceState) :
    bsdf_light_pdf rd ray_payload closest_hit_info view_direction m st
      = (if hippt_dot
            (call_bsdf_dispatcher_sample rd ray_payload view_direction closest_hit_info st).2.1
            (closest_hit_info.shading_normal.scale m) < 0 then 0
         else rd.pdf_of_emissive_triangle_hit
            (bsdf_traced rd ray_payload closest_hit_info view_direction st).2.1
            (call_bsdf_dispatcher_sample rd ray_payload view_direction closest_hit_info
              st).2.1) := by
  unfold bsdf_light_pdf bsdf_refraction_sampled
  split_ifs <;> simp_all

/-- What a BSDF candidate that hit an emitter records, in order. -/
theorem bsdf_candidate_hit_log (rd : RISRenderData) (ray_payload : RayPayload)
    (closest_hit_info : HitInfo) (view_direction : float3) (m : ℚ) (nl nb : Int)
    (st : DeviceState)
    (hw : bsdf_candidate_hit_emitter rd ray_payload closest_hit_info view_direction st) :
    (bsdf_candidate rd ray_payload closest_hit_info view_direction m nl nb st).2.2.2.2.queries
      = st.queries ++
        [Query.bsdf_sample,
         Query.shadow_light_ray
           ⟨closest_hit_info.inter_point,
            (call_bsdf_dispatcher_sample rd ray_payload view_direction closest_hit_info st).2.1⟩
           ((10 : ℚ) ^ 35),
         Query.division DivisionSite.light_pdf
           (bsdf_light_pdf rd ray_payload closest_hit_info view_direction m st),
         Query.division DivisionSite.bsdf_sample_pdf
           (call_bsdf_dispatcher_sample rd ray_payload view_direction closest_hit_info st).2.2.1,
         Query.check_minimum_light_contribution
           (((bsdf_light_contribution rd ray_payload closest_hit_info view_direction st).div
              (bsdf_light_pdf rd ray_payload closest_hit_info view_direction m st)).div
            (call_bsdf_dispatcher_sample rd ray_payload view_direction closest_hit_info
              st).2.2.1),
         Query.balance_heuristic
           (call_bsdf_dispatcher_sample rd ray_payload view_direction closest_hit_info st).2.2.1
           nb (bsdf_light_pdf rd ray_payload closest_hit_info view_direction m st) nl,
         Query.division DivisionSite.bsdf_sample_pdf
           (call_bsdf_dispatcher_sample rd ray_payload view_direction closest_hit_info
             st).2.2.1] := by
  rw [(bsdf_candidate_hit_eq rd ray_payload closest_hit_info view_direction m nl nb st hw).2.2]
  simp [log_division, call_balance_heuristic, bsdf_check, call_check_minimum_light_contribution,
    bsdf_traced, call_evaluate_shadow_light_ray, call_bsdf_dispatcher_sample]

/-- What a weighted light candidate records when the early check fails: no BSDF
evaluation and no shadow ray. -/
theorem light_candidate_early_cull_log (rd : RISRenderData) (ray_payload : RayPayload)
    (closest_hit_info : HitInfo) (view_direction : float3) (m : ℚ) (nl nb : Int)
    (st : DeviceState) (hw : light_candidate_is_weighted rd closest_hit_info m st)
    (he : (light_early_check rd closest_hit_info st).1 = false) :
    (light_candidate rd ray_payload closest_hit_info view_direction m nl nb st).2.2.queries
      = st.queries ++
        [Query.sample_emissive_triangle,
         Query.division DivisionSite.light_sample_pdf
           (light_sample_pdf_converted rd closest_hit_info st),
         Query.check_minimum_light_contribution
           ((call_uniform_sample_one_emissive_triangle rd st).2.2.1.emission.div
             (light_sample_pdf_converted rd closest_hit_info st)),
         Query.balance_heuristic (light_sample_pdf_converted rd closest_hit_info st) nl 0 nb,
         Query.division DivisionSite.light_sample_pdf
           (light_sample_pdf_converted rd closest_hit_info st)] := by
  rw [light_candidate_weighted_eq rd ray_payload closest_hit_info view_direction m nl nb st hw]
  have ht : light_target rd ray_payload closest_hit_info view_direction m st
      = (0, 0, (light_early_check rd closest_hit_info st).2) := by
    simp [light_target, he]
  have hv : light_visibility rd ray_payload closest_hit_info view_direction m st
      = (0, (light_early_check rd closest_hit_info st).2) := by
    simp [light_visibility, ht]
  rw [ht, hv]
  simp [log_division, call_balance_heuristic, light_early_check,
    call_check_minimum_light_contribution, call_uniform_sample_one_emissive_triangle]

/-! ## Candidate generation: the ray-reuse record -/

/-- Building one BSDF candidate does not fill the ray-reuse record. -/
theorem bsdf_candidate_log_no_fill (rd : RISRenderData) (ray_payload : RayPayload)
    (closest_hit_info : HitInfo) (view_direction : float3) (m : ℚ) (nl nb : Int)
    (st : DeviceState) :
    ∃ L : List Query,
      (bsdf_candidate rd ray_payload closest_hit_info view_direction m nl nb st).2.2.2.2.queries
        = st.queries ++ L ∧
      ∀ q ∈ L, is_mis_ray_reuse_fill q = false := by
  unfold bsdf_candidate
  simp only [call_bsdf_dispatcher_sample, call_check_minimum_light_contribution,
    call_evaluate_shadow_light_ray, call_balance_heuristic, log_division]
  split_ifs with h1 h2
  all_goals
    first
    | exact ⟨_, rfl, by simp [is_mis_ray_reuse_fill]⟩
    | (refine ⟨_, by simp only [List.append_assoc]; rfl, ?_⟩
       simp [is_mis_ray_reuse_fill])

/-- The hit flag and what the BSDF sampler answered, as a BSDF candidate hands them
to `mis_ray_reuse.fill`. -/
theorem bsdf_candidate_fill_arguments (rd : RISRenderData) (ray_payload : RayPayload)
    (closest_hit_info : HitInfo) (view_direction : float3) (m : ℚ) (nl nb : Int)
    (st : DeviceState) :
    (bsdf_candidate rd ray_payload closest_hit_info view_direction m nl nb st).2.1.1
      = bsdf_hit_found rd ray_payload closest_hit_info view_direction st ∧
    (bsdf_candidate rd ray_payload closest_hit_info view_direction m nl nb st).2.2.1
      = ((call_bsdf_dispatcher_sample rd ray_payload view_direction closest_hit_info st).1,
         (call_bsdf_dispatcher_sample rd ray_payload view_direction closest_hit_info st).2.1,
         (call_bsdf_dispatcher_sample rd ray_payload view_direction closest_hit_info
           st).2.2.1) := by
  refine ⟨?_, rfl⟩
  unfold bsdf_candidate bsdf_hit_found bsdf_traced
  dsimp only
  by_cases h1 :
      (call_bsdf_dispatcher_sample rd ray_payload view_direction closest_hit_info st).2.2.1 > 0
  · rw [if_pos h1]
    split
    · simp [h1]
    · simp [h1]
  · rw [if_neg h1]
    simp [h1]

/-- A BSDF candidate whose pdf is not positive: no ray is traced, the sample is a
default one and the weight is 0. -/
theorem bsdf_candidate_invalid_eq (rd : RISRenderData) (ray_payload : RayPayload)
    (closest_hit_info : HitInfo) (view_direction : float3) (m : ℚ) (nl nb : Int)
    (st : DeviceState)
    (hp : (call_bsdf_dispatcher_sample rd ray_payload view_direction closest_hit_info
      st).2.2.1 ≤ 0) :
    (bsdf_candidate rd ray_payload closest_hit_info view_direction m nl nb st).1
      = (rd.default_sample, 0) ∧
    (bsdf_candidate rd ray_payload closest_hit_info view_direction m nl nb st).2.1
      = (false, rd.default_shadow_light_ray_hit_info) ∧
    (bsdf_candidate rd ray_payload closest_hit_info view_direction m nl nb st).2.2.2.2
      = (call_bsdf_dispatcher_sample rd ray_payload view_direction closest_hit_info
          st).2.2.2.2 := by
  have hn : ¬ (call_bsdf_dispatcher_sample rd ray_payload view_direction closest_hit_info
      st).2.2.1 > 0 := not_lt.mpr hp
  unfold bsdf_candidate
  dsimp only
  rw [if_neg hn]
  exact ⟨rfl, rfl, rfl⟩

/-! ## Russian roulette: closed form -/

/-- The active Russian roulette in terms of the survival probability and the number
drawn. -/
theorem do_russian_roulette_active (render_settings : HIPRTRenderSettings) (bounce : Int)
    (ray_throughput current_weight : ColorRGB32F) (st : DeviceState)
    (h : russian_roulette_is_active render_settings bounce) :
    do_russian_roulette render_settings bounce ray_throughput current_weight st
      = (if (russian_roulette_draw render_settings ray_throughput current_weight st).1
            > survive_probability render_settings ray_throughput current_weight st then
          (false, ray_throughput,
            (russian_roulette_draw render_settings ray_throughput current_weight st).2)
        else
          (true,
            ray_throughput.scale
              (if render_settings.russian_roulette_throughput_clamp > 0 then
                hippt_min
                  (1 / survive_probability render_settings ray_throughput current_weight st)
                  render_settings.russian_roulette_throughput_clamp
               else 1 / survive_probability render_settings ray_throughput current_weight st),
            log_division DivisionSite.survive_probability
              (survive_probability render_settings ray_throughput current_weight st)
              (russian_roulette_draw render_settings ray_throughput current_weight st).2)) := by
  obtain ⟨h1, h2⟩ := h
  unfold do_russian_roulette
  simp only [h1, h2, decide_True, Bool.and_self, if_true]
  rfl

/-- What the draw of the Russian roulette records and how it leaves the generator. -/
theorem russian_roulette_draw_log (render_settings : HIPRTRenderSettings)
    (ray_throughput current_weight : ColorRGB32F) (st : DeviceState) :
    (russian_roulette_draw render_settings ray_throughput current_weight st).1
      = (render_settings.random_number_generator st.rng).1 ∧
    (russian_roulette_draw render_settings ray_throughput current_weight st).2.rng
      = (render_settings.random_number_generator st.rng).2 ∧
    ∃ L : List Query,
      (russian_roulette_draw render_settings ray_throughput current_weight st).2.queries
        = st.queries ++ L ++ [Query.random_number] ∧
      L.countP is_random_number = 0 := by
  unfold russian_roulette_draw survive_probability_estimate call_random_number_generator
  cases render_settings.path_russian_roulette_method
  · exact ⟨rfl, rfl, [], by simp, rfl⟩
  · exact ⟨rfl, rfl, [Query.division DivisionSite.throughput_max_component
      ray_throughput.max_component], by simp [log_division], rfl⟩
  · exact ⟨rfl, rfl, [], by simp, rfl⟩

/-! ## Machine integers -/

/-- An integer in the range of `int` is its own 32-bit value. -/
theorem int_wrap_of_range (v : Int) (h0 : -2 ^ 31 ≤ v) (h1 : v < 2 ^ 31) : int_wrap v = v := by
  unfold int_wrap
  rw [Int.emod_eq_of_lt (by omega) (by omega)]
  omega

/-- A non-negative integer below `2^32` converts to `unsigned int` unchanged. -/
theorem to_unsigned_of_range (v : Int) (h0 : 0 ≤ v) (h1 : v < 2 ^ 32) :
    (to_unsigned v : Int) = v := by
  unfold to_unsigned
  rw [Int.emod_eq_of_lt h0 h1]
  exact Int.toNat_of_nonneg h0

/-- A natural number below `2^32` is its own `unsigned int` value. -/
theorem unsigned_wrap_of_range (n : Nat) (h : n < 2 ^ 32) : unsigned_wrap n = n :=
  Nat.mod_eq_of_lt h

/-- A cell count whose half matrix fits 32 bits is below `2^16`. -/
theorem half_matrix_bound (M : Nat) (h : 2 * (M * (M + 1)) < 2 ^ 32) : M < 2 ^ 16 := by
  by_contra hc
  have h1 : 2 ^ 16 ≤ M := not_lt.mp hc
  have h2 : 2 ^ 16 * (2 ^ 16 + 1) ≤ M * (M + 1) :=
    Nat.mul_le_mul h1 (Nat.add_le_add_right h1 1)
  omega

/-- The element count of the visibility matrix of a grid of `X * Y * Z` cells, when
nothing wraps around. -/
theorem get_visibility_matrix_element_count_eq (X Y Z : Nat) (hZ : 1 ≤ Z)
    (h : 2 * ((X * Y * Z) * (X * Y * Z + 1)) < 2 ^ 32) :
    get_visibility_matrix_element_count ⟨(X : Int), (Y : Int), (Z : Int)⟩
      = (X * Y * Z) * (X * Y * Z + 1) / 2 := by
  have hM : X * Y * Z < 2 ^ 16 := by
    by_contra hc
    have h1 : 2 ^ 16 ≤ X * Y * Z := not_lt.mp hc
    have h2 : 2 ^ 16 * (2 ^ 16 + 1) ≤ (X * Y * Z) * (X * Y * Z + 1) :=
      Nat.mul_le_mul h1 (Nat.succ_le_succ h1)
    omega
  have hXY : X * Y ≤ X * Y * Z := Nat.le_mul_of_pos_right _ hZ
  have e1 : int_wrap ((X : Int) * (Y : Int)) = ((X * Y : Nat) : Int) := by
    rw [int_wrap_of_range]
    · push_cast
      rfl
    · have : (0 : Int) ≤ ((X * Y : Nat) : Int) := Int.natCast_nonneg _
      push_cast at this
      omega
    · have : ((X * Y : Nat) : Int) < 2 ^ 16 := by exact_mod_cast lt_of_le_of_lt hXY hM
      push_cast at this
      omega
  have e2 : int_wrap (((X * Y : Nat) : Int) * (Z : Int)) = ((X * Y * Z : Nat) : Int) := by
    rw [int_wrap_of_range]
    · push_cast
      rfl
    · have : (0 : Int) ≤ ((X * Y * Z : Nat) : Int) := Int.natCast_nonneg _
      push_cast at this ⊢
      omega
    · have : ((X * Y * Z : Nat) : Int) < 2 ^ 16 := by exact_mod_cast hM
      push_cast at this ⊢
      omega
  have e3 : to_unsigned ((X * Y * Z : Nat) : Int) = X * Y * Z := by
    have := to_unsigned_of_range ((X * Y * Z : Nat) : Int) (Int.natCast_nonneg _)
      (by
        have : ((X * Y * Z : Nat) : Int) < 2 ^ 16 := by exact_mod_cast hM
        omega)
    exact_mod_cast this
  unfold get_visibility_matrix_element_count
  simp only [e1, e2, e3]
  rw [unsigned_wrap_of_range (X * Y * Z + 1) (by omega), unsigned_wrap_of_range _ (by omega)]

/-! ## Scheduler: the claims -/

/-- The spatial and fused passes never race: in every frame, whatever the settings
and whatever buffer the previous frame recorded, a launched spatial or fused kernel
reads and writes different buffers.  Only the temporal pass can read and write the
same buffer. -/
theorem spatial_and_fused_passes_never_race (p : ReSTIRDIRenderPass)
    (hd : buffers_distinct p) (he : p.restir_di_enabled = true) :
    ∀ t ∈ (launched_since p (launch p)).map KernelLaunch.summary,
      t.1 = KernelId.RESTIR_DI_SPATIAL_REUSE ∨ t.1 = KernelId.RESTIR_DI_SPATIOTEMPORAL_REUSE →
      t.2.1 ≠ t.2.2 := by
  rw [(extends_launch p he).launched_since]
  obtain ⟨hi1, hi2, h12⟩ := hd
  have h12' : (config_of p).spatial_output_reservoirs_1
      ≠ (config_of p).spatial_output_reservoirs_2 := h12
  intro t ht hk
  unfold FrameConfig.frame_summary at ht
  rcases List.mem_append.mp ht with ht | ht
  · split at ht
    · simp only [List.mem_singleton] at ht
      rw [ht] at hk
      rcases hk with hk | hk <;> cases hk
    · simp at ht
  · rcases List.mem_cons.mp ht with ht | ht
    · rw [ht] at hk
      rcases hk with hk | hk <;> cases hk
    · unfold FrameConfig.reuse_summary at ht
      split at ht
      · obtain ⟨j, -, hj⟩ := List.mem_map.mp ht
        rw [← hj]
        simp only [FrameConfig.fused_summary, Function.iterate_succ_apply', ne_eq,
          Option.some.injEq]
        exact fun h => other_ne (config_of p) h12' _ h.symm
      · rcases List.mem_append.mp ht with ht | ht
        · split at ht
          · simp only [List.mem_singleton] at ht
            rw [ht] at hk
            rcases hk with hk | hk <;> cases hk
          · simp at ht
        · split at ht
          · rename_i hs
            obtain ⟨k, -, hk'⟩ := List.mem_map.mp ht
            rw [← hk']
            simp only [FrameConfig.spatial_summary, FrameConfig.temporal_output, hs, if_true,
              ite_self, ne_eq, Option.some.injEq]
            by_cases h0 : k = 0
            · subst h0
              simpa [config_of] using hi1
            · by_cases h2 : k % 2 = 0
              · simpa [h0, h2, config_of] using h12.symm
              · simpa [h0, h2, config_of] using h12
          · simp at ht

/-- C1, evaluated where the code departs from it.  From the state set by
`update_render_data()` and `reset()`, with three distinct buffers, a frame with
temporal reuse and one spatial pass followed by a frame with temporal reuse only
launches a temporal pass whose input and output are the same buffer (address 2000,
`spatial_output_reservoirs_1`).  The same happens after two spatial passes when
`reset()` is called between the two frames (address 3000), and, on the
initial-candidates buffer (address 1000), when a frame with temporal and spatial
reuse follows a frame without any reuse pass. -/
theorem temporal_pass_races_after_settings_change :
    buffers_distinct example_initial ∧
    (launched_since example_initial
        (render_frames example_initial
          [example_frame true true 1, example_frame true false 1])).map KernelLaunch.summary
      = [(KernelId.RESTIR_DI_INITIAL_CANDIDATES, none, some 1000),
         (KernelId.RESTIR_DI_TEMPORAL_REUSE, some 2000, some 1000),
         (KernelId.RESTIR_DI_SPATIAL_REUSE, some 1000, some 2000),
         (KernelId.RESTIR_DI_INITIAL_CANDIDATES, none, some 1000),
         (KernelId.RESTIR_DI_TEMPORAL_REUSE, some 2000, some 2000)] ∧
    (launched_since example_initial
        (render_frame (reset (render_frame example_initial (example_frame true true 2)))
          (example_frame true false 2))).map KernelLaunch.summary
      = [(KernelId.RESTIR_DI_INITIAL_CANDIDATES, none, some 1000),
         (KernelId.RESTIR_DI_TEMPORAL_REUSE, some 2000, some 1000),
         (KernelId.RESTIR_DI_SPATIAL_REUSE, some 1000, some 2000),
         (KernelId.RESTIR_DI_SPATIAL_REUSE, some 2000, some 3000),
         (KernelId.RESTIR_DI_INITIAL_CANDIDATES, none, some 1000),
         (KernelId.RESTIR_DI_TEMPORAL_REUSE, some 3000, some 3000)] ∧
    (launched_since example_initial
        (render_frames example_initial
          [example_frame false false 1, example_frame true true 1])).map KernelLaunch.summary
      = [(KernelId.RESTIR_DI_INITIAL_CANDIDATES, none, some 1000),
         (KernelId.RESTIR_DI_INITIAL_CANDIDATES, none, some 1000),
         (KernelId.RESTIR_DI_TEMPORAL_REUSE, some 1000, some 1000),
         (KernelId.RESTIR_DI_SPATIAL_REUSE, some 1000, some 2000)] := by
  decide

/-- C2.  Spatial ping-pong.  In the launches of `launch_spatial_reuse_passes` and in
those of `launch_spatiotemporal_pass`, every pass after the first reads the buffer
the pass before it wrote and writes the one of `spatial_output_reservoirs_1`,
`spatial_output_reservoirs_2` that it does not read; the position of a launch in
the list is its pass index, the numbers of launches are `number_of_passes` and
`1 + (number_of_passes - 1)`, and every output is one of the two spatial buffers. -/
theorem spatial_ping_pong (p : ReSTIRDIRenderPass)
    (h12 : p.spatial_output_reservoirs_1 ≠ p.spatial_output_reservoirs_2) :
    (∀ (k : Nat) (a b : KernelLaunch),
      (launched_since p (launch_spatial_reuse_passes p))[k]? = some a →
      (launched_since p (launch_spatial_reuse_passes p))[k + 1]? = some b →
      ping_pong p a b) ∧
    (launched_since p (launch_spatial_reuse_passes p)).length
      = p.restir_di_settings.spatial_pass.number_of_passes.toNat ∧
    (∀ l ∈ launched_since p (launch_spatial_reuse_passes p),
      l.kernel = KernelId.RESTIR_DI_SPATIAL_REUSE ∧
      (l.output_reservoirs = some p.spatial_output_reservoirs_1 ∨
       l.output_reservoirs = some p.spatial_output_reservoirs_2)) ∧
    (∀ (k : Nat) (a b : KernelLaunch),
      (launched_since p (launch_spatiotemporal_pass p))[k]? = some a →
      (launched_since p (launch_spatiotemporal_pass p))[k + 1]? = some b →
      ping_pong p a b) ∧
    (launched_since p (launch_spatiotemporal_pass p)).length
      = 1 + (p.restir_di_settings.spatial_pass.number_of_passes.toNat - 1) ∧
    (∀ l ∈ launched_since p (launch_spatiotemporal_pass p),
      (l.kernel = KernelId.RESTIR_DI_SPATIOTEMPORAL_REUSE ∨
       l.kernel = KernelId.RESTIR_DI_SPATIAL_REUSE) ∧
      (l.output_reservoirs = some p.spatial_output_reservoirs_1 ∨
       l.output_reservoirs = some p.spatial_output_reservoirs_2)) :=
  ⟨ping_pong_spatial_loop p h12, length_launched_spatial_loop p, outputs_spatial_loop p,
   ping_pong_fused p h12, length_launched_fused p, outputs_fused p⟩

/-- C2 at a concrete state: three passes selected, buffers at 1000, 2000, 3000. -/
theorem spatial_ping_pong_witness :
    example_three_passes.spatial_output_reservoirs_1
      ≠ example_three_passes.spatial_output_reservoirs_2 ∧
    ((∀ (k : Nat) (a b : KernelLaunch),
      (launched_since example_three_passes
        (launch_spatial_reuse_passes example_three_passes))[k]? = some a →
      (launched_since example_three_passes
        (launch_spatial_reuse_passes example_three_passes))[k + 1]? = some b →
      ping_pong example_three_passes a b) ∧
    (launched_since example_three_passes (launch_spatial_reuse_passes example_three_passes)).length
      = example_three_passes.restir_di_settings.spatial_pass.number_of_passes.toNat ∧
    (∀ l ∈ launched_since example_three_passes (launch_spatial_reuse_passes example_three_passes),
      l.kernel = KernelId.RESTIR_DI_SPATIAL_REUSE ∧
      (l.output_reservoirs = some example_three_passes.spatial_output_reservoirs_1 ∨
       l.output_reservoirs = some example_three_passes.spatial_output_reservoirs_2)) ∧
    (∀ (k : Nat) (a b : KernelLaunch),
      (launched_since example_three_passes
        (launch_spatiotemporal_pass example_three_passes))[k]? = some a →
      (launched_since example_three_passes
        (launch_spatiotemporal_pass example_three_passes))[k + 1]? = some b →
      ping_pong example_three_passes a b) ∧
    (launched_since example_three_passes (launch_spatiotemporal_pass example_three_passes)).length
      = 1 + (example_three_passes.restir_di_settings.spatial_pass.number_of_passes.toNat - 1) ∧
    (∀ l ∈ launched_since example_three_passes (launch_spatiotemporal_pass example_three_passes),
      (l.kernel = KernelId.RESTIR_DI_SPATIOTEMPORAL_REUSE ∨
       l.kernel = KernelId.RESTIR_DI_SPATIAL_REUSE) ∧
      (l.output_reservoirs = some example_three_passes.spatial_output_reservoirs_1 ∨
       l.output_reservoirs = some example_three_passes.spatial_output_reservoirs_2))) :=
  ⟨by decide, spatial_ping_pong example_three_passes (by decide)⟩

/-- C3.  Fused variant.  After `configure_spatiotemporal_pass()` the input of pass 0
is the buffer `restir_output_reservoirs` held before the call, the temporal output
is null, the output of pass 0 is `spatial_output_reservoirs_2` when that input is
`spatial_output_reservoirs_1` and `spatial_output_reservoirs_1` otherwise, and input
and output differ.  In a fused frame the fused kernel is launched right after the
initial-candidates pass with exactly these buffers, the input being what
`restir_output_reservoirs` held at the start of the frame. -/
theorem fused_pass_zero (p : ReSTIRDIRenderPass)
    (h12 : p.spatial_output_reservoirs_1 ≠ p.spatial_output_reservoirs_2) :
    (configure_spatiotemporal_pass p).restir_di_settings.spatial_pass.input_reservoirs
      = p.restir_di_settings.restir_output_reservoirs ∧
    (configure_spatiotemporal_pass p).restir_di_settings.temporal_pass.input_reservoirs
      = p.restir_di_settings.restir_output_reservoirs ∧
    (configure_spatiotemporal_pass p).restir_di_settings.temporal_pass.output_reservoirs
      = nullptr ∧
    (configure_spatiotemporal_pass p).restir_di_settings.spatial_pass.output_reservoirs
      = (if p.restir_di_settings.restir_output_reservoirs = p.spatial_output_reservoirs_1
          then p.spatial_output_reservoirs_2 else p.spatial_output_reservoirs_1) ∧
    (configure_spatiotemporal_pass p).restir_di_settings.spatial_pass.input_reservoirs
      ≠ (configure_spatiotemporal_pass p).restir_di_settings.spatial_pass.output_reservoirs ∧
    (p.restir_di_enabled = true → p.restir_di_settings.do_fused_spatiotemporal = true →
      ∃ rest : List LaunchSummary,
        (launched_since p (launch p)).map KernelLaunch.summary
          = (if p.do_lights_presampling then
              [(KernelId.RESTIR_DI_LIGHTS_PRESAMPLING, none, none)] else []) ++
            [(KernelId.RESTIR_DI_INITIAL_CANDIDATES, none, some p.initial_candidates_reservoirs),
             (KernelId.RESTIR_DI_SPATIOTEMPORAL_REUSE,
               some p.restir_di_settings.restir_output_reservoirs,
               some (if p.restir_di_settings.restir_output_reservoirs
                        = p.spatial_output_reservoirs_1
                      then p.spatial_output_reservoirs_2 else p.spatial_output_reservoirs_1))]
            ++ rest) := by
  obtain ⟨h1, h2, h3, h4⟩ := fused_zero_buffers p
  refine ⟨h1, h3, h4, h2, ?_, ?_⟩
  · rw [h1, h2]
    exact (other_ne (config_of p) h12 _).symm
  · intro he hf
    have hT := (extends_launch p he).launched_since
    have hf' : (config_of p).do_fused_spatiotemporal = true := hf
    refine ⟨(List.range ((config_of p).number_of_passes.toNat - 1)).map
      ((config_of p).fused_summary ∘ Nat.succ), ?_⟩
    rw [hT]
    simp only [FrameConfig.frame_summary, FrameConfig.reuse_summary, hf', if_true,
      Nat.add_comm 1, List.range_succ_eq_map, List.map_cons, List.map_map]
    simp [FrameConfig.fused_summary, FrameConfig.other, config_of]

/-- C3 at the concrete initial state, fused frame with two passes. -/
theorem fused_pass_zero_witness :
    (set_frame_settings (example_fused_frame 2) example_initial).spatial_output_reservoirs_1
      ≠ (set_frame_settings (example_fused_frame 2) example_initial).spatial_output_reservoirs_2 ∧
    (configure_spatiotemporal_pass
        (set_frame_settings (example_fused_frame 2) example_initial)).restir_di_settings.spatial_pass.input_reservoirs
      = 2000 ∧
    (configure_spatiotemporal_pass
        (set_frame_settings (example_fused_frame 2) example_initial)).restir_di_settings.spatial_pass.output_reservoirs
      = 3000 ∧
    (∃ rest : List LaunchSummary,
        (launched_since (set_frame_settings (example_fused_frame 2) example_initial)
            (launch (set_frame_settings (example_fused_frame 2) example_initial))).map
              KernelLaunch.summary
          = [] ++ [(KernelId.RESTIR_DI_INITIAL_CANDIDATES, none, some 1000),
             (KernelId.RESTIR_DI_SPATIOTEMPORAL_REUSE, some 2000, some 3000)] ++ rest) :=
  ⟨by decide,
   (fused_pass_zero (set_frame_settings (example_fused_frame 2) example_initial) (by decide)).1,
   (fused_pass_zero
      (set_frame_settings (example_fused_frame 2) example_initial) (by decide)).2.2.2.1,
   (fused_pass_zero
      (set_frame_settings (example_fused_frame 2) example_initial) (by decide)).2.2.2.2.2 rfl rfl⟩

/-- C4.  Pass-through without temporal reuse.  In a non-fused frame with temporal
reuse off, spatial reuse on and at least one pass, the first spatial pass is
launched right after the initial-candidates pass, reads the buffer that pass wrote
(`initial_candidates_reservoirs`) and writes `spatial_output_reservoirs_1`. -/
theorem spatial_pass_through (p : ReSTIRDIRenderPass)
    (he : p.restir_di_enabled = true)
    (hf : p.restir_di_settings.do_fused_spatiotemporal = false)
    (ht : p.restir_di_settings.temporal_pass.do_temporal_reuse_pass = false)
    (hs : p.restir_di_settings.spatial_pass.do_spatial_reuse_pass = true)
    (hn : 1 ≤ p.restir_di_settings.spatial_pass.number_of_passes) :
    ∃ rest : List LaunchSummary,
      (launched_since p (launch p)).map KernelLaunch.summary
        = (if p.do_lights_presampling then
            [(KernelId.RESTIR_DI_LIGHTS_PRESAMPLING, none, none)] else []) ++
          [(KernelId.RESTIR_DI_INITIAL_CANDIDATES, none, some p.initial_candidates_reservoirs),
           (KernelId.RESTIR_DI_SPATIAL_REUSE, some p.initial_candidates_reservoirs,
             some p.spatial_output_reservoirs_1)]
          ++ rest := by
  have hT := (extends_launch p he).launched_since
  have hf' : (config_of p).do_fused_spatiotemporal = false := hf
  have ht' : (config_of p).do_temporal_reuse_pass = false := ht
  have hs' : (config_of p).do_spatial_reuse_pass = true := hs
  obtain ⟨m, hm⟩ : ∃ m, (config_of p).number_of_passes.toNat = m + 1 := by
    have : 1 ≤ (config_of p).number_of_passes := hn
    exact ⟨(config_of p).number_of_passes.toNat - 1, by omega⟩
  refine ⟨(List.range m).map ((config_of p).spatial_summary ∘ Nat.succ), ?_⟩
  rw [hT]
  simp only [FrameConfig.frame_summary, FrameConfig.reuse_summary, hf', ht', hs', hm, if_true,
    Bool.false_eq_true, if_false, List.nil_append,
    List.range_succ_eq_map, List.map_cons, List.map_map]
  simp [FrameConfig.spatial_summary, ht, config_of]

/-- C4 at the concrete initial state, spatial reuse alone with two passes. -/
theorem spatial_pass_through_witness :
    ∃ rest : List LaunchSummary,
      (launched_since (set_frame_settings (example_frame false true 2) example_initial)
          (launch (set_frame_settings (example_frame false true 2) example_initial))).map
            KernelLaunch.summary
        = [] ++ [(KernelId.RESTIR_DI_INITIAL_CANDIDATES, none, some 1000),
           (KernelId.RESTIR_DI_SPATIAL_REUSE, some 1000, some 2000)] ++ rest :=
  spatial_pass_through (set_frame_settings (example_frame false true 2) example_initial)
    rfl rfl rfl rfl (by decide)

theorem parity_invariant_initial (p : ReSTIRDIRenderPass) (he : p.restir_di_enabled = true) :
    parity_invariant p (reset (update_render_data p)) := by
  refine ⟨?_, ?_, ?_, ?_, ?_, [], ⟨[], ?_, rfl⟩, ?_⟩
  all_goals simp [reset, update_render_data, he]

theorem parity_invariant_step (p q : ReSTIRDIRenderPass) (hd : buffers_distinct p)
    (f : FrameSettings) (hf : temporal_only f) (hq : parity_invariant p q) :
    parity_invariant p (render_frame q f) := by
  obtain ⟨he, hi, h1, h2, ho, T, hT, hgood⟩ := hq
  obtain ⟨hfu, hte, hsp⟩ := hf
  have he' : (set_frame_settings f q).restir_di_enabled = true := he
  have hc := config_of_launch (set_frame_settings f q) he'
  have hx := extends_launch (set_frame_settings f q) he'
  have hcfg : config_of (set_frame_settings f q) =
      { config_of q with
        do_lights_presampling := f.do_lights_presampling
        do_fused_spatiotemporal := f.do_fused_spatiotemporal
        do_temporal_reuse_pass := f.do_temporal_reuse_pass
        do_spatial_reuse_pass := f.do_spatial_reuse_pass
        number_of_passes := f.number_of_passes } := rfl
  have hsum : (config_of (set_frame_settings f q)).frame_summary =
      (if f.do_lights_presampling then
        [(KernelId.RESTIR_DI_LIGHTS_PRESAMPLING, none, none)] else []) ++
      [(KernelId.RESTIR_DI_INITIAL_CANDIDATES, none, some p.initial_candidates_reservoirs),
       (KernelId.RESTIR_DI_TEMPORAL_REUSE,
        some (if q.odd_frame then p.spatial_output_reservoirs_2 else p.spatial_output_reservoirs_1),
        some (if q.odd_frame then p.spatial_output_reservoirs_1 else p.spatial_output_reservoirs_2))] := by
    rw [hcfg]
    simp [FrameConfig.frame_summary, FrameConfig.reuse_summary, FrameConfig.temporal_output,
      hfu, hte, hsp, config_of, hi, h1, h2, ho]
  have hfin : (config_of (set_frame_settings f q)).final_output
      (set_frame_settings f q).restir_di_settings.spatial_pass.output_reservoirs
      = (if q.odd_frame then p.spatial_output_reservoirs_1 else p.spatial_output_reservoirs_2) := by
    rw [hcfg]
    simp [FrameConfig.final_output, FrameConfig.temporal_output, hfu, hte, hsp, config_of, h1, h2]
  rw [hfin, hcfg] at hc
  simp only [config_of, FrameConfig.mk.injEq] at hc
  obtain ⟨c1, -, c3, c4, c5, -, c7, -, -, -, -, c12⟩ := hc
  have c7' : (render_frame q f).odd_frame = !q.odd_frame := c7
  refine ⟨c1.trans he, c3.trans hi, c4.trans h1, c5.trans h2, ?_, _, hT.trans hx, ?_⟩
  · show (launch (set_frame_settings f q)).restir_di_settings.restir_output_reservoirs = _
    rw [c12, c7']
    cases q.odd_frame <;> simp
  · intro t ht hk
    rcases List.mem_append.mp ht with ht | ht
    · exact hgood t ht hk
    · rw [hsum] at ht
      rcases List.mem_append.mp ht with ht | ht
      · split at ht
        · simp only [List.mem_singleton] at ht
          rw [ht] at hk
          cases hk
        · simp at ht
      · simp only [List.mem_cons, List.mem_singleton, List.not_mem_nil, or_false] at ht
        rcases ht with ht | ht
        · rw [ht] at hk
          cases hk
        · rw [ht]
          refine ⟨_, _, rfl, rfl, ?_, ?_⟩
          · cases q.odd_frame
            · simpa using hd.2.2.symm
            · simpa using hd.2.2
          · cases q.odd_frame
            · simpa using hd.2.1.symm
            · simpa using hd.1.symm

theorem parity_invariant_frames (p : ReSTIRDIRenderPass) (hd : buffers_distinct p)
    (fs : List FrameSettings) (hfs : ∀ f ∈ fs, temporal_only f)
    (q : ReSTIRDIRenderPass) (hq : parity_invariant p q) :
    parity_invariant p (render_frames q fs) := by
  induction fs generalizing q with
  | nil => exact hq
  | cons f fs ih =>
    exact ih (fun g hg => hfs g (List.mem_cons_of_mem _ hg)) (render_frame q f)
      (parity_invariant_step p q hd f (hfs f (List.mem_cons_self _ _)) hq)

/-- C5.  Parity rotation with no spatial pass.  From the state set by
`update_render_data()` and `reset()`, after any number of frames that all run with
temporal reuse on, spatial reuse off and fused mode off, `restir_output_reservoirs`
is `spatial_output_reservoirs_1` when `odd_frame` is false and
`spatial_output_reservoirs_2` when it is true; and every temporal pass launched by
these frames wrote a buffer different from the one it read and different from the
initial-candidates buffer. -/
theorem parity_rotation (p : ReSTIRDIRenderPass) (hd : buffers_distinct p)
    (he : p.restir_di_enabled = true)
    (fs : List FrameSettings) (hfs : ∀ f ∈ fs, temporal_only f) :
    (render_frames (reset (update_render_data p)) fs).restir_di_settings.restir_output_reservoirs
      = (if (render_frames (reset (update_render_data p)) fs).odd_frame
          then p.spatial_output_reservoirs_2 else p.spatial_output_reservoirs_1) ∧
    ∀ l ∈ launched_since p (render_frames (reset (update_render_data p)) fs),
      l.kernel = KernelId.RESTIR_DI_TEMPORAL_REUSE →
        l.output_reservoirs ≠ l.input_reservoirs ∧
        l.output_reservoirs ≠ some p.initial_candidates_reservoirs := by
  obtain ⟨-, -, -, -, ho, T, hT, hgood⟩ :=
    parity_invariant_frames p hd fs hfs _ (parity_invariant_initial p he)
  refine ⟨ho, ?_⟩
  intro l hl hk
  have hm : l.summary ∈ T := by
    rw [← hT.launched_since]
    exact List.mem_map_of_mem _ hl
  obtain ⟨i, o, hi, ho', hne, hinit⟩ := hgood l.summary hm hk
  have hi' : l.input_reservoirs = some i := hi
  have ho'' : l.output_reservoirs = some o := ho'
  rw [hi', ho'']
  exact ⟨fun h => hne (Option.some.inj h), fun h => hinit (Option.some.inj h)⟩

/-- C5 at the concrete initial state, three temporal-only frames. -/
theorem parity_rotation_witness :
    buffers_distinct example_pass ∧
    (render_frames (reset (update_render_data example_pass))
        [example_frame true false 1, example_frame true false 1,
         example_frame true false 1]).restir_di_settings.restir_output_reservoirs
      = (if (render_frames (reset (update_render_data example_pass))
              [example_frame true false 1, example_frame true false 1,
               example_frame true false 1]).odd_frame
          then example_pass.spatial_output_reservoirs_2
          else example_pass.spatial_output_reservoirs_1) ∧
    ∀ l ∈ launched_since example_pass (render_frames (reset (update_render_data example_pass))
        [example_frame true false 1, example_frame true false 1, example_frame true false 1]),
      l.kernel = KernelId.RESTIR_DI_TEMPORAL_REUSE →
        l.output_reservoirs ≠ l.input_reservoirs ∧
        l.output_reservoirs ≠ some example_pass.initial_candidates_reservoirs :=
  ⟨by decide,
   parity_rotation example_pass (by decide) rfl
    [example_frame true false 1, example_frame true false 1, example_frame true false 1]
    (by decide)⟩

theorem last_output_of_frame_summary (c : FrameConfig) (stale : DevicePointer)
    (h : c.do_fused_spatiotemporal = true ∨ c.do_spatial_reuse_pass = false ∨
      1 ≤ c.number_of_passes) :
    c.frame_summary.getLast?.map (fun t => t.2.2) = some (some (c.final_output stale)) := by
  unfold FrameConfig.frame_summary FrameConfig.reuse_summary FrameConfig.final_output
  rw [List.getLast?_append, List.getLast?_cons]
  simp only [Option.or, Option.map_some', Option.some.injEq]
  by_cases hf : c.do_fused_spatiotemporal = true
  · simp only [hf, if_true]
    rw [Nat.add_comm 1, List.range_succ, List.map_append, List.map_cons, List.map_nil,
      List.getLast?_concat]
    simp [FrameConfig.fused_summary]
  · simp only [hf, if_false, Bool.false_eq_true]
    by_cases hs : c.do_spatial_reuse_pass = true
    · have hn : 1 ≤ c.number_of_passes := by
        rcases h with h | h | h
        · exact absurd h hf
        · rw [hs] at h; cases h
        · exact h
      obtain ⟨n, hn'⟩ : ∃ n, c.number_of_passes.toNat = n + 1 :=
        ⟨c.number_of_passes.toNat - 1, by omega⟩
      simp only [hs, if_true, hn']
      rw [List.range_succ, List.map_append, List.map_cons, List.map_nil, ← List.append_assoc,
        List.getLast?_concat]
      simp [FrameConfig.spatial_summary]
    · simp only [hs, if_false, List.append_nil, Bool.false_eq_true]
      by_cases ht : c.do_temporal_reuse_pass = true
      · simp [ht]
      · simp [ht]

/-- Wherever a spatial pass runs when spatial reuse is selected, that is in a fused
frame, in a frame without spatial reuse, and in a frame with `number_of_passes >= 1`,
the buffer recorded by `launch()` is the output of the last pass launched. -/
theorem recorded_output_is_last_output (p : ReSTIRDIRenderPass)
    (he : p.restir_di_enabled = true)
    (h : p.restir_di_settings.do_fused_spatiotemporal = true ∨
      p.restir_di_settings.spatial_pass.do_spatial_reuse_pass = false ∨
      1 ≤ p.restir_di_settings.spatial_pass.number_of_passes) :
    ((launched_since p (launch p)).map KernelLaunch.summary).getLast?.map (fun t => t.2.2)
      = some (some (launch p).restir_di_settings.restir_output_reservoirs) := by
  rw [(extends_launch p he).launched_since, restir_output_launch p he]
  exact last_output_of_frame_summary (config_of p) _ h

/-- C6, evaluated where the code departs from it.  With spatial reuse selected and
`number_of_passes = 0` no spatial pass runs, yet `configure_output_buffer` records
`spatial_pass.output_reservoirs`.  After a frame with two spatial passes (ending in
buffer 3000), a frame with temporal reuse and zero spatial passes launches the
initial-candidates and temporal passes, both writing buffer 1000, and records 3000.
From the initial state the same frame records the null pointer, which the temporal
pass of the following frame is then given as input. -/
theorem recorded_output_is_stale_without_spatial_pass :
    (launched_since (render_frame example_initial (example_frame true true 2))
        (render_frame (render_frame example_initial (example_frame true true 2))
          (example_frame true true 0))).map KernelLaunch.summary
      = [(KernelId.RESTIR_DI_INITIAL_CANDIDATES, none, some 1000),
         (KernelId.RESTIR_DI_TEMPORAL_REUSE, some 3000, some 1000)] ∧
    (render_frame (render_frame example_initial (example_frame true true 2))
        (example_frame true true 0)).restir_di_settings.restir_output_reservoirs = 3000 ∧
    (launched_since example_initial
        (render_frames example_initial
          [example_frame true true 0, example_frame true true 0])).map KernelLaunch.summary
      = [(KernelId.RESTIR_DI_INITIAL_CANDIDATES, none, some 1000),
         (KernelId.RESTIR_DI_TEMPORAL_REUSE, some 2000, some 1000),
         (KernelId.RESTIR_DI_INITIAL_CANDIDATES, none, some 1000),
         (KernelId.RESTIR_DI_TEMPORAL_REUSE, some nullptr, some 1000)] := by
  decide

/-- C7 fails as stated: in a fused frame with `number_of_passes = 0` and presampling
off, the claimed sequence has one kernel (the initial candidates and zero reuse
passes); the code launches two, the second being the fused kernel. -/
theorem fused_frame_with_zero_passes_launches_fused_kernel :
    (set_frame_settings (example_fused_frame 0) example_initial).restir_di_settings.spatial_pass.number_of_passes
      = 0 ∧
    (launched_since (set_frame_settings (example_fused_frame 0) example_initial)
        (launch (set_frame_settings (example_fused_frame 0) example_initial))).map
          (fun l => l.kernel)
      = [KernelId.RESTIR_DI_INITIAL_CANDIDATES, KernelId.RESTIR_DI_SPATIOTEMPORAL_REUSE] ∧
    ¬ ((launched_since (set_frame_settings (example_fused_frame 0) example_initial)
        (launch (set_frame_settings (example_fused_frame 0) example_initial))).length
      = 1 + (set_frame_settings (example_fused_frame 0)
          example_initial).restir_di_settings.spatial_pass.number_of_passes.toNat) := by
  decide

theorem map_kernel_fused (c : FrameConfig) (m : Nat) :
    ((List.range (1 + m)).map c.fused_summary).map (fun t => t.1)
      = KernelId.RESTIR_DI_SPATIOTEMPORAL_REUSE ::
          List.replicate m KernelId.RESTIR_DI_SPATIAL_REUSE := by
  rw [Nat.add_comm 1, List.range_succ_eq_map]
  simp only [List.map_cons, List.map_map, FrameConfig.fused_summary, if_true]
  congr 1
  rw [List.eq_replicate_iff]
  refine ⟨by simp, ?_⟩
  intro b hb
  simp only [List.mem_map, Function.comp_apply] at hb
  obtain ⟨a, -, ha⟩ := hb
  rw [← ha]
  simp [FrameConfig.fused_summary]

theorem map_kernel_spatial (c : FrameConfig) (n : Nat) :
    ((List.range n).map c.spatial_summary).map (fun t => t.1)
      = List.replicate n KernelId.RESTIR_DI_SPATIAL_REUSE := by
  rw [List.eq_replicate_iff]
  refine ⟨by simp, ?_⟩
  intro b hb
  simp only [List.mem_map] at hb
  obtain ⟨t, ⟨a, -, ha⟩, ht⟩ := hb
  rw [← ht, ← ha]
  rfl

/-- C7, amended.  With ReSTIR DI selected, the kernels launched by `launch()` are:
the light-presampling kernel if and only if presampling is enabled; the
initial-candidates kernel; then, in a fused frame, the fused spatiotemporal kernel
once followed by `number_of_passes - 1` spatial kernels (none when
`number_of_passes <= 1`), and in a non-fused frame the temporal kernel if temporal
reuse is enabled followed by `number_of_passes` spatial kernels (none when
`number_of_passes <= 0`) if spatial reuse is enabled.  With another strategy
selected nothing is launched. -/
theorem frame_kernel_sequence (p : ReSTIRDIRenderPass) :
    (launched_since p (launch p)).map (fun l => l.kernel)
      = (if p.restir_di_enabled then
          (if p.do_lights_presampling then [KernelId.RESTIR_DI_LIGHTS_PRESAMPLING] else []) ++
          KernelId.RESTIR_DI_INITIAL_CANDIDATES ::
          (if p.restir_di_settings.do_fused_spatiotemporal then
            KernelId.RESTIR_DI_SPATIOTEMPORAL_REUSE ::
              List.replicate (p.restir_di_settings.spatial_pass.number_of_passes.toNat - 1)
                KernelId.RESTIR_DI_SPATIAL_REUSE
          else
            (if p.restir_di_settings.temporal_pass.do_temporal_reuse_pass then
              [KernelId.RESTIR_DI_TEMPORAL_REUSE] else []) ++
            (if p.restir_di_settings.spatial_pass.do_spatial_reuse_pass then
              List.replicate p.restir_di_settings.spatial_pass.number_of_passes.toNat
                KernelId.RESTIR_DI_SPATIAL_REUSE
            else []))
        else []) := by
  by_cases he : p.restir_di_enabled = true
  · rw [if_pos he]
    have hT := (extends_launch p he).launched_since
    have hk : (launched_since p (launch p)).map (fun l => l.kernel)
        = ((launched_since p (launch p)).map KernelLaunch.summary).map (fun t => t.1) := by
      rw [List.map_map]; rfl
    rw [hk, hT]
    have h1 : (config_of p).do_lights_presampling = p.do_lights_presampling := rfl
    have h2 : (config_of p).do_fused_spatiotemporal
        = p.restir_di_settings.do_fused_spatiotemporal := rfl
    have h3 : (config_of p).do_temporal_reuse_pass
        = p.restir_di_settings.temporal_pass.do_temporal_reuse_pass := rfl
    have h4 : (config_of p).do_spatial_reuse_pass
        = p.restir_di_settings.spatial_pass.do_spatial_reuse_pass := rfl
    have h5 : (config_of p).number_of_passes
        = p.restir_di_settings.spatial_pass.number_of_passes := rfl
    simp only [FrameConfig.frame_summary, FrameConfig.reuse_summary, h1, h2, h3, h4, h5]
    split_ifs <;> simp [← List.map_map, map_kernel_fused, map_kernel_spatial, -List.map_map]
  · have he' : p.restir_di_enabled = false := by
      cases h : p.restir_di_enabled <;> simp_all
    rw [launch_disabled p he', he']
    simp [launched_since]

/-- C8.  Frame-parity flag.  `launch()` with ReSTIR DI selected negates `odd_frame`
(in every frame, so in particular in every frame in which a reuse pass ran);
`launch()` with another strategy selected returns the pass unchanged, flag and
buffer assignments included; and the settings written by `configure_spatial_pass`,
by `configure_spatial_pass_for_fused_spatiotemporal`, and by `configure_temporal_pass`
when spatial reuse is enabled, are the same whatever the value of `odd_frame`. -/
theorem frame_parity_flag (p : ReSTIRDIRenderPass) :
    (launch { p with restir_di_enabled := true }).odd_frame = !p.odd_frame ∧
    launch { p with restir_di_enabled := false } = { p with restir_di_enabled := false } ∧
    (∀ (b : Bool) (k : Int),
      (configure_spatial_pass k { p with odd_frame := b }).restir_di_settings
        = (configure_spatial_pass k p).restir_di_settings) ∧
    (∀ (b : Bool) (k : Int),
      (configure_spatial_pass_for_fused_spatiotemporal k { p with odd_frame := b }).restir_di_settings
        = (configure_spatial_pass_for_fused_spatiotemporal k p).restir_di_settings) ∧
    (∀ b : Bool, p.restir_di_settings.spatial_pass.do_spatial_reuse_pass = true →
      (configure_temporal_pass { p with odd_frame := b }).restir_di_settings
        = (configure_temporal_pass p).restir_di_settings) := by
  refine ⟨?_, launch_disabled _ rfl, fun _ _ => rfl, fun _ _ => rfl, ?_⟩
  · have h := config_of_launch { p with restir_di_enabled := true } rfl
    exact congrArg FrameConfig.odd_frame h
  · intro b hs
    simp [configure_temporal_pass, rng_xorshift32, hs]

/-- C8 at the concrete initial state. -/
theorem frame_parity_flag_witness :
    (launch { example_initial with restir_di_enabled := true }).odd_frame = true ∧
    (configure_temporal_pass { example_initial with odd_frame := true }).restir_di_settings
      = (configure_temporal_pass example_initial).restir_di_settings :=
  ⟨(frame_parity_flag example_initial).1,
   (frame_parity_flag example_initial).2.2.2.2 true rfl⟩

/-! ## Scheduler: the parity flag over temporal-only frames -/

/-- A frame with ReSTIR DI selected toggles the parity flag. -/
theorem odd_frame_render_frame (q : ReSTIRDIRenderPass) (f : FrameSettings)
    (he : q.restir_di_enabled = true) :
    (render_frame q f).odd_frame = !q.odd_frame := by
  have he' : (set_frame_settings f q).restir_di_enabled = true := he
  have hc := config_of_launch (set_frame_settings f q) he'
  have h : (config_of (launch (set_frame_settings f q))).odd_frame
      = !(config_of (set_frame_settings f q)).odd_frame := by rw [hc]
  exact h

/-- The parity flag after a sequence of temporal-only frames. -/
theorem odd_frame_render_frames (p : ReSTIRDIRenderPass) (hd : buffers_distinct p)
    (fs : List FrameSettings) (hfs : ∀ f ∈ fs, temporal_only f)
    (q : ReSTIRDIRenderPass) (hq : parity_invariant p q) :
    (render_frames q fs).odd_frame
      = (if fs.length % 2 = 0 then q.odd_frame else !q.odd_frame) := by
  induction fs generalizing q with
  | nil => rfl
  | cons f fs ih =>
    have hstep := parity_invariant_step p q hd f (hfs f (List.mem_cons_self _ _)) hq
    have h := ih (fun g hg => hfs g (List.mem_cons_of_mem _ hg)) (render_frame q f) hstep
    have ho := odd_frame_render_frame q f hq.1
    show (render_frames (render_frame q f) fs).odd_frame = _
    rw [h, ho, List.length_cons]
    by_cases hpar : fs.length % 2 = 0
    · have h2 : ¬ (fs.length + 1) % 2 = 0 := by omega
      rw [if_pos hpar, if_neg h2]
    · have h2 : (fs.length + 1) % 2 = 0 := by omega
      rw [if_neg hpar, if_pos h2, Bool.not_not]

/-! ## Shading: the claims -/

/-- C9.  `validate_reservoir` sets `UCW` to 0 when the retained sample carries the
`RESTIR_DI_FLAGS_ENVMAP_SAMPLE` flag and `ambient_light_type` is not `ENVMAP`, and
otherwise returns the reservoir as it was; in both cases the sample (flags
included), `M` and the weight sum are those of the reservoir given. -/
theorem validate_reservoir_only_kills_UCW (rd : HIPRTRenderData) (reservoir : ReSTIRDIReservoir) :
    validate_reservoir rd reservoir =
      { reservoir with
        UCW := if (reservoir.sample.flags &&& rd.RESTIR_DI_FLAGS_ENVMAP_SAMPLE ≠ 0
                  ∧ rd.ambient_light_type ≠ rd.AmbientLightType_ENVMAP)
               then 0 else reservoir.UCW } ∧
    (validate_reservoir rd reservoir = reservoir ∨
      (reservoir.sample.flags &&& rd.RESTIR_DI_FLAGS_ENVMAP_SAMPLE ≠ 0
        ∧ rd.ambient_light_type ≠ rd.AmbientLightType_ENVMAP
        ∧ (validate_reservoir rd reservoir).UCW = 0)) ∧
    (validate_reservoir rd reservoir).sample = reservoir.sample ∧
    (validate_reservoir rd reservoir).M = reservoir.M ∧
    (validate_reservoir rd reservoir).weight_sum = reservoir.weight_sum := by
  unfold validate_reservoir has_flag
  by_cases h1 : reservoir.sample.flags &&& rd.RESTIR_DI_FLAGS_ENVMAP_SAMPLE = 0
  · simp [h1]
  · by_cases h2 : rd.ambient_light_type = rd.AmbientLightType_ENVMAP
    · simp [h1, h2]
    · simp [h1, h2]

/-- C10.  No-sample state.  For a reservoir with `UCW <= 0`, and whatever the other
inputs, `evaluate_reservoir_sample` and `evaluate_ReSTIR_DI_reservoir` return the
zero colour and the device state they were given: no occlusion test, no BSDF
evaluation, no environment-map lookup and no draw from the generator.  So
`sample_light_ReSTIR_DI` returns the zero colour, with the device state untouched,
for every pixel whose reservoir `validate_reservoir` invalidates. -/
theorem no_sample_shades_black (rd : HIPRTRenderData) (ray_payload : RayPayload)
    (closest_hit_info : HitInfo) (view_direction : float3) (st : DeviceState) :
    (∀ reservoir : RISReservoir, reservoir.UCW ≤ 0 →
      evaluate_reservoir_sample rd ray_payload closest_hit_info view_direction reservoir st
        = (ColorRGB32F.black, st)) ∧
    (∀ reservoir : ReSTIRDIReservoir, reservoir.UCW ≤ 0 →
      evaluate_ReSTIR_DI_reservoir rd ray_payload closest_hit_info view_direction reservoir st
        = (ColorRGB32F.black, st)) ∧
    (∀ (buffer : Int → ReSTIRDIReservoir) (pixel_coords : int2),
      (buffer (int_wrap
          (pixel_coords.x + int_wrap (pixel_coords.y * rd.render_resolution.x)))).sample.flags
          &&& rd.RESTIR_DI_FLAGS_ENVMAP_SAMPLE ≠ 0 →
      rd.ambient_light_type ≠ rd.AmbientLightType_ENVMAP →
      (sample_light_ReSTIR_DI rd buffer ray_payload closest_hit_info view_direction st
          pixel_coords).1 = ColorRGB32F.black ∧
      (sample_light_ReSTIR_DI rd buffer ray_payload closest_hit_info view_direction st
          pixel_coords).2.2 = st) := by
  have hdi : ∀ reservoir : ReSTIRDIReservoir, reservoir.UCW ≤ 0 →
      evaluate_ReSTIR_DI_reservoir rd ray_payload closest_hit_info view_direction reservoir st
        = (ColorRGB32F.black, st) := by
    intro reservoir h
    unfold evaluate_ReSTIR_DI_reservoir
    simp only [h, if_true]
  refine ⟨?_, hdi, ?_⟩
  · intro reservoir h
    unfold evaluate_reservoir_sample
    simp only [h, if_true]
  · intro buffer pixel_coords hflag hamb
    have hv : (validate_reservoir rd
        (buffer (int_wrap
          (pixel_coords.x + int_wrap (pixel_coords.y * rd.render_resolution.x))))).UCW ≤ 0 := by
      rcases (validate_reservoir_kills rd _ hflag hamb) with h
      rw [h]
    have := hdi _ hv
    unfold sample_light_ReSTIR_DI
    simp only [this, and_self]

/-- C10 at concrete inputs: two empty reservoirs, and a pixel whose reservoir holds
an environment-map sample with `UCW = 3` while the ambient light is not the
environment map. -/
theorem no_sample_shades_black_witness :
    evaluate_reservoir_sample example_render_data example_payload example_hit ⟨0, 0, 1⟩
        example_empty_ris_reservoir example_device_state
      = (ColorRGB32F.black, example_device_state) ∧
    evaluate_ReSTIR_DI_reservoir example_render_data example_payload example_hit ⟨0, 0, 1⟩
        example_empty_reservoir example_device_state
      = (ColorRGB32F.black, example_device_state) ∧
    (sample_light_ReSTIR_DI example_render_data (fun _ => example_envmap_reservoir)
        example_payload example_hit ⟨0, 0, 1⟩ example_device_state ⟨1, 2⟩).1
      = ColorRGB32F.black :=
  ⟨(no_sample_shades_black example_render_data example_payload example_hit ⟨0, 0, 1⟩
      example_device_state).1 example_empty_ris_reservoir (le_refl _),
   (no_sample_shades_black example_render_data example_payload example_hit ⟨0, 0, 1⟩
      example_device_state).2.1 example_empty_reservoir (le_refl _),
   ((no_sample_shades_black example_render_data example_payload example_hit ⟨0, 0, 1⟩
      example_device_state).2.2 (fun _ => example_envmap_reservoir) ⟨1, 2⟩
      (by decide) (by decide)).1⟩

/-- C11.  BSDF-origin samples are never occlusion-tested.  For a reservoir with
`UCW > 0` whose retained sample has `is_bsdf_sample = true`,
`evaluate_reservoir_sample` returns the device state it was given (no shadow-ray
query, no other call), its result is the same whatever the two occlusion tests
answer, and the colour is `bsdf_sample_contribution * UCW * emission *
bsdf_sample_cosine_term` when the cached cosine is positive, with no division by
the unoccluded probability, and zero otherwise. -/
theorem bsdf_sample_is_not_occlusion_tested (rd : HIPRTRenderData) (ray_payload : RayPayload)
    (closest_hit_info : HitInfo) (view_direction : float3) (reservoir : RISReservoir)
    (st : DeviceState) (hU : 0 < reservoir.UCW)
    (hb : reservoir.sample.is_bsdf_sample = true) :
    evaluate_reservoir_sample rd ray_payload closest_hit_info view_direction reservoir st
      = (if reservoir.sample.bsdf_sample_cosine_term > 0 then
          ((reservoir.sample.bsdf_sample_contribution.scale reservoir.UCW).mul
            (rd.get_emission (rd.material_indices reservoir.sample.emissive_triangle_index))).scale
            reservoir.sample.bsdf_sample_cosine_term
         else ColorRGB32F.black, st) ∧
    (∀ (f : hiprtRay → ℚ → Int → Int → Nat → Bool × Nat)
       (g : hiprtRay → ℚ → Int → NEEPlusPlusContext → Nat → Int → Nat →
          Bool × NEEPlusPlusContext × Nat × Nat),
      evaluate_reservoir_sample
          { rd with evaluate_shadow_ray := f, evaluate_shadow_ray_nee_plus_plus := g }
          ray_payload closest_hit_info view_direction reservoir st
        = evaluate_reservoir_sample rd ray_payload closest_hit_info view_direction
            reservoir st) := by
  have hU' : ¬ reservoir.UCW ≤ 0 := not_le.mpr hU
  have key : ∀ rd' : HIPRTRenderData,
      evaluate_reservoir_sample rd' ray_payload closest_hit_info view_direction reservoir st
      = (if reservoir.sample.bsdf_sample_cosine_term > 0 then
          ((reservoir.sample.bsdf_sample_contribution.scale reservoir.UCW).mul
            (rd'.get_emission (rd'.material_indices reservoir.sample.emissive_triangle_index))).scale
            reservoir.sample.bsdf_sample_cosine_term
         else ColorRGB32F.black, st) := by
    intro rd'
    unfold evaluate_reservoir_sample
    simp only [hU', if_false, hb, if_true, Bool.not_false, Bool.not_true, Bool.false_eq_true]
    split <;> rfl
  refine ⟨key rd, ?_⟩
  intro f g
  rw [key, key]

/-- C11 at a concrete reservoir: contribution (1/2, 1/4, 1), UCW 2, cosine 1/2. -/
theorem bsdf_sample_is_not_occlusion_tested_witness :
    0 < example_bsdf_ris_reservoir.UCW ∧
    evaluate_reservoir_sample example_render_data example_payload example_hit ⟨0, 0, 1⟩
        example_bsdf_ris_reservoir example_device_state
      = (if example_bsdf_ris_reservoir.sample.bsdf_sample_cosine_term > 0 then
          ((example_bsdf_ris_reservoir.sample.bsdf_sample_contribution.scale
              example_bsdf_ris_reservoir.UCW).mul
            (example_render_data.get_emission (example_render_data.material_indices
              example_bsdf_ris_reservoir.sample.emissive_triangle_index))).scale
            example_bsdf_ris_reservoir.sample.bsdf_sample_cosine_term
         else ColorRGB32F.black, example_device_state) :=
  ⟨by norm_num [example_bsdf_ris_reservoir],
   (bsdf_sample_is_not_occlusion_tested example_render_data example_payload example_hit
      ⟨0, 0, 1⟩ example_bsdf_ris_reservoir example_device_state
      (by norm_num [example_bsdf_ris_reservoir]) rfl).1⟩

/-- C12.  Light-origin shading with the visibility cache.  For a reservoir with
`UCW > 0` whose retained sample has `is_bsdf_sample = false`,
`evaluate_reservoir_sample` makes exactly one shadow-ray query
(`evaluate_shadow_ray_nee_plus_plus`), first in its call log; when the query reports
occlusion the colour is zero; otherwise, with `c = max(0, dot(shading_normal,
direction to the light point))`, the colour is `BSDF_value * UCW * emission * c`
divided by the unoccluded probability the query left in the context when `c > 0`,
and zero when `c = 0`. -/
theorem light_sample_is_shadow_tested_once (rd : HIPRTRenderData) (ray_payload : RayPayload)
    (closest_hit_info : HitInfo) (view_direction : float3) (reservoir : RISReservoir)
    (st : DeviceState) (hU : 0 < reservoir.UCW)
    (hb : reservoir.sample.is_bsdf_sample = false) :
    (evaluate_reservoir_sample rd ray_payload closest_hit_info view_direction reservoir st).1
      = (if (ris_shadow_query rd ray_payload closest_hit_info reservoir.sample st).1 then
          ColorRGB32F.black
        else if ris_cosine rd closest_hit_info reservoir.sample > 0 then
          ((((ris_bsdf_eval rd ray_payload closest_hit_info view_direction reservoir.sample
                st).1.scale reservoir.UCW).mul
              (rd.get_emission (rd.material_indices reservoir.sample.emissive_triangle_index))).scale
              (ris_cosine rd closest_hit_info reservoir.sample)).div
              (ris_shadow_query rd ray_payload closest_hit_info
                reservoir.sample st).2.1.unoccluded_probability
        else ColorRGB32F.black) ∧
    (evaluate_reservoir_sample rd ray_payload closest_hit_info view_direction
        reservoir st).2.queries
      = st.queries ++
        Query.shadow_ray_nee_plus_plus
          ⟨ris_evaluated_point closest_hit_info,
           ris_direction_to_light rd closest_hit_info reservoir.sample⟩
          (ris_distance_to_light rd closest_hit_info reservoir.sample) ::
        (if (ris_shadow_query rd ray_payload closest_hit_info reservoir.sample st).1 then []
         else
          Query.bsdf_eval (ris_direction_to_light rd closest_hit_info reservoir.sample) ::
          (if ris_cosine rd closest_hit_info reservoir.sample > 0 then
            [Query.division DivisionSite.unoccluded_probability
              (ris_shadow_query rd ray_payload closest_hit_info
                reservoir.sample st).2.1.unoccluded_probability]
           else [])) ∧
    (¬ ris_cosine rd closest_hit_info reservoir.sample > 0 →
      ris_cosine rd closest_hit_info reservoir.sample = 0) := by
  rw [evaluate_reservoir_sample_light rd ray_payload closest_hit_info view_direction
    reservoir st hU hb]
  refine ⟨?_, ?_, ?_⟩
  · split_ifs <;> rfl
  · split_ifs <;>
      simp [ris_shadow_query, ris_bsdf_eval, call_evaluate_shadow_ray_nee_plus_plus,
        call_bsdf_dispatcher_eval, log_division]
  · intro h
    unfold ris_cosine hippt_max at h ⊢
    split_ifs at h ⊢ with h1
    · rfl
    · exact le_antisymm (not_lt.mp h) (not_lt.mp h1)

/-- C12 at a concrete reservoir: a light point straight above the surface point. -/
theorem light_sample_is_shadow_tested_once_witness :
    0 < example_light_ris_reservoir.UCW ∧
    (evaluate_reservoir_sample example_render_data example_payload example_hit ⟨0, 0, 1⟩
        example_light_ris_reservoir example_device_state).2.queries
      = example_device_state.queries ++
        Query.shadow_ray_nee_plus_plus
          ⟨ris_evaluated_point example_hit,
           ris_direction_to_light example_render_data example_hit
             example_light_ris_reservoir.sample⟩
          (ris_distance_to_light example_render_data example_hit
            example_light_ris_reservoir.sample) ::
        (if (ris_shadow_query example_render_data example_payload example_hit
              example_light_ris_reservoir.sample example_device_state).1 then []
         else
          Query.bsdf_eval (ris_direction_to_light example_render_data example_hit
            example_light_ris_reservoir.sample) ::
          (if ris_cosine example_render_data example_hit example_light_ris_reservoir.sample > 0
           then
            [Query.division DivisionSite.unoccluded_probability
              (ris_shadow_query example_render_data example_payload example_hit
                example_light_ris_reservoir.sample
                example_device_state).2.1.unoccluded_probability]
           else [])) :=
  ⟨by norm_num [example_light_ris_reservoir],
   (light_sample_is_shadow_tested_once example_render_data example_payload example_hit
      ⟨0, 0, 1⟩ example_light_ris_reservoir example_device_state
      (by norm_num [example_light_ris_reservoir]) rfl).2.1⟩

/-- C13.  ReSTIR final contribution.  For a reservoir with `UCW > 0` that is not
found occluded (the sample is flagged unoccluded, or the final-shading visibility
is off, or the shadow ray reports no occlusion), with `c` the dot product of the
shading normal and the shadow-ray direction, replaced by its absolute value when the
sample carries the `SAMPLED_FROM_GLASS_REFRACT_LOBE` flag: if `c > 0` the colour
returned is `BSDF_value * UCW * emission * c`, where the emission is the
environment-map value in the direction of the sample for an environment-map sample
and the emission of the material of `sample.emissive_triangle_index` otherwise. -/
theorem restir_final_contribution (rd : HIPRTRenderData) (ray_payload : RayPayload)
    (closest_hit_info : HitInfo) (view_direction : float3) (reservoir : ReSTIRDIReservoir)
    (st : DeviceState) (hU : 0 < reservoir.UCW)
    (hv : has_flag reservoir.sample.flags rd.RESTIR_DI_FLAGS_UNOCCLUDED = true ∨
      rd.do_final_shading_visibility = false ∨
      (rd.evaluate_shadow_ray
        ⟨closest_hit_info.inter_point, (restir_shadow_ray rd closest_hit_info reservoir.sample).1⟩
        (restir_shadow_ray rd closest_hit_info reservoir.sample).2
        closest_hit_info.primitive_index 0 st.rng).1 = false)
    (hc : 0 < (if has_flag reservoir.sample.flags
                  rd.RESTIR_DI_FLAGS_SAMPLED_FROM_GLASS_REFRACT_LOBE
               then hippt_abs (restir_dot rd closest_hit_info reservoir.sample)
               else restir_dot rd closest_hit_info reservoir.sample)) :
    (evaluate_ReSTIR_DI_reservoir rd ray_payload closest_hit_info view_direction reservoir st).1
      = (((restir_bsdf_eval rd ray_payload closest_hit_info view_direction reservoir.sample
            st).1.scale reservoir.UCW).mul
          (if has_flag reservoir.sample.flags rd.RESTIR_DI_FLAGS_ENVMAP_SAMPLE then
            (rd.envmap_eval (restir_shadow_ray rd closest_hit_info reservoir.sample).1).1
          else
            rd.get_emission (rd.material_indices reservoir.sample.emissive_triangle_index))).scale
          (if has_flag reservoir.sample.flags
              rd.RESTIR_DI_FLAGS_SAMPLED_FROM_GLASS_REFRACT_LOBE
           then hippt_abs (restir_dot rd closest_hit_info reservoir.sample)
           else restir_dot rd closest_hit_info reservoir.sample) := by
  have ho : (restir_occlusion rd closest_hit_info reservoir.sample st).1 = false := by
    unfold restir_occlusion
    rcases hv with h | h | h
    · rw [if_pos h]
    · split
      · rfl
      · rw [h]; rfl
    · split
      · rfl
      · split
        · exact h
        · rfl
  rw [evaluate_ReSTIR_DI_reservoir_eq rd ray_payload closest_hit_info view_direction
    reservoir st hU, ho]
  simp only [Bool.false_eq_true, if_false, gt_iff_lt, hc, if_true]
  rfl

/-- C13 at a concrete reservoir: an emissive-triangle sample straight above the
surface point, shadow ray unoccluded, cosine 1. -/
theorem restir_final_contribution_witness :
    0 < example_light_reservoir.UCW ∧
    (evaluate_ReSTIR_DI_reservoir example_render_data example_payload example_hit ⟨0, 0, 1⟩
        example_light_reservoir example_device_state).1
      = (((restir_bsdf_eval example_render_data example_payload example_hit ⟨0, 0, 1⟩
            example_light_reservoir.sample
            example_device_state).1.scale example_light_reservoir.UCW).mul
          (if has_flag example_light_reservoir.sample.flags
              example_render_data.RESTIR_DI_FLAGS_ENVMAP_SAMPLE then
            (example_render_data.envmap_eval
              (restir_shadow_ray example_render_data example_hit
                example_light_reservoir.sample).1).1
          else
            example_render_data.get_emission (example_render_data.material_indices
              example_light_reservoir.sample.emissive_triangle_index))).scale
          (if has_flag example_light_reservoir.sample.flags
              example_render_data.RESTIR_DI_FLAGS_SAMPLED_FROM_GLASS_REFRACT_LOBE
           then hippt_abs (restir_dot example_render_data example_hit
              example_light_reservoir.sample)
           else restir_dot example_render_data example_hit example_light_reservoir.sample) :=
  ⟨by norm_num [example_light_reservoir],
   restir_final_contribution example_render_data example_payload example_hit ⟨0, 0, 1⟩
      example_light_reservoir example_device_state
      (by norm_num [example_light_reservoir])
      (Or.inr (Or.inr rfl))
      (by norm_num [example_light_reservoir, example_render_data, example_hit, has_flag,
        restir_dot, restir_shadow_ray, hippt_dot, hippt_abs, float3.div, float3.sub])⟩

/-- C14.  Negative cosine in ReSTIR final shading.  For a reservoir with `UCW > 0`:
if the dot product of the shading normal and the shadow-ray direction is not
positive and the sample does not carry the `SAMPLED_FROM_GLASS_REFRACT_LOBE` flag,
the colour is zero; if the sample carries the flag and the dot product is negative,
the colour is zero when the sample is found occluded and otherwise `BSDF_value * UCW
* emission * |dot|`, where `|dot| = -dot > 0` is the mirrored, positive cosine. -/
theorem restir_negative_cosine (rd : HIPRTRenderData) (ray_payload : RayPayload)
    (closest_hit_info : HitInfo) (view_direction : float3) (reservoir : ReSTIRDIReservoir)
    (st : DeviceState) (hU : 0 < reservoir.UCW) :
    (has_flag reservoir.sample.flags rd.RESTIR_DI_FLAGS_SAMPLED_FROM_GLASS_REFRACT_LOBE = false →
      restir_dot rd closest_hit_info reservoir.sample ≤ 0 →
      (evaluate_ReSTIR_DI_reservoir rd ray_payload closest_hit_info view_direction
        reservoir st).1 = ColorRGB32F.black) ∧
    (has_flag reservoir.sample.flags rd.RESTIR_DI_FLAGS_SAMPLED_FROM_GLASS_REFRACT_LOBE = true →
      restir_dot rd closest_hit_info reservoir.sample < 0 →
      hippt_abs (restir_dot rd closest_hit_info reservoir.sample)
        = - restir_dot rd closest_hit_info reservoir.sample ∧
      0 < - restir_dot rd closest_hit_info reservoir.sample ∧
      (evaluate_ReSTIR_DI_reservoir rd ray_payload closest_hit_info view_direction
        reservoir st).1
        = (if (restir_occlusion rd closest_hit_info reservoir.sample st).1 then
            ColorRGB32F.black
          else
            (((restir_bsdf_eval rd ray_payload closest_hit_info view_direction
                reservoir.sample st).1.scale reservoir.UCW).mul
              (restir_emission rd closest_hit_info reservoir.sample)).scale
              (- restir_dot rd closest_hit_info reservoir.sample))) := by
  rw [evaluate_ReSTIR_DI_reservoir_eq rd ray_payload closest_hit_info view_direction
    reservoir st hU]
  refine ⟨?_, ?_⟩
  · intro hg hd
    have hd' : ¬ restir_dot rd closest_hit_info reservoir.sample > 0 := not_lt.mpr hd
    simp only [hg, Bool.false_eq_true, if_false, hd', ite_self]
  · intro hg hd
    have ha : hippt_abs (restir_dot rd closest_hit_info reservoir.sample)
        = - restir_dot rd closest_hit_info reservoir.sample := by
      unfold hippt_abs
      rw [if_pos hd]
    have hp : 0 < - restir_dot rd closest_hit_info reservoir.sample := neg_pos.mpr hd
    refine ⟨ha, hp, ?_⟩
    simp only [hg, if_true, ha, gt_iff_lt, hp]

/-- C14 at concrete reservoirs: a sample straight below the surface point with the
glass-refraction flag (dot product -1), and its counterpart without a flag. -/
theorem restir_negative_cosine_witness :
    0 < example_refracted_reservoir.UCW ∧
    (evaluate_ReSTIR_DI_reservoir example_render_data example_payload example_hit ⟨0, 0, 1⟩
        { example_refracted_reservoir with
          sample := { example_refracted_reservoir.sample with flags := 0 } }
        example_device_state).1 = ColorRGB32F.black ∧
    0 < - restir_dot example_render_data example_hit example_refracted_reservoir.sample :=
  ⟨by norm_num [example_refracted_reservoir],
   (restir_negative_cosine example_render_data example_payload example_hit ⟨0, 0, 1⟩
      { example_refracted_reservoir with
        sample := { example_refracted_reservoir.sample with flags := 0 } }
      example_device_state (by norm_num [example_refracted_reservoir])).1 rfl
      (by norm_num [example_refracted_reservoir, example_render_data, example_hit, has_flag,
        restir_dot, restir_shadow_ray, hippt_dot, hippt_abs, float3.div, float3.sub]),
   ((restir_negative_cosine example_render_data example_payload example_hit ⟨0, 0, 1⟩
      example_refracted_reservoir example_device_state
      (by norm_num [example_refracted_reservoir])).2 rfl
      (by norm_num [example_refracted_reservoir, example_render_data, example_hit, has_flag,
        restir_dot, restir_shadow_ray, hippt_dot, hippt_abs, float3.div, float3.sub])).2.1⟩

/-! ## Candidate generation: the claims -/

/-- C16.  Candidate counts from configuration.  The BSDF-candidate count is 1 in
low-resolution mode and `ris_settings.number_of_bsdf_candidates` otherwise; the
light-candidate count is 0 when the material cannot do light sampling, and otherwise
1 in low-resolution mode and `ris_settings.number_of_light_candidates` otherwise; and
every call of the balance heuristic recorded by `sample_bsdf_and_lights_RIS_reservoir`
is given these two counts: (light count, BSDF count) in the light loop, (BSDF count,
light count) in the BSDF loop. -/
theorem candidate_counts_from_configuration (rd : RISRenderData) (ray_payload : RayPayload)
    (closest_hit_info : HitInfo) (view_direction : float3) (st : DeviceState)
    (mis_ray_reuse : MISBSDFRayReuse) :
    nb_bsdf_candidates rd
      = (if rd.do_render_low_resolution then 1 else rd.number_of_bsdf_candidates) ∧
    nb_light_candidates rd ray_payload
      = (if rd.can_do_light_sampling ray_payload.material = false then 0
         else if rd.do_render_low_resolution then 1 else rd.number_of_light_candidates) ∧
    ∃ L1 L2 : List Query,
      (sample_bsdf_and_lights_RIS_reservoir rd ray_payload closest_hit_info view_direction st
          mis_ray_reuse).2.2.2.queries
        = st.queries ++ L1 ++ L2 ++ [Query.reservoir_end] ∧
      L1.countP is_add_one_candidate = (nb_light_candidates rd ray_payload).toNat ∧
      L2.countP is_add_one_candidate = (nb_bsdf_candidates rd).toNat ∧
      (∀ (pdf_a : ℚ) (nb_a : Int) (pdf_b : ℚ) (nb_b : Int),
        Query.balance_heuristic pdf_a nb_a pdf_b nb_b ∈ L1 →
        nb_a = nb_light_candidates rd ray_payload ∧ nb_b = nb_bsdf_candidates rd) ∧
      (∀ (pdf_a : ℚ) (nb_a : Int) (pdf_b : ℚ) (nb_b : Int),
        Query.balance_heuristic pdf_a nb_a pdf_b nb_b ∈ L2 →
        nb_a = nb_bsdf_candidates rd ∧ nb_b = nb_light_candidates rd ray_payload) := by
  refine ⟨rfl, ?_, ?_⟩
  · unfold nb_light_candidates
    cases rd.can_do_light_sampling ray_payload.material <;> simp
  · obtain ⟨L1, L2, hq, c1, c2, ok1, ok2⟩ := generator_log rd ray_payload closest_hit_info
      view_direction st mis_ray_reuse
    refine ⟨L1, L2, hq, c1, c2, ?_, ?_⟩
    · intro pa a pb b hmem
      rcases ok1 _ hmem with h | h
      · exact h
      · cases h
    · intro pa a pb b hmem
      rcases ok2 _ hmem with h | h
      · exact h
      · cases h

/-- C19.  Refraction correction.  For a BSDF candidate that hit an emitter (pdf `> 0`,
hit found, emission not black), the candidate calls the balance heuristic exactly
once, with `(bsdf_pdf, nb_bsdf, light_pdf, nb_light)` where `light_pdf` is 0 when
`dot(sampled direction, shading_normal * inside_surface_multiplier) < 0` and exactly
`pdf_of_emissive_triangle_hit` otherwise; the candidate weight is the value of that
call `* target_function / bsdf_pdf`. -/
theorem refraction_correction (rd : RISRenderData) (ray_payload : RayPayload)
    (closest_hit_info : HitInfo) (view_direction : float3) (m : ℚ) (nl nb : Int)
    (st : DeviceState)
    (hw : bsdf_candidate_hit_emitter rd ray_payload closest_hit_info view_direction st) :
    (queries_since st
        (bsdf_candidate rd ray_payload closest_hit_info view_direction m nl nb
          st).2.2.2.2).filter
        (fun q => match q with
          | Query.balance_heuristic _ _ _ _ => true
          | _ => false)
      = [Query.balance_heuristic
          (call_bsdf_dispatcher_sample rd ray_payload view_direction closest_hit_info st).2.2.1
          nb
          (if hippt_dot
              (call_bsdf_dispatcher_sample rd ray_payload view_direction closest_hit_info
                st).2.1
              (closest_hit_info.shading_normal.scale m) < 0 then 0
           else rd.pdf_of_emissive_triangle_hit
              (bsdf_traced rd ray_payload closest_hit_info view_direction st).2.1
              (call_bsdf_dispatcher_sample rd ray_payload view_direction closest_hit_info
                st).2.1)
          nl] ∧
    (bsdf_candidate rd ray_payload closest_hit_info view_direction m nl nb st).1.2
      = rd.balance_heuristic
          (call_bsdf_dispatcher_sample rd ray_payload view_direction closest_hit_info st).2.2.1
          nb
          (if hippt_dot
              (call_bsdf_dispatcher_sample rd ray_payload view_direction closest_hit_info
                st).2.1
              (closest_hit_info.shading_normal.scale m) < 0 then 0
           else rd.pdf_of_emissive_triangle_hit
              (bsdf_traced rd ray_payload closest_hit_info view_direction st).2.1
              (call_bsdf_dispatcher_sample rd ray_payload view_direction closest_hit_info
                st).2.1)
          nl
        * (bsdf_candidate rd ray_payload closest_hit_info view_direction m nl nb
            st).1.1.target_function
        / (call_bsdf_dispatcher_sample rd ray_payload view_direction closest_hit_info
            st).2.2.1 := by
  rw [← bsdf_light_pdf_eq]
  refine ⟨?_, (bsdf_candidate_hit_eq rd ray_payload closest_hit_info view_direction m nl nb st
    hw).2.1⟩
  rw [queries_since_append st _ _
    (bsdf_candidate_hit_log rd ray_payload closest_hit_info view_direction m nl nb st hw)]
  rfl

/-- C19 at the concrete render data: the direction sampled is (0, 0, -1) under a
surface facing up, a refraction, so the light pdf passed on is 0 although
`pdf_of_emissive_triangle_hit` answers 1/2. -/
theorem refraction_correction_witness :
    bsdf_candidate_hit_emitter example_ris_render_data example_payload example_hit ⟨0, 0, 1⟩
      example_device_state ∧
    (queries_since example_device_state
        (bsdf_candidate example_ris_render_data example_payload example_hit ⟨0, 0, 1⟩ 1 2 1
          example_device_state).2.2.2.2).filter
        (fun q => match q with
          | Query.balance_heuristic _ _ _ _ => true
          | _ => false)
      = [Query.balance_heuristic 1 1 0 2] := by
  have hw : bsdf_candidate_hit_emitter example_ris_render_data example_payload example_hit
      ⟨0, 0, 1⟩ example_device_state := by
    norm_num [bsdf_candidate_hit_emitter, bsdf_traced, call_evaluate_shadow_light_ray,
      call_bsdf_dispatcher_sample, example_ris_render_data, ColorRGB32F.is_black]
  refine ⟨hw, ?_⟩
  have h := (refraction_correction example_ris_render_data example_payload example_hit
    ⟨0, 0, 1⟩ 1 2 1 example_device_state hw).1
  rw [h]
  norm_num [call_bsdf_dispatcher_sample, example_ris_render_data, example_hit, hippt_dot,
    float3.scale]

/-- C20.  Minimum-contribution culling.  (a) A weighted light candidate for which
`check_minimum_light_contribution` fails on `emission / pdf` gets target function 0
and weight 0, and records no BSDF evaluation.  (b) A weighted light candidate for
which it fails on `contribution / bsdf_pdf / light_pdf`, and (c) a BSDF candidate that
hit an emitter for which it fails on `contribution / light_pdf / bsdf_pdf`, get target
function 0 and weight 0.  (d) Every candidate, these included, is streamed: the
iteration ends with the call of `add_one_candidate` on the reservoir it was given,
with the candidate's sample and weight. -/
theorem minimum_contribution_culling (rd : RISRenderData) (ray_payload : RayPayload)
    (closest_hit_info : HitInfo) (view_direction : float3) (m : ℚ) (nl nb : Int)
    (acc : RISReservoir × DeviceState) (mis_ray_reuse : MISBSDFRayReuse) :
    (light_candidate_is_weighted rd closest_hit_info m acc.2 →
      (light_early_check rd closest_hit_info acc.2).1 = false →
      (light_candidate rd ray_payload closest_hit_info view_direction m nl nb
        acc.2).1.target_function = 0 ∧
      (light_candidate rd ray_payload closest_hit_info view_direction m nl nb acc.2).2.1 = 0 ∧
      ∀ direction : float3,
        Query.bsdf_eval direction ∉
          queries_since acc.2
            (light_candidate rd ray_payload closest_hit_info view_direction m nl nb
              acc.2).2.2) ∧
    (light_candidate_is_weighted rd closest_hit_info m acc.2 →
      (light_early_check rd closest_hit_info acc.2).1 = true →
      (light_full_check rd ray_payload closest_hit_info view_direction m acc.2).1 = false →
      (light_candidate rd ray_payload closest_hit_info view_direction m nl nb
        acc.2).1.target_function = 0 ∧
      (light_candidate rd ray_payload closest_hit_info view_direction m nl nb acc.2).2.1 = 0) ∧
    (bsdf_candidate_hit_emitter rd ray_payload closest_hit_info view_direction acc.2 →
      (bsdf_check rd ray_payload closest_hit_info view_direction m acc.2).1 = false →
      (bsdf_candidate rd ray_payload closest_hit_info view_direction m nl nb
        acc.2).1.1.target_function = 0 ∧
      (bsdf_candidate rd ray_payload closest_hit_info view_direction m nl nb acc.2).1.2 = 0) ∧
    (∃ L : List Query,
      (light_candidate_iteration rd ray_payload closest_hit_info view_direction m nl nb
          acc).2.queries
        = acc.2.queries ++ L ++
          [Query.add_one_candidate
            (light_candidate rd ray_payload closest_hit_info view_direction m nl nb acc.2).1
            (light_candidate rd ray_payload closest_hit_info view_direction m nl nb acc.2).2.1] ∧
      (∀ q ∈ L, is_add_one_candidate q = false) ∧
      (light_candidate_iteration rd ray_payload closest_hit_info view_direction m nl nb acc).1
        = (rd.add_one_candidate acc.1
            (light_candidate rd ray_payload closest_hit_info view_direction m nl nb acc.2).1
            (light_candidate rd ray_payload closest_hit_info view_direction m nl nb acc.2).2.1
            (light_candidate rd ray_payload closest_hit_info view_direction m nl nb
              acc.2).2.2.rng).1) ∧
    (∃ L : List Query,
      (bsdf_candidate_iteration rd closest_hit_info view_direction m nl nb
          (acc.1, mis_ray_reuse, ray_payload, acc.2)).2.2.2.queries
        = acc.2.queries ++ L ++
          [Query.add_one_candidate
            (bsdf_candidate rd ray_payload closest_hit_info view_direction m nl nb acc.2).1.1
            (bsdf_candidate rd ray_payload closest_hit_info view_direction m nl nb
              acc.2).1.2] ∧
      (∀ q ∈ L, is_add_one_candidate q = false) ∧
      (bsdf_candidate_iteration rd closest_hit_info view_direction m nl nb
          (acc.1, mis_ray_reuse, ray_payload, acc.2)).1
        = (rd.add_one_candidate acc.1
            (bsdf_candidate rd ray_payload closest_hit_info view_direction m nl nb acc.2).1.1
            (bsdf_candidate rd ray_payload closest_hit_info view_direction m nl nb acc.2).1.2
            (bsdf_candidate rd ray_payload closest_hit_info view_direction m nl nb
              acc.2).2.2.2.2.rng).1) := by
  refine ⟨?_, ?_, ?_, ?_, ?_⟩
  · intro hw he
    have hz := light_visibility_zero rd ray_payload closest_hit_info view_direction m acc.2
      (Or.inl he)
    refine ⟨?_, ?_, ?_⟩
    · rw [light_candidate_weighted_eq rd ray_payload closest_hit_info view_direction m nl nb
        acc.2 hw]
      exact hz
    · rw [light_candidate_weighted_eq rd ray_payload closest_hit_info view_direction m nl nb
        acc.2 hw]
      simp only [hz, mul_zero, zero_div]
    · intro direction
      rw [queries_since_append acc.2 _ _
        (light_candidate_early_cull_log rd ray_payload closest_hit_info view_direction m nl nb
          acc.2 hw he)]
      simp
  · intro hw _ hf
    have hz := light_visibility_zero rd ray_payload closest_hit_info view_direction m acc.2
      (Or.inr (Or.inl hf))
    rw [light_candidate_weighted_eq rd ray_payload closest_hit_info view_direction m nl nb
      acc.2 hw]
    refine ⟨hz, ?_⟩
    simp only [hz, mul_zero, zero_div]
  · intro hw hc
    have h := bsdf_candidate_hit_eq rd ray_payload closest_hit_info view_direction m nl nb
      acc.2 hw
    have hz : (bsdf_candidate rd ray_payload closest_hit_info view_direction m nl nb
        acc.2).1.1.target_function = 0 := by
      rw [h.1, hc]
      rfl
    refine ⟨hz, ?_⟩
    rw [h.2.1, hz, mul_zero, zero_div]
  · obtain ⟨L, hL, hok, hr⟩ := light_candidate_iteration_log rd ray_payload closest_hit_info
      view_direction m nl nb acc
    exact ⟨L, hL, fun q hq => candidate_event_ok_not_add (hok q hq), hr⟩
  · obtain ⟨L, hL, hok, hr⟩ := bsdf_candidate_iteration_log rd closest_hit_info
      view_direction m nl nb (acc.1, mis_ray_reuse, ray_payload, acc.2)
    exact ⟨L, hL, fun q hq => candidate_event_ok_not_add (hok q hq), hr⟩

/-- C20 at the concrete render data whose minimum-contribution test always fails: the
light candidate is weighted, the early check fails, target function and weight
are 0. -/
theorem minimum_contribution_culling_witness :
    light_candidate_is_weighted example_culling_render_data example_hit 1
      example_device_state ∧
    (light_early_check example_culling_render_data example_hit example_device_state).1 = false ∧
    (light_candidate example_culling_render_data example_payload example_hit ⟨0, 0, 1⟩ 1 2 1
      example_device_state).1.target_function = 0 ∧
    (light_candidate example_culling_render_data example_payload example_hit ⟨0, 0, 1⟩ 1 2 1
      example_device_state).2.1 = 0 :=
  have hw : light_candidate_is_weighted example_culling_render_data example_hit 1
      example_device_state := by
    norm_num [light_candidate_is_weighted, light_cosine_at_evaluated_point,
      light_cosine_at_light_source, light_to_light_direction,
      call_uniform_sample_one_emissive_triangle, example_culling_render_data,
      example_ris_render_data, example_render_data,
      example_hit, example_device_state, hippt_abs, hippt_max, hippt_dot, float3.sub,
      float3.div, float3.neg, float3.scale]
  ⟨hw, rfl,
   ((minimum_contribution_culling example_culling_render_data example_payload example_hit
      ⟨0, 0, 1⟩ 1 2 1 (example_empty_ris_reservoir, example_device_state)
      example_mis_ray_reuse).1 hw rfl).1,
   ((minimum_contribution_culling example_culling_render_data example_payload example_hit
      ⟨0, 0, 1⟩ 1 2 1 (example_empty_ris_reservoir, example_device_state)
      example_mis_ray_reuse).1 hw rfl).2.1⟩

/-- C21.  Degenerate emitter.  For a light candidate whose sampled area pdf is `<= 0`,
the iteration of the light loop records the call of the light sampler and the call
of `add_one_candidate`, and nothing else: no BSDF evaluation, no visibility test, no
minimum-contribution check, no balance heuristic and no division; the candidate is
streamed into the reservoir the iteration was given with `target_function = 0` and
weight 0. -/
theorem degenerate_emitter (rd : RISRenderData) (ray_payload : RayPayload)
    (closest_hit_info : HitInfo) (view_direction : float3) (m : ℚ) (nl nb : Int)
    (acc : RISReservoir × DeviceState)
    (hp : (call_uniform_sample_one_emissive_triangle rd acc.2).2.1 ≤ 0) :
    (light_candidate rd ray_payload closest_hit_info view_direction m nl nb
      acc.2).1.target_function = 0 ∧
    (light_candidate rd ray_payload closest_hit_info view_direction m nl nb acc.2).2.1 = 0 ∧
    queries_since acc.2
        (light_candidate_iteration rd ray_payload closest_hit_info view_direction m nl nb
          acc).2
      = [Query.sample_emissive_triangle,
         Query.add_one_candidate
           (light_candidate rd ray_payload closest_hit_info view_direction m nl nb acc.2).1 0] ∧
    (light_candidate_iteration rd ray_payload closest_hit_info view_direction m nl nb acc).1
      = (rd.add_one_candidate acc.1
          (light_candidate rd ray_payload closest_hit_info view_direction m nl nb acc.2).1 0
          (rd.uniform_sample_one_emissive_triangle acc.2.rng).2.2.2).1 := by
  have hw : ¬ light_candidate_is_weighted rd closest_hit_info m acc.2 :=
    fun h => absurd h.1 (not_lt.mpr hp)
  have hc := light_candidate_unweighted_eq rd ray_payload closest_hit_info view_direction m
    nl nb acc.2 hw
  refine ⟨by rw [hc], by rw [hc], ?_, ?_⟩
  · apply queries_since_append
    unfold light_candidate_iteration
    rw [hc]
    simp [call_add_one_candidate, call_uniform_sample_one_emissive_triangle]
  · unfold light_candidate_iteration
    rw [hc]
    rfl

/-- C21 at the concrete render data whose light sampler answers area pdf 0. -/
theorem degenerate_emitter_witness :
    (call_uniform_sample_one_emissive_triangle example_degenerate_render_data
      example_device_state).2.1 ≤ 0 ∧
    queries_since example_device_state
        (light_candidate_iteration example_degenerate_render_data example_payload example_hit
          ⟨0, 0, 1⟩ 1 2 1 (example_empty_ris_reservoir, example_device_state)).2
      = [Query.sample_emissive_triangle,
         Query.add_one_candidate
           (light_candidate example_degenerate_render_data example_payload example_hit
             ⟨0, 0, 1⟩ 1 2 1 example_device_state).1 0] :=
  ⟨le_refl _,
   (degenerate_emitter example_degenerate_render_data example_payload example_hit ⟨0, 0, 1⟩
      1 2 1 (example_empty_ris_reservoir, example_device_state) (le_refl _)).2.2.1⟩

/-- C22.  BSDF ray reuse record.  Every iteration of the BSDF loop records exactly one
call of `mis_ray_reuse.fill`, made with the pdf the BSDF sampler returned and with
the state `BOUNCE` when the traced ray found a hit and `MISSED` otherwise (the record
after the iteration, with `fill` storing what it is given, holds that state and
that pdf).  When the sampled pdf is `<= 0` the iteration records the BSDF sampling,
the fill and the call of `add_one_candidate` only: no ray is traced, the state is
`MISSED` and the recorded pdf is the one the sampler returned. -/
theorem bsdf_ray_reuse_record (rd : RISRenderData) (closest_hit_info : HitInfo)
    (view_direction : float3) (m : ℚ) (nl nb : Int)
    (acc : RISReservoir × MISBSDFRayReuse × RayPayload × DeviceState) :
    (queries_since acc.2.2.2
        (bsdf_candidate_iteration rd closest_hit_info view_direction m nl nb
          acc).2.2.2).filter is_mis_ray_reuse_fill
      = [Query.mis_ray_reuse_fill
          (call_bsdf_dispatcher_sample rd acc.2.2.1 view_direction closest_hit_info
            acc.2.2.2).2.2.1
          (bsdf_hit_found rd acc.2.2.1 closest_hit_info view_direction acc.2.2.2)] ∧
    ((bsdf_candidate_iteration rd closest_hit_info view_direction m nl nb
        acc).2.1.next_ray_state = RayState.BOUNCE ↔
      bsdf_hit_found rd acc.2.2.1 closest_hit_info view_direction acc.2.2.2 = true) ∧
    ((bsdf_candidate_iteration rd closest_hit_info view_direction m nl nb
        acc).2.1.next_ray_state = RayState.MISSED ↔
      bsdf_hit_found rd acc.2.2.1 closest_hit_info view_direction acc.2.2.2 = false) ∧
    (bsdf_candidate_iteration rd closest_hit_info view_direction m nl nb acc).2.1.bsdf_pdf
      = (call_bsdf_dispatcher_sample rd acc.2.2.1 view_direction closest_hit_info
          acc.2.2.2).2.2.1 ∧
    ((call_bsdf_dispatcher_sample rd acc.2.2.1 view_direction closest_hit_info
        acc.2.2.2).2.2.1 ≤ 0 →
      queries_since acc.2.2.2
          (bsdf_candidate_iteration rd closest_hit_info view_direction m nl nb acc).2.2.2
        = [Query.bsdf_sample,
           Query.mis_ray_reuse_fill
             (call_bsdf_dispatcher_sample rd acc.2.2.1 view_direction closest_hit_info
               acc.2.2.2).2.2.1 false,
           Query.add_one_candidate rd.default_sample 0] ∧
      (bsdf_candidate_iteration rd closest_hit_info view_direction m nl nb
        acc).2.1.next_ray_state = RayState.MISSED) := by
  obtain ⟨hf, hs⟩ := bsdf_candidate_fill_arguments rd acc.2.2.1 closest_hit_info
    view_direction m nl nb acc.2.2.2
  have hstate : (bsdf_candidate_iteration rd closest_hit_info view_direction m nl nb
      acc).2.1.next_ray_state
      = (if bsdf_hit_found rd acc.2.2.1 closest_hit_info view_direction acc.2.2.2
          then RayState.BOUNCE else RayState.MISSED) := by
    rw [← hf]
    rfl
  refine ⟨?_, ?_, ?_, ?_, ?_⟩
  · obtain ⟨L, hL, hno⟩ := bsdf_candidate_log_no_fill rd acc.2.2.1 closest_hit_info
      view_direction m nl nb acc.2.2.2
    rw [queries_since_append acc.2.2.2 _
      (L ++ [Query.mis_ray_reuse_fill
          (call_bsdf_dispatcher_sample rd acc.2.2.1 view_direction closest_hit_info
            acc.2.2.2).2.2.1
          (bsdf_hit_found rd acc.2.2.1 closest_hit_info view_direction acc.2.2.2),
        Query.add_one_candidate
          (bsdf_candidate rd acc.2.2.1 closest_hit_info view_direction m nl nb acc.2.2.2).1.1
          (bsdf_candidate rd acc.2.2.1 closest_hit_info view_direction m nl nb
            acc.2.2.2).1.2])
      (by
        rw [← hf]
        simp only [bsdf_candidate_iteration, call_add_one_candidate, call_mis_ray_reuse_fill,
          hL, List.append_assoc, hs]
        rfl)]
    rw [List.filter_append, List.filter_eq_nil_iff.mpr (fun q hq => by simp [hno q hq])]
    rfl
  · rw [hstate]
    cases bsdf_hit_found rd acc.2.2.1 closest_hit_info view_direction acc.2.2.2 <;> simp
  · rw [hstate]
    cases bsdf_hit_found rd acc.2.2.1 closest_hit_info view_direction acc.2.2.2 <;> simp
  · show (bsdf_candidate rd acc.2.2.1 closest_hit_info view_direction m nl nb
      acc.2.2.2).2.2.1.2.2 = _
    rw [hs]
  · intro hp
    obtain ⟨h1, h2, h3⟩ := bsdf_candidate_invalid_eq rd acc.2.2.1 closest_hit_info
      view_direction m nl nb acc.2.2.2 hp
    have hfalse : bsdf_hit_found rd acc.2.2.1 closest_hit_info view_direction acc.2.2.2
        = false := by
      rw [← hf, h2]
    refine ⟨?_, by rw [hstate, hfalse]; rfl⟩
    apply queries_since_append
    simp only [bsdf_candidate_iteration, call_add_one_candidate, call_mis_ray_reuse_fill,
      h1, h2, h3, hs]
    simp [call_bsdf_dispatcher_sample]

/-- C22 at the concrete render data whose BSDF sampler answers pdf 0: the record is
filled with state `MISSED` and no ray is traced. -/
theorem bsdf_ray_reuse_record_witness :
    (call_bsdf_dispatcher_sample example_invalid_bsdf_render_data example_payload ⟨0, 0, 1⟩
      example_hit example_device_state).2.2.1 ≤ 0 ∧
    queries_since example_device_state
        (bsdf_candidate_iteration example_invalid_bsdf_render_data example_hit ⟨0, 0, 1⟩ 1 2 1
          (example_empty_ris_reservoir, example_mis_ray_reuse, example_payload,
            example_device_state)).2.2.2
      = [Query.bsdf_sample,
         Query.mis_ray_reuse_fill
           (call_bsdf_dispatcher_sample example_invalid_bsdf_render_data example_payload
             ⟨0, 0, 1⟩ example_hit example_device_state).2.2.1 false,
         Query.add_one_candidate example_invalid_bsdf_render_data.default_sample 0] ∧
    (bsdf_candidate_iteration example_invalid_bsdf_render_data example_hit ⟨0, 0, 1⟩ 1 2 1
      (example_empty_ris_reservoir, example_mis_ray_reuse, example_payload,
        example_device_state)).2.1.next_ray_state = RayState.MISSED :=
  ⟨le_refl _,
   (bsdf_ray_reuse_record example_invalid_bsdf_render_data example_hit ⟨0, 0, 1⟩ 1 2 1
      (example_empty_ris_reservoir, example_mis_ray_reuse, example_payload,
        example_device_state)).2.2.2.2 (le_refl _)⟩

/-- C23.  Russian roulette inactive.  If `use_russian_roulette` is false, or if
`bounce < russian_roulette_min_depth`, `do_russian_roulette` returns true, the
throughput it was given, and the device state it was given (the generator has not
advanced and nothing was recorded), whatever the throughput, the weight, the method
and the clamp. -/
theorem russian_roulette_inactive (render_settings : HIPRTRenderSettings) (bounce : Int)
    (ray_throughput current_weight : ColorRGB32F) (st : DeviceState)
    (h : render_settings.use_russian_roulette = false ∨
      bounce < render_settings.russian_roulette_min_depth) :
    do_russian_roulette render_settings bounce ray_throughput current_weight st
      = (true, ray_throughput, st) := by
  unfold do_russian_roulette
  rcases h with h | h
  · simp [h]
  · have hn : ¬ bounce ≥ render_settings.russian_roulette_min_depth := not_le.mpr h
    simp [hn]

/-- C23 at concrete settings: Russian roulette switched off, bounce 5. -/
theorem russian_roulette_inactive_witness :
    (example_inactive_settings.use_russian_roulette = false ∨
      (5 : Int) < example_inactive_settings.russian_roulette_min_depth) ∧
    do_russian_roulette example_inactive_settings 5 ⟨1 / 2, 1 / 4, 1 / 8⟩ ⟨1, 1, 1⟩
        example_device_state
      = (true, ⟨1 / 2, 1 / 4, 1 / 8⟩, example_device_state) :=
  ⟨Or.inl rfl,
   russian_roulette_inactive example_inactive_settings 5 ⟨1 / 2, 1 / 4, 1 / 8⟩ ⟨1, 1, 1⟩
     example_device_state (Or.inl rfl)⟩

/-- C24.  Russian roulette decision.  When active, `do_russian_roulette` draws exactly
one number `u` from the generator it was given and returns false (terminate) if and
only if `u > p`, `p` being the survival probability; on termination the throughput
is the one given; on survival it is the one given multiplied by `1/p` when
`russian_roulette_throughput_clamp <= 0` and by `min(1/p, clamp)` when the clamp is
positive. -/
theorem russian_roulette_decision (render_settings : HIPRTRenderSettings) (bounce : Int)
    (ray_throughput current_weight : ColorRGB32F) (st : DeviceState)
    (h : russian_roulette_is_active render_settings bounce) :
    ((do_russian_roulette render_settings bounce ray_throughput current_weight st).1 = false ↔
      (render_settings.random_number_generator st.rng).1
        > survive_probability render_settings ray_throughput current_weight st) ∧
    ((render_settings.random_number_generator st.rng).1
        > survive_probability render_settings ray_throughput current_weight st →
      (do_russian_roulette render_settings bounce ray_throughput current_weight st).2.1
        = ray_throughput) ∧
    (¬ (render_settings.random_number_generator st.rng).1
        > survive_probability render_settings ray_throughput current_weight st →
      (do_russian_roulette render_settings bounce ray_throughput current_weight st).2.1
        = ray_throughput.scale
            (if render_settings.russian_roulette_throughput_clamp ≤ 0 then
              1 / survive_probability render_settings ray_throughput current_weight st
             else
              hippt_min
                (1 / survive_probability render_settings ray_throughput current_weight st)
                render_settings.russian_roulette_throughput_clamp)) ∧
    (queries_since st
        (do_russian_roulette render_settings bounce ray_throughput current_weight
          st).2.2).countP is_random_number = 1 ∧
    (do_russian_roulette render_settings bounce ray_throughput current_weight st).2.2.rng
      = (render_settings.random_number_generator st.rng).2 := by
  obtain ⟨hu, hrng, L, hL, hc⟩ := russian_roulette_draw_log render_settings ray_throughput
    current_weight st
  rw [do_russian_roulette_active render_settings bounce ray_throughput current_weight st h, hu]
  by_cases hk : (render_settings.random_number_generator st.rng).1
      > survive_probability render_settings ray_throughput current_weight st
  · rw [if_pos hk]
    refine ⟨by simp [hk], fun _ => rfl, fun hn => absurd hk hn, ?_, hrng⟩
    rw [queries_since_append st _ (L ++ [Query.random_number])
      (by rw [hL, List.append_assoc])]
    rw [List.countP_append, hc]
    rfl
  · rw [if_neg hk]
    refine ⟨by simp [hk], fun hn => absurd hn hk, fun _ => ?_, ?_, hrng⟩
    · by_cases hcl : render_settings.russian_roulette_throughput_clamp ≤ 0
      · rw [if_pos hcl, if_neg (not_lt.mpr hcl)]
      · rw [if_neg hcl, if_pos (not_le.mp hcl)]
    · rw [queries_since_append st _
        (L ++ [Query.random_number, Query.division DivisionSite.survive_probability
          (survive_probability render_settings ray_throughput current_weight st)])
        (by simp [log_division, hL])]
      rw [List.countP_append, hc]
      rfl

/-- C24 at concrete settings: max-throughput estimator, throughput (1/4, 1/4, 1/4), so
`p = 1/4`; the generator answers 1/2 and the ray is terminated. -/
theorem russian_roulette_decision_witness :
    russian_roulette_is_active example_max_throughput_settings 3 ∧
    ((do_russian_roulette example_max_throughput_settings 3 ⟨1 / 4, 1 / 4, 1 / 4⟩ ⟨1, 1, 1⟩
        example_device_state).1 = false ↔
      (example_max_throughput_settings.random_number_generator example_device_state.rng).1
        > survive_probability example_max_throughput_settings ⟨1 / 4, 1 / 4, 1 / 4⟩ ⟨1, 1, 1⟩
            example_device_state) ∧
    (queries_since example_device_state
        (do_russian_roulette example_max_throughput_settings 3 ⟨1 / 4, 1 / 4, 1 / 4⟩ ⟨1, 1, 1⟩
          example_device_state).2.2).countP is_random_number = 1 :=
  have h : russian_roulette_is_active example_max_throughput_settings 3 :=
    ⟨by decide, rfl⟩
  ⟨h,
   (russian_roulette_decision example_max_throughput_settings 3 ⟨1 / 4, 1 / 4, 1 / 4⟩
      ⟨1, 1, 1⟩ example_device_state h).1,
   (russian_roulette_decision example_max_throughput_settings 3 ⟨1 / 4, 1 / 4, 1 / 4⟩
      ⟨1, 1, 1⟩ example_device_state h).2.2.2.1⟩

/-- C25, as stated, fails.  With the max-throughput estimator and the throughput
(-1, -1, -1) the survival probability `do_russian_roulette` uses is
`min(max_component(throughput), 1) = -1`, below 0: the code clamps the estimate from
above only. -/
theorem survive_probability_below_zero :
    survive_probability example_max_throughput_settings ⟨-1, -1, -1⟩ ⟨1, 1, 1⟩
        example_device_state = -1 ∧
    ¬ (0 ≤ survive_probability example_max_throughput_settings ⟨-1, -1, -1⟩ ⟨1, 1, 1⟩
        example_device_state) := by
  have h : survive_probability example_max_throughput_settings ⟨-1, -1, -1⟩ ⟨1, 1, 1⟩
      example_device_state = -1 := by
    norm_num [survive_probability, survive_probability_estimate,
      example_max_throughput_settings, example_render_settings, ColorRGB32F.max_component,
      hippt_min]
  rw [h]
  exact ⟨rfl, by norm_num⟩

/-- C25, amended.  The survival probability `do_russian_roulette` uses is
`min(max_component(throughput), 1)` for `MAX_THROUGHPUT` and
`min(sqrt(max_component(throughput * weight) / max_component(throughput)), 1)` for
`ARNOLD_2014`; it is at most 1 for every throughput and weight; for `MAX_THROUGHPUT`
it is at least 0 exactly when the max component of the throughput is, and for
`ARNOLD_2014` it is at least 0 as soon as `sqrtf` returns non-negative values. -/
theorem survive_probability_range (render_settings : HIPRTRenderSettings)
    (ray_throughput current_weight : ColorRGB32F) (st : DeviceState) :
    (render_settings.path_russian_roulette_method = PathRussianRoulette.MAX_THROUGHPUT →
      survive_probability render_settings ray_throughput current_weight st
        = hippt_min ray_throughput.max_component 1 ∧
      (0 ≤ survive_probability render_settings ray_throughput current_weight st ↔
        0 ≤ ray_throughput.max_component)) ∧
    (render_settings.path_russian_roulette_method = PathRussianRoulette.ARNOLD_2014 →
      survive_probability render_settings ray_throughput current_weight st
        = hippt_min
            (render_settings.sqrtf
              ((ray_throughput.mul current_weight).max_component
                / ray_throughput.max_component)) 1 ∧
      ((∀ x : ℚ, 0 ≤ render_settings.sqrtf x) →
        0 ≤ survive_probability render_settings ray_throughput current_weight st)) ∧
    survive_probability render_settings ray_throughput current_weight st ≤ 1 := by
  have hmin_le : ∀ a : ℚ, hippt_min a 1 ≤ 1 := by
    intro a
    unfold hippt_min
    split_ifs with h
    · exact le_of_lt h
    · exact le_refl _
  have hmin_nonneg : ∀ a : ℚ, 0 ≤ hippt_min a 1 ↔ 0 ≤ a := by
    intro a
    unfold hippt_min
    split_ifs with h
    · exact Iff.rfl
    · constructor
      · intro _
        linarith [not_lt.mp h]
      · intro _
        norm_num
  refine ⟨?_, ?_, hmin_le _⟩
  · intro hm
    have he : survive_probability render_settings ray_throughput current_weight st
        = hippt_min ray_throughput.max_component 1 := by
      unfold survive_probability survive_probability_estimate
      rw [hm]
    rw [he]
    exact ⟨rfl, hmin_nonneg _⟩
  · intro hm
    have he : survive_probability render_settings ray_throughput current_weight st
        = hippt_min
            (render_settings.sqrtf
              ((ray_throughput.mul current_weight).max_component
                / ray_throughput.max_component)) 1 := by
      unfold survive_probability survive_probability_estimate
      rw [hm]
    rw [he]
    exact ⟨rfl, fun hs => (hmin_nonneg _).mpr (hs _)⟩

/-- C25, amended, at concrete settings: max-throughput estimator, throughput
(1/2, 1/4, 1/8). -/
theorem survive_probability_range_witness :
    example_max_throughput_settings.path_russian_roulette_method
      = PathRussianRoulette.MAX_THROUGHPUT ∧
    survive_probability example_max_throughput_settings ⟨1 / 2, 1 / 4, 1 / 8⟩ ⟨1, 1, 1⟩
        example_device_state
      = hippt_min (ColorRGB32F.max_component ⟨1 / 2, 1 / 4, 1 / 8⟩) 1 ∧
    survive_probability example_max_throughput_settings ⟨1 / 2, 1 / 4, 1 / 8⟩ ⟨1, 1, 1⟩
        example_device_state ≤ 1 :=
  ⟨rfl,
   ((survive_probability_range example_max_throughput_settings ⟨1 / 2, 1 / 4, 1 / 8⟩
      ⟨1, 1, 1⟩ example_device_state).1 rfl).1,
   (survive_probability_range example_max_throughput_settings ⟨1 / 2, 1 / 4, 1 / 8⟩
      ⟨1, 1, 1⟩ example_device_state).2.2⟩

/-- C26, as stated, fails.  The index is computed on 32-bit `int`.  At the render
resolution 65536 x 65536 the pixel (0, 32768) is in range and its index
`0 + 32768 * 65536` wraps to `-2^31`, outside `[0, w*h)`; at the render resolution
131072 x 65536 the pixels (0, 0) and (0, 32768) are in range, are different, and both
get the index 0. -/
theorem pixel_index_wraps_at_large_resolution :
    ((0 : Int) ≤ (⟨0, 32768⟩ : int2).x ∧
      (⟨0, 32768⟩ : int2).x < example_large_render_data.render_resolution.x ∧
      (0 : Int) ≤ (⟨0, 32768⟩ : int2).y ∧
      (⟨0, 32768⟩ : int2).y < example_large_render_data.render_resolution.y) ∧
    pixel_index example_large_render_data ⟨0, 32768⟩ = -2147483648 ∧
    ¬ (0 ≤ pixel_index example_large_render_data ⟨0, 32768⟩) ∧
    ((⟨0, 32768⟩ : int2).x < example_wide_render_data.render_resolution.x ∧
      (⟨0, 32768⟩ : int2).y < example_wide_render_data.render_resolution.y) ∧
    pixel_index example_wide_render_data ⟨0, 32768⟩ = 0 ∧
    pixel_index example_wide_render_data ⟨0, 0⟩ = 0 ∧
    (⟨0, 32768⟩ : int2) ≠ ⟨0, 0⟩ := by
  have h1 : pixel_index example_large_render_data ⟨0, 32768⟩ = -2147483648 := by
    norm_num [pixel_index, int_wrap, example_large_render_data]
  have h2 : pixel_index example_wide_render_data ⟨0, 32768⟩ = 0 := by
    norm_num [pixel_index, int_wrap, example_wide_render_data]
  have h3 : pixel_index example_wide_render_data ⟨0, 0⟩ = 0 := by
    norm_num [pixel_index, int_wrap, example_wide_render_data]
  refine ⟨⟨by decide, by decide, by decide, by decide⟩, h1, ?_, ⟨by decide, by decide⟩, h2, h3,
    by decide⟩
  rw [h1]
  decide

/-- C26, amended.  For a render resolution `(w, h)` with `w*h <= 2^31` and pixel
coordinates with `0 <= x < w` and `0 <= y < h`, the index used by
`sample_light_ReSTIR_DI` is `x + y*w` (no 32-bit overflow), lies in `[0, w*h)`, and
two pixels in range with the same index are the same pixel.  For every resolution,
the buffer `sample_light_ReSTIR_DI` leaves is the one it was given with the slot at
the index it computes replaced by its validated reservoir: every other slot is
untouched, and in the slot itself the sample, `M` and the weight sum are
untouched. -/
theorem own_slot_access (rd : HIPRTRenderData)
    (restir_output_reservoirs : Int → ReSTIRDIReservoir) (ray_payload : RayPayload)
    (closest_hit_info : HitInfo) (view_direction : float3) (st : DeviceState)
    (pixel_coords : int2) :
    (rd.render_resolution.x * rd.render_resolution.y ≤ 2 ^ 31 →
      0 ≤ pixel_coords.x → pixel_coords.x < rd.render_resolution.x →
      0 ≤ pixel_coords.y → pixel_coords.y < rd.render_resolution.y →
      pixel_index rd pixel_coords = pixel_coords.x + pixel_coords.y * rd.render_resolution.x ∧
      0 ≤ pixel_index rd pixel_coords ∧
      pixel_index rd pixel_coords < rd.render_resolution.x * rd.render_resolution.y ∧
      ∀ other : int2,
        0 ≤ other.x → other.x < rd.render_resolution.x →
        0 ≤ other.y → other.y < rd.render_resolution.y →
        pixel_index rd other = pixel_index rd pixel_coords → other = pixel_coords) ∧
    (sample_light_ReSTIR_DI rd restir_output_reservoirs ray_payload closest_hit_info
        view_direction st pixel_coords).2.1
      = Function.update restir_output_reservoirs (pixel_index rd pixel_coords)
          (validate_reservoir rd (restir_output_reservoirs (pixel_index rd pixel_coords))) ∧
    (∀ i : Int, i ≠ pixel_index rd pixel_coords →
      (sample_light_ReSTIR_DI rd restir_output_reservoirs ray_payload closest_hit_info
        view_direction st pixel_coords).2.1 i = restir_output_reservoirs i) ∧
    ((sample_light_ReSTIR_DI rd restir_output_reservoirs ray_payload closest_hit_info
        view_direction st pixel_coords).2.1 (pixel_index rd pixel_coords)).sample
      = (restir_output_reservoirs (pixel_index rd pixel_coords)).sample ∧
    ((sample_light_ReSTIR_DI rd restir_output_reservoirs ray_payload closest_hit_info
        view_direction st pixel_coords).2.1 (pixel_index rd pixel_coords)).M
      = (restir_output_reservoirs (pixel_index rd pixel_coords)).M ∧
    ((sample_light_ReSTIR_DI rd restir_output_reservoirs ray_payload closest_hit_info
        view_direction st pixel_coords).2.1 (pixel_index rd pixel_coords)).weight_sum
      = (restir_output_reservoirs (pixel_index rd pixel_coords)).weight_sum := by
  have hbuf : (sample_light_ReSTIR_DI rd restir_output_reservoirs ray_payload closest_hit_info
        view_direction st pixel_coords).2.1
      = Function.update restir_output_reservoirs (pixel_index rd pixel_coords)
          (validate_reservoir rd (restir_output_reservoirs (pixel_index rd pixel_coords))) :=
    rfl
  have hexact : ∀ c : int2, rd.render_resolution.x * rd.render_resolution.y ≤ 2 ^ 31 →
      0 ≤ c.x → c.x < rd.render_resolution.x → 0 ≤ c.y → c.y < rd.render_resolution.y →
      pixel_index rd c = c.x + c.y * rd.render_resolution.x ∧
      0 ≤ c.x + c.y * rd.render_resolution.x ∧
      c.x + c.y * rd.render_resolution.x < rd.render_resolution.x * rd.render_resolution.y := by
    intro c hsize hx0 hxw hy0 hyh
    have hw : 0 < rd.render_resolution.x := lt_of_le_of_lt hx0 hxw
    have hyw : 0 ≤ c.y * rd.render_resolution.x := mul_nonneg hy0 (le_of_lt hw)
    have hup : c.y * rd.render_resolution.x + rd.render_resolution.x
        ≤ rd.render_resolution.x * rd.render_resolution.y := by
      have h1 : c.y + 1 ≤ rd.render_resolution.y := hyh
      have h2 := mul_le_mul_of_nonneg_left h1 (le_of_lt hw)
      linarith
    have hin : int_wrap (c.y * rd.render_resolution.x) = c.y * rd.render_resolution.x :=
      int_wrap_of_range _ (by linarith) (by linarith)
    refine ⟨?_, by linarith, by linarith⟩
    unfold pixel_index
    rw [hin]
    exact int_wrap_of_range _ (by linarith) (by linarith)
  refine ⟨?_, hbuf, ?_, ?_, ?_, ?_⟩
  · intro hsize hx0 hxw hy0 hyh
    obtain ⟨he, h0, h1⟩ := hexact pixel_coords hsize hx0 hxw hy0 hyh
    have hw : 0 < rd.render_resolution.x := lt_of_le_of_lt hx0 hxw
    refine ⟨he, by rw [he]; exact h0, by rw [he]; exact h1, ?_⟩
    intro other ox0 oxw oy0 oyh hsame
    obtain ⟨heo, -, -⟩ := hexact other hsize ox0 oxw oy0 oyh
    rw [heo, he] at hsame
    have hm : (other.x + other.y * rd.render_resolution.x) % rd.render_resolution.x
        = (pixel_coords.x + pixel_coords.y * rd.render_resolution.x)
          % rd.render_resolution.x := by rw [hsame]
    rw [Int.add_mul_emod_self, Int.add_mul_emod_self, Int.emod_eq_of_lt ox0 oxw,
      Int.emod_eq_of_lt hx0 hxw] at hm
    have hy : other.y = pixel_coords.y := by
      rw [hm] at hsame
      have := add_left_cancel hsame
      exact mul_right_cancel₀ (ne_of_gt hw) this
    cases other
    cases pixel_coords
    simp only at hm hy
    rw [hm, hy]
  · intro i hi
    rw [hbuf, Function.update_noteq hi]
  · rw [hbuf, Function.update_same]
    unfold validate_reservoir
    split <;> rfl
  · rw [hbuf, Function.update_same]
    unfold validate_reservoir
    split <;> rfl
  · rw [hbuf, Function.update_same]
    unfold validate_reservoir
    split <;> rfl

/-- C26, amended, at the concrete render data: resolution 4 x 3, pixel (1, 2),
index 9. -/
theorem own_slot_access_witness :
    example_render_data.render_resolution.x * example_render_data.render_resolution.y
      ≤ 2 ^ 31 ∧
    pixel_index example_render_data ⟨1, 2⟩
      = (⟨1, 2⟩ : int2).x + (⟨1, 2⟩ : int2).y * example_render_data.render_resolution.x ∧
    0 ≤ pixel_index example_render_data ⟨1, 2⟩ ∧
    pixel_index example_render_data ⟨1, 2⟩
      < example_render_data.render_resolution.x * example_render_data.render_resolution.y ∧
    pixel_index example_render_data ⟨1, 2⟩ = 9 :=
  ⟨by decide,
   ((own_slot_access example_render_data (fun _ => example_light_reservoir) example_payload
      example_hit ⟨0, 0, 1⟩ example_device_state ⟨1, 2⟩).1
      (by decide) (by decide) (by decide) (by decide) (by decide)).1,
   ((own_slot_access example_render_data (fun _ => example_light_reservoir) example_payload
      example_hit ⟨0, 0, 1⟩ example_device_state ⟨1, 2⟩).1
      (by decide) (by decide) (by decide) (by decide) (by decide)).2.1,
   ((own_slot_access example_render_data (fun _ => example_light_reservoir) example_payload
      example_hit ⟨0, 0, 1⟩ example_device_state ⟨1, 2⟩).1
      (by decide) (by decide) (by decide) (by decide) (by decide)).2.2.1,
   by decide⟩

/-- C27, evaluated where the code departs from it.  `reset()` writes `odd_frame` only.
From the state set by `update_render_data()` and `reset()`, after `n` frames with
temporal reuse on, spatial reuse off and fused mode off, and then `reset()`, the
next such frame launches the initial-candidates pass and a temporal pass that reads
`spatial_output_reservoirs_1` when `n` is even and `spatial_output_reservoirs_2`
when `n` is odd, and writes `spatial_output_reservoirs_2` in both cases: for every
odd `n` the temporal pass is configured with `output_reservoirs = input_reservoirs`. -/
theorem temporal_pass_after_reset (p : ReSTIRDIRenderPass) (hd : buffers_distinct p)
    (he : p.restir_di_enabled = true)
    (fs : List FrameSettings) (hfs : ∀ f ∈ fs, temporal_only f)
    (f : FrameSettings) (hf : temporal_only f) :
    (∀ r : ReSTIRDIRenderPass, reset r = { r with odd_frame := false }) ∧
    (launched_since (reset (render_frames (reset (update_render_data p)) fs))
        (render_frame (reset (render_frames (reset (update_render_data p)) fs))
          f)).map KernelLaunch.summary
      = (if f.do_lights_presampling then
          [(KernelId.RESTIR_DI_LIGHTS_PRESAMPLING, none, none)] else []) ++
        [(KernelId.RESTIR_DI_INITIAL_CANDIDATES, none, some p.initial_candidates_reservoirs),
         (KernelId.RESTIR_DI_TEMPORAL_REUSE,
          some (if fs.length % 2 = 0 then p.spatial_output_reservoirs_1
                else p.spatial_output_reservoirs_2),
          some p.spatial_output_reservoirs_2)] := by
  refine ⟨fun _ => rfl, ?_⟩
  have hinv := parity_invariant_frames p hd fs hfs _ (parity_invariant_initial p he)
  have hodd := odd_frame_render_frames p hd fs hfs _ (parity_invariant_initial p he)
  obtain ⟨heq, hi, h1, h2, ho, -⟩ := hinv
  obtain ⟨hfu, hte, hsp⟩ := hf
  have hodd' : (render_frames (reset (update_render_data p)) fs).odd_frame
      = (if fs.length % 2 = 0 then false else true) := by
    rw [hodd]
    rfl
  have he' : (set_frame_settings f
      (reset (render_frames (reset (update_render_data p)) fs))).restir_di_enabled = true := heq
  have hx := (extends_launch _ he').launched_since
  have hl : launched_since (reset (render_frames (reset (update_render_data p)) fs))
      (render_frame (reset (render_frames (reset (update_render_data p)) fs)) f)
      = launched_since
          (set_frame_settings f (reset (render_frames (reset (update_render_data p)) fs)))
          (launch (set_frame_settings f
            (reset (render_frames (reset (update_render_data p)) fs)))) := rfl
  rw [hl, hx]
  have hcfg : config_of (set_frame_settings f
      (reset (render_frames (reset (update_render_data p)) fs))) =
      { config_of (render_frames (reset (update_render_data p)) fs) with
        odd_frame := false
        do_lights_presampling := f.do_lights_presampling
        do_fused_spatiotemporal := f.do_fused_spatiotemporal
        do_temporal_reuse_pass := f.do_temporal_reuse_pass
        do_spatial_reuse_pass := f.do_spatial_reuse_pass
        number_of_passes := f.number_of_passes } := rfl
  rw [hcfg]
  by_cases hpar : fs.length % 2 = 0
  · rw [if_pos hpar] at hodd'
    simp [FrameConfig.frame_summary, FrameConfig.reuse_summary, FrameConfig.temporal_output,
      hfu, hte, hsp, config_of, hi, h1, h2, ho, hodd', hpar]
  · rw [if_neg hpar] at hodd'
    simp [FrameConfig.frame_summary, FrameConfig.reuse_summary, FrameConfig.temporal_output,
      hfu, hte, hsp, config_of, hi, h1, h2, ho, hodd', hpar]

/-- C27 at the concrete initial state (buffers 1000, 2000, 3000), one temporal-only
frame, `reset()`, then a temporal-only frame: the temporal pass reads and writes
buffer 3000. -/
theorem temporal_pass_after_reset_witness :
    buffers_distinct example_pass ∧
    (launched_since
        (reset (render_frames (reset (update_render_data example_pass))
          [example_frame true false 1]))
        (render_frame
          (reset (render_frames (reset (update_render_data example_pass))
            [example_frame true false 1]))
          (example_frame true false 1))).map KernelLaunch.summary
      = [(KernelId.RESTIR_DI_INITIAL_CANDIDATES, none, some 1000),
         (KernelId.RESTIR_DI_TEMPORAL_REUSE, some 3000, some 3000)] :=
  ⟨by decide,
   (temporal_pass_after_reset example_pass (by decide) rfl [example_frame true false 1]
      (by decide) (example_frame true false 1) (by decide)).2⟩

/-- C29.  Visibility-matrix size.  For `grid_dimensions_no_envmap = (x, y, z)` with
non-negative components and `m = (x+2)*(y+2)*(z+2)`, the cell count of the grid with
its envmap layer: if `2*m*(m+1) < 2^32` then `get_grid_dimensions_with_envmap` is
`(x+2, y+2, z+2)`, `get_visibility_matrix_element_count` of it returns exactly
`m*(m+1)/2`, an exact half, and `get_vram_usage_bytes` returns exactly 4 times
that, with no 32-bit wrap-around. -/
theorem visibility_matrix_size (data : NEEPlusPlusCPUGPUCommonData)
    (hx : 0 ≤ data.grid_dimensions_no_envmap.x) (hy : 0 ≤ data.grid_dimensions_no_envmap.y)
    (hz : 0 ≤ data.grid_dimensions_no_envmap.z)
    (hm : 2 * (((data.grid_dimensions_no_envmap.x + 2) * (data.grid_dimensions_no_envmap.y + 2)
          * (data.grid_dimensions_no_envmap.z + 2))
        * ((data.grid_dimensions_no_envmap.x + 2) * (data.grid_dimensions_no_envmap.y + 2)
          * (data.grid_dimensions_no_envmap.z + 2) + 1)) < 2 ^ 32) :
    get_grid_dimensions_with_envmap data
      = ⟨data.grid_dimensions_no_envmap.x + 2, data.grid_dimensions_no_envmap.y + 2,
         data.grid_dimensions_no_envmap.z + 2⟩ ∧
    (get_visibility_matrix_element_count (get_grid_dimensions_with_envmap data) : Int)
      = ((data.grid_dimensions_no_envmap.x + 2) * (data.grid_dimensions_no_envmap.y + 2)
          * (data.grid_dimensions_no_envmap.z + 2))
        * ((data.grid_dimensions_no_envmap.x + 2) * (data.grid_dimensions_no_envmap.y + 2)
          * (data.grid_dimensions_no_envmap.z + 2) + 1) / 2 ∧
    2 * (get_visibility_matrix_element_count (get_grid_dimensions_with_envmap data) : Int)
      = ((data.grid_dimensions_no_envmap.x + 2) * (data.grid_dimensions_no_envmap.y + 2)
          * (data.grid_dimensions_no_envmap.z + 2))
        * ((data.grid_dimensions_no_envmap.x + 2) * (data.grid_dimensions_no_envmap.y + 2)
          * (data.grid_dimensions_no_envmap.z + 2) + 1) ∧
    get_vram_usage_bytes data
      = 4 * get_visibility_matrix_element_count (get_grid_dimensions_with_envmap data) := by
  obtain ⟨a, ha⟩ := Int.eq_ofNat_of_zero_le hx
  obtain ⟨b, hb⟩ := Int.eq_ofNat_of_zero_le hy
  obtain ⟨c, hc⟩ := Int.eq_ofNat_of_zero_le hz
  rw [ha, hb, hc] at hm ⊢
  have hN : 2 * (((a + 2) * (b + 2) * (c + 2)) * ((a + 2) * (b + 2) * (c + 2) + 1)) < 2 ^ 32 := by
    exact_mod_cast hm
  have hM : (a + 2) * (b + 2) * (c + 2) < 2 ^ 16 := half_matrix_bound _ hN
  have hab : (a + 2) * (b + 2) ≤ (a + 2) * (b + 2) * (c + 2) :=
    Nat.le_mul_of_pos_right _ (by omega)
  have ha2 : a + 2 ≤ (a + 2) * (b + 2) := Nat.le_mul_of_pos_right _ (by omega)
  have hb2 : b + 2 ≤ (a + 2) * (b + 2) := Nat.le_mul_of_pos_left _ (by omega)
  have hc2 : c + 2 ≤ (a + 2) * (b + 2) * (c + 2) := Nat.le_mul_of_pos_left _ (by
    have : 0 < a + 2 := by omega
    have : 0 < b + 2 := by omega
    positivity)
  have hdims : get_grid_dimensions_with_envmap data
      = ⟨((a + 2 : Nat) : Int), ((b + 2 : Nat) : Int), ((c + 2 : Nat) : Int)⟩ := by
    unfold get_grid_dimensions_with_envmap int3.add
    rw [ha, hb, hc]
    simp only
    rw [int_wrap_of_range _ (by omega) (by omega), int_wrap_of_range _ (by omega) (by omega),
      int_wrap_of_range _ (by omega) (by omega)]
    push_cast
    rfl
  have hcount := get_visibility_matrix_element_count_eq (a + 2) (b + 2) (c + 2) (by omega) hN
  have heven : 2 ∣ ((a + 2) * (b + 2) * (c + 2)) * ((a + 2) * (b + 2) * (c + 2) + 1) :=
    (Nat.even_mul_succ_self _).two_dvd
  refine ⟨?_, ?_, ?_, ?_⟩
  · rw [hdims]
    push_cast
    rfl
  · rw [hdims, hcount, Int.natCast_div]
    push_cast
    rfl
  · rw [hdims, hcount]
    have h2 := Nat.mul_div_cancel' heven
    have h3 : (2 : Int) * (((((a + 2) * (b + 2) * (c + 2)) * ((a + 2) * (b + 2) * (c + 2) + 1) / 2
        : Nat)) : Int)
        = (((((a + 2) * (b + 2) * (c + 2)) * ((a + 2) * (b + 2) * (c + 2) + 1)) : Nat) : Int) := by
      exact_mod_cast h2
    rw [h3]
    push_cast
    rfl
  · have hv : get_vram_usage_bytes data
        = unsigned_wrap (size_t_wrap
            (get_visibility_matrix_element_count (get_grid_dimensions_with_envmap data) * 4)) :=
      rfl
    rw [hv, hdims, hcount]
    have h2 := Nat.div_mul_le_self
      (((a + 2) * (b + 2) * (c + 2)) * ((a + 2) * (b + 2) * (c + 2) + 1)) 2
    unfold size_t_wrap
    rw [Nat.mod_eq_of_lt (by omega), unsigned_wrap_of_range _ (by omega)]
    omega

/-- C29 at the concrete grid of 16 x 16 x 16 cells: `m = 18^3 = 5832`. -/
theorem visibility_matrix_size_witness :
    (2 * (((example_nee_plus_plus.grid_dimensions_no_envmap.x + 2)
          * (example_nee_plus_plus.grid_dimensions_no_envmap.y + 2)
          * (example_nee_plus_plus.grid_dimensions_no_envmap.z + 2))
        * ((example_nee_plus_plus.grid_dimensions_no_envmap.x + 2)
          * (example_nee_plus_plus.grid_dimensions_no_envmap.y + 2)
          * (example_nee_plus_plus.grid_dimensions_no_envmap.z + 2) + 1)) < 2 ^ 32) ∧
    get_vram_usage_bytes example_nee_plus_plus
      = 4 * get_visibility_matrix_element_count
          (get_grid_dimensions_with_envmap example_nee_plus_plus) :=
  ⟨by norm_num [example_nee_plus_plus],
   (visibility_matrix_size example_nee_plus_plus (by norm_num [example_nee_plus_plus])
      (by norm_num [example_nee_plus_plus]) (by norm_num [example_nee_plus_plus])
      (by norm_num [example_nee_plus_plus])).2.2.2⟩

/-- C30.  Envmap layer keeps the voxel size.  For base grid dimensions `d` with
positive components and extents `min < max` on each axis, `get_grid_extents` returns
`out_min = min - v` and `out_max = max + v` with `v = (max - min) / d` per axis; `v`
is positive, so the base grid lies strictly inside with one voxel of margin on each
side; and on each axis `(out_max - out_min) / (d + 2) = v`: the extended grid of
`d + 2` cells per axis, which is `get_grid_dimensions_with_envmap()` when `d` is
`grid_dimensions_no_envmap`, has the voxel size of the base grid (exact
arithmetic). -/
theorem envmap_layer_keeps_voxel_size (data : NEEPlusPlusCPUGPUCommonData)
    (base_grid_dimensions : int3)
    (hdx : 0 < base_grid_dimensions.x) (hdy : 0 < base_grid_dimensions.y)
    (hdz : 0 < base_grid_dimensions.z)
    (hx : data.base_grid_min_point.x < data.base_grid_max_point.x)
    (hy : data.base_grid_min_point.y < data.base_grid_max_point.y)
    (hz : data.base_grid_min_point.z < data.base_grid_max_point.z) :
    one_voxel_size data base_grid_dimensions
      = ⟨(data.base_grid_max_point.x - data.base_grid_min_point.x) / base_grid_dimensions.x,
         (data.base_grid_max_point.y - data.base_grid_min_point.y) / base_grid_dimensions.y,
         (data.base_grid_max_point.z - data.base_grid_min_point.z) / base_grid_dimensions.z⟩ ∧
    (get_grid_extents data base_grid_dimensions).1
      = data.base_grid_min_point.sub (one_voxel_size data base_grid_dimensions) ∧
    (get_grid_extents data base_grid_dimensions).2
      = data.base_grid_max_point.add (one_voxel_size data base_grid_dimensions) ∧
    (0 < (one_voxel_size data base_grid_dimensions).x ∧
     0 < (one_voxel_size data base_grid_dimensions).y ∧
     0 < (one_voxel_size data base_grid_dimensions).z) ∧
    (((get_grid_extents data base_grid_dimensions).2.x
        - (get_grid_extents data base_grid_dimensions).1.x) / ((base_grid_dimensions.x : ℚ) + 2)
      = (one_voxel_size data base_grid_dimensions).x ∧
     ((get_grid_extents data base_grid_dimensions).2.y
        - (get_grid_extents data base_grid_dimensions).1.y) / ((base_grid_dimensions.y : ℚ) + 2)
      = (one_voxel_size data base_grid_dimensions).y ∧
     ((get_grid_extents data base_grid_dimensions).2.z
        - (get_grid_extents data base_grid_dimensions).1.z) / ((base_grid_dimensions.z : ℚ) + 2)
      = (one_voxel_size data base_grid_dimensions).z) ∧
    (data.grid_dimensions_no_envmap = base_grid_dimensions →
      base_grid_dimensions.x + 2 < 2 ^ 31 → base_grid_dimensions.y + 2 < 2 ^ 31 →
      base_grid_dimensions.z + 2 < 2 ^ 31 →
      get_grid_dimensions_with_envmap data
        = ⟨base_grid_dimensions.x + 2, base_grid_dimensions.y + 2,
           base_grid_dimensions.z + 2⟩) := by
  have qx : (0 : ℚ) < (base_grid_dimensions.x : ℚ) := by exact_mod_cast hdx
  have qy : (0 : ℚ) < (base_grid_dimensions.y : ℚ) := by exact_mod_cast hdy
  have qz : (0 : ℚ) < (base_grid_dimensions.z : ℚ) := by exact_mod_cast hdz
  have hv : one_voxel_size data base_grid_dimensions
      = ⟨(data.base_grid_max_point.x - data.base_grid_min_point.x) / base_grid_dimensions.x,
         (data.base_grid_max_point.y - data.base_grid_min_point.y) / base_grid_dimensions.y,
         (data.base_grid_max_point.z - data.base_grid_min_point.z) / base_grid_dimensions.z⟩ :=
    rfl
  refine ⟨hv, rfl, rfl, ?_, ?_, ?_⟩
  · rw [hv]
    exact ⟨div_pos (sub_pos.mpr hx) qx, div_pos (sub_pos.mpr hy) qy,
      div_pos (sub_pos.mpr hz) qz⟩
  · have e : get_grid_extents data base_grid_dimensions
        = (data.base_grid_min_point.sub (one_voxel_size data base_grid_dimensions),
           data.base_grid_max_point.add (one_voxel_size data base_grid_dimensions)) := rfl
    rw [e, hv]
    simp only [float3.sub, float3.add]
    refine ⟨?_, ?_, ?_⟩
    · field_simp
      ring
    · field_simp
      ring
    · field_simp
      ring
  · intro hd h1 h2 h3
    unfold get_grid_dimensions_with_envmap int3.add
    rw [hd]
    simp only
    rw [int_wrap_of_range _ (by omega) h1, int_wrap_of_range _ (by omega) h2,
      int_wrap_of_range _ (by omega) h3]

/-- C30 at the concrete grid: 16 cells per axis over the box from (0, 0, 0) to
(16, 32, 8); the voxel size is (1, 2, 1/2). -/
theorem envmap_layer_keeps_voxel_size_witness :
    (0 < (⟨16, 16, 16⟩ : int3).x ∧
      example_nee_plus_plus.base_grid_min_point.x
        < example_nee_plus_plus.base_grid_max_point.x) ∧
    ((get_grid_extents example_nee_plus_plus ⟨16, 16, 16⟩).2.x
        - (get_grid_extents example_nee_plus_plus ⟨16, 16, 16⟩).1.x)
        / (((⟨16, 16, 16⟩ : int3).x : ℚ) + 2)
      = (one_voxel_size example_nee_plus_plus ⟨16, 16, 16⟩).x ∧
    one_voxel_size example_nee_plus_plus ⟨16, 16, 16⟩ = ⟨1, 2, 1 / 2⟩ :=
  ⟨⟨by decide, by norm_num [example_nee_plus_plus]⟩,
   (envmap_layer_keeps_voxel_size example_nee_plus_plus ⟨16, 16, 16⟩ (by decide) (by decide)
      (by decide) (by norm_num [example_nee_plus_plus]) (by norm_num [example_nee_plus_plus])
      (by norm_num [example_nee_plus_plus])).2.2.2.2.1.1,
   by norm_num [one_voxel_size, example_nee_plus_plus, float3.sub, float3.div_components,
     make_float3]⟩

end HIPRT
